import Mathlib

/-!
# OneFlow instruction virtual machine: a verification development

Shallow embedding of

* `oneflow/core/vm/cuda_copy_d2h_stream_type.cpp` (`CudaCopyD2HStreamType`),
* `oneflow/core/eager/opkernel_instruction_type.cpp` (`LocalCallOpKernelUtil`,
  `LocalCallOpKernelInstructionType`),
* `oneflow/core/actor/source_tick_compute_actor.h` (`SourceTickComputeActor`),
* `oneflow/core/vm/stream_runtime_desc.cpp` (`StreamRtDesc`),
* `oneflow/core/framework/op_interpreter/op_interpreter_util.cpp` (`GetInterpreter`),
* `oneflow/core/job/model_io_v2_job.cpp` (`MakeModelIoV2Jobs`),
* `oneflow/ir/lib/OneFlow/OneFlowOpTraits.cpp` (folders and verifiers of the op traits),

and a model of the scheduler, which is described in the specification only.

Conventions.  Machine integers are `Int`/`Nat` with explicit wrap-around.  Calls into
collaborators whose bodies are defined in other files (blob objects, the user kernel)
are functions on the machine state that the embedding receives as data; every such call is
also appended, with its arguments, to a ghost `trace`, so that ordering properties can be
stated.  What a function did to the machine is stated with `World.after`: the world after a
list of calls, each with the action that the collaborator performs on the machine.  A failed
`CHECK` ends the process and is the outcome `aborted`.
-/

namespace oneflow

/-! ## Machine integers -/

/-- Range of a C++ `int32_t`. -/
def isInt32 (n : Int) : Prop := -2147483648 ≤ n ∧ n < 2147483648

instance (n : Int) : Decidable (isInt32 n) := by unfold isInt32; infer_instance

/-- Conversion of a signed integer to `std::size_t` (64 bit, modular). -/
def toSizeT (n : Int) : Nat := (n % 18446744073709551616).toNat

/-- Conversion of an unsigned value to `int32_t` (two's complement wrap-around). -/
def toInt32 (m : Nat) : Int := ((m : Int) + 2147483648) % 4294967296 - 2147483648

/-- Conversion `static_cast<int64_t>` of a `size_t` (two's complement wrap-around). -/
def toInt64 (m : Nat) : Int :=
  ((m : Int) + 9223372036854775808) % 18446744073709551616 - 9223372036854775808

namespace vm

/-! ## Stream descriptors (`MakeStreamDesc`) -/

/-- The stream types of the virtual machine; each constructor stands for the one static
instance `StaticGlobalStreamType<T>()` of its class. -/
inductive StreamType where
  | CpuStreamType
  | CudaStreamType
  | CudaCopyH2DStreamType
  | CudaCopyD2HStreamType
  deriving DecidableEq, Repr

/-- The protobuf message `Resource`, restricted to the field read by `MakeStreamDesc`.
`gpu_device_num_ = none` is the field left unset; the field is an `int32`. -/
structure Resource where
  gpu_device_num_ : Option Int
  deriving DecidableEq, Repr

/-- Protobuf presence test `resource.has_gpu_device_num()`. -/
def Resource.has_gpu_device_num (resource : Resource) : Bool :=
  resource.gpu_device_num_.isSome

/-- Protobuf getter `resource.gpu_device_num()` (an unset field reads as 0). -/
def Resource.gpu_device_num (resource : Resource) : Int :=
  resource.gpu_device_num_.getD 0

/-- The class `StreamDesc`; its two counters are `int32_t` fields. -/
structure StreamDesc where
  stream_type : StreamType
  num_streams_per_machine : Int
  num_streams_per_thread : Int
  deriving DecidableEq, Repr

/-- Embedding of `CudaCopyD2HStreamType::MakeStreamDesc`; `none` is the null
`intrusive::shared_ptr<StreamDesc>()`. -/
def CudaCopyD2HStreamType.MakeStreamDesc (resource : Resource) (_this_machine_id : Int) :
    Option StreamDesc :=
  if !resource.has_gpu_device_num then none
  else
    let device_num : Nat := toSizeT resource.gpu_device_num
    some { stream_type := StreamType.CudaCopyD2HStreamType
           num_streams_per_machine := toInt32 device_num
           num_streams_per_thread := toInt32 device_num }

/-! ## The CUDA runtime, as far as the stream type uses it -/

/-- The CUDA error code type `cudaError_t`. -/
abbrev cudaError_t := Nat

/-- The code `cudaSuccess`. -/
def cudaSuccess : cudaError_t := 0

/-- The code `cudaErrorInvalidDevice`. -/
def cudaErrorInvalidDevice : cudaError_t := 101

/-- State of a CUDA event: never recorded, recorded with work still outstanding, or recorded
and complete. -/
inductive CudaEventState where
  | created
  | pending
  | completed
  deriving DecidableEq, Repr

/-- The part of the CUDA runtime state that the stream type reads and writes. -/
structure CudaRuntime where
  device_count : Nat
  current_device : Int
  last_error : cudaError_t
  event : Nat → CudaEventState

/-- CUDA runtime call `cudaSetDevice(device)`. -/
def cudaSetDevice (device : Int) (rt : CudaRuntime) : CudaRuntime :=
  if 0 ≤ device ∧ device < rt.device_count then { rt with current_device := device }
  else { rt with last_error := cudaErrorInvalidDevice }

/-- CUDA runtime call `cudaGetLastError()`: reports the last error and resets it. -/
def cudaGetLastError (rt : CudaRuntime) : cudaError_t × CudaRuntime :=
  (rt.last_error, { rt with last_error := cudaSuccess })

/-- CUDA runtime call `cudaEventRecord(event, stream)`. -/
def cudaEventRecord (event : Nat) (rt : CudaRuntime) : CudaRuntime :=
  { rt with event := Function.update rt.event event CudaEventState.pending }

/-- CUDA runtime call `cudaEventQuery(event) == cudaSuccess`: all work captured by the event
has completed (an event that was never recorded also reports success). -/
def cudaEventQuery (event : Nat) (rt : CudaRuntime) : Bool :=
  decide (rt.event event ≠ CudaEventState.pending)

/-- The device finishes the work captured by `event`. -/
def cudaEventCompletes (event : Nat) (rt : CudaRuntime) : CudaRuntime :=
  if rt.event event = CudaEventState.pending then
    { rt with event := Function.update rt.event event CudaEventState.completed }
  else rt

/-! ## Machine state, calls and outcomes -/

/-- Everything a collaborator may read or write: the CUDA runtime and the memory `μ`. -/
structure Machine (μ : Type) where
  cuda : CudaRuntime
  mem : μ

/-- The calls that the embedded functions make, with their arguments.  Objects are named by
their address; a null pointer argument is `none`. -/
inductive Call where
  | cudaSetDevice (device : Int)
  | cudaGetLastError
  | GetCudaEvent (device_ctx : Nat)
  | SetLaunched (device_ctx : Nat)
  | ResetPrior (attrs : Nat)
  | TryInitBlob (blob : Nat)
  | TryAllocateBlobBodyMemory (blob : Nat) (device_ctx : Nat)
  | InferContextUpdate (inputs outputs infer_result : Option Nat)
  | InferTmpSizeFn
  | set_shape (blob : Nat) (dim : Int)
  | set_is_dynamic (blob : Nat) (val : Bool)
  | InitBlob (blob : Nat)
  | TryInitOpKernelStateAndCache (device_ctx : Nat) (inputs outputs infer_result : Option Nat)
      (state_slot cache_slot : Bool)
  | UpdateComputeContext (inputs outputs infer_result device_ctx : Option Nat)
  | KernelCompute (state cache : Option Nat)
  | DeallocateBlobDataPtr (blob : Nat)
  deriving DecidableEq, Repr

/-- Modelled from the spec: CudaOptionalEventRecordStatusQuerier, the completion token that
the stream type places in a status buffer (only its uses are embedded from code).  It holds
the `launched` mark and the handle of the cuda event on which completion is observed. -/
structure CudaOptionalEventRecordStatusQuerier where
  launched : Bool
  cuda_event : Nat
  deriving DecidableEq, Repr

/-- An `InstructionStatusBuffer`, viewed through `Cast` / `MutCast` as the querier stored in
its bytes. -/
abbrev InstructionStatusBuffer := CudaOptionalEventRecordStatusQuerier

/-- State threaded through the embedded functions: the machine, the status buffer of the
instruction being executed, and the ghost trace of calls made so far. -/
structure World (μ : Type) where
  machine : Machine μ
  status_buffer : InstructionStatusBuffer
  trace : List Call

/-- Perform a collaborator call `f` on the machine and log it as `c`. -/
def World.call {μ α : Type} (w : World μ) (c : Call) (f : Machine μ → α × Machine μ) :
    α × World μ :=
  ((f w.machine).1, { w with machine := (f w.machine).2, trace := w.trace ++ [c] })

/-- Perform a collaborator call without a result on the machine and log it as `c`. -/
def World.exec {μ : Type} (w : World μ) (c : Call) (f : Machine μ → Machine μ) : World μ :=
  { w with machine := f w.machine, trace := w.trace ++ [c] }

/-- Perform a CUDA runtime call that only changes the runtime state, and log it as `c`. -/
def World.cudaExec {μ : Type} (w : World μ) (c : Call) (f : CudaRuntime → CudaRuntime) :
    World μ :=
  w.exec c (fun m => { m with cuda := f m.cuda })

/-- How a call ends: it returns `val` in state `s`, or a failed `CHECK` ends the process in
state `s`. -/
inductive Outcome (α S : Type) where
  | returned (val : α) (s : S)
  | aborted (s : S)

/-- Whether a call returned (rather than aborted). -/
def Outcome.isReturned {α S : Type} : Outcome α S → Bool
  | .returned _ _ => true
  | .aborted _ => false

/-- The state in which a call ended. -/
def Outcome.state {α S : Type} : Outcome α S → S
  | .returned _ s => s
  | .aborted s => s

/-- An error object (`ErrorProto`) carried by a failed `Maybe`. -/
abbrev ErrorProto := String

/-- The result type `Maybe<void>`. -/
inductive Maybe where
  | Ok
  | Error (e : ErrorProto)
  deriving DecidableEq, Repr

/-- The macro `JUST(...)` on a `Maybe<void>`: continue with `k` on `Ok`, return the error
otherwise. -/
def JUST {S : Type} (r : Outcome Maybe S) (k : S → Outcome Maybe S) : Outcome Maybe S :=
  match r with
  | .returned .Ok s => k s
  | .returned (.Error e) s => .returned (.Error e) s
  | .aborted s => .aborted s

/-- A call that cannot abort, as an outcome. -/
def Outcome.ofPair {α S : Type} (r : α × S) : Outcome α S := .returned r.1 r.2

/-- Modelled from the spec: the macro CHECK_JUST (only its uses are embedded from code), which
turns an error result into a fatal check failure and lets `Ok` through. -/
def CHECK_JUST {S : Type} (r : Outcome Maybe S) : Outcome Unit S :=
  match r with
  | .returned .Ok s => .returned () s
  | .returned (.Error _) s => .aborted s
  | .aborted s => .aborted s

/-- Modelled from the spec: the macro OF_CUDA_CHECK (only its uses are embedded from code): a
CUDA error code other than `cudaSuccess` is fatal and aborts the process. -/
def OF_CUDA_CHECK {S : Type} (err : cudaError_t) (s : S) : Outcome Unit S :=
  if err = cudaSuccess then .returned () s else .aborted s

/-! ## Streams, instructions and operands -/

/-- A `DeviceCtx` object: its address and, when `dynamic_cast<QueryCudaEventProvider*>`
succeeds, its `GetCudaEvent`. -/
structure DeviceCtx (μ : Type) where
  addr : Nat
  event_provider : Option (Machine μ → Nat × Machine μ)

/-- A `Stream`: its device id and the device context it owns. -/
structure Stream (μ : Type) where
  device_id : Int
  device_ctx : DeviceCtx μ

/-- The enumeration `DataType`, as far as it is used here. -/
inductive DataType where
  | kInvalidDataType
  | kChar
  | kFloat
  | kDouble
  | kInt8
  | kInt32
  | kInt64
  deriving DecidableEq, Repr

/-- An `EagerBlobObject`: its address and the member functions called on it. -/
structure EagerBlobObject (μ : Type) where
  addr : Nat
  TryInitBlob : Machine μ → Maybe × Machine μ
  InitBlob : Machine μ → Maybe × Machine μ
  TryAllocateBlobBodyMemory : Nat → Machine μ → Maybe × Machine μ
  DeallocateBlobDataPtr : Machine μ → Maybe × Machine μ
  data_type : Machine μ → DataType
  set_shape : Int → Machine μ → Machine μ
  set_is_dynamic : Bool → Machine μ → Machine μ

/-- An `EagerBlobObjectList` held through a shared pointer: its address and its elements. -/
structure EagerBlobObjectList (μ : Type) where
  addr : Nat
  objects : List (EagerBlobObject μ)

/-- The user kernel `user_op::OpKernel`.  `Compute` receives the state and cache pointers; the
compute context it is given was set up by `UpdateComputeContext` just before. -/
structure OpKernel (μ : Type) where
  has_state_or_cache : Bool
  Compute : Option Nat → Option Nat → Machine μ → Machine μ

/-- The `StatefulLocalOpKernel` of an operand, with the member functions called on it.
`InferTmpSizeFn` returns a `size_t`.  `TryInitOpKernelStateAndCache` receives the device
context and whether the state and cache slots are non-null, and returns what the two slots
hold afterwards. -/
structure StatefulLocalOpKernel (μ : Type) where
  ResetPrior : Nat → Machine μ → Machine μ
  temp_blob_object : EagerBlobObject μ
  InferTmpSizeFn : Machine μ → Nat × Machine μ
  InferContextUpdate : Option Nat → Option Nat → Option Nat → Machine μ → Machine μ
  TryInitOpKernelStateAndCache :
    Nat → Bool → Bool → Machine μ → (Option Nat × Option Nat) × Machine μ
  UpdateComputeContext :
    Option Nat → Option Nat → Option Nat → Option Nat → Machine μ → Machine μ

/-- The operand `LocalCallOpKernelPhyInstrOperand`. -/
structure LocalCallOpKernelPhyInstrOperand (μ : Type) where
  opkernel : StatefulLocalOpKernel μ
  user_opkernel : OpKernel μ
  attrs : Nat
  inputs : EagerBlobObjectList μ
  outputs : EagerBlobObjectList μ
  consistent_tensor_infer_result : Option Nat
  need_temp_storage : Bool
  op_interp_ctx_state : Option Nat

/-- A `PhyInstrOperand`, by dynamic type. -/
inductive PhyInstrOperand (μ : Type) where
  | LocalCallOpKernel (operand : LocalCallOpKernelPhyInstrOperand μ)
  | Other

/-- An `InstructionMsg`: its stream and its (possibly null) operand. -/
structure InstructionMsg (μ : Type) where
  phy_instr_stream : Stream μ
  phy_instr_operand : Option (PhyInstrOperand μ)

/-- An `Instruction`: its stream and its message.  Its status buffer is
`World.status_buffer`. -/
structure Instruction (μ : Type) where
  stream : Stream μ
  instr_msg : InstructionMsg μ

/-- An `InstructionType`, by its virtual `Compute`. -/
structure InstructionType (μ : Type) where
  Compute : Instruction μ → World μ → Outcome Unit (World μ)

/-! ## `LocalCallOpKernelUtil`

The profiler markers `OF_PROFILER_RANGE_PUSH` / `OF_PROFILER_RANGE_POP` have no effect on the
state and are left out. -/

namespace LocalCallOpKernelUtil

/-- Embedding of `LocalCallOpKernelUtil::GetLocalCallOpKernelPhyInstrOperand`; `none` is a failed
`CHECK_NOTNULL` (null operand, or an operand of another dynamic type). -/
def GetLocalCallOpKernelPhyInstrOperand {μ : Type} (instr_msg : InstructionMsg μ) :
    Option (LocalCallOpKernelPhyInstrOperand μ) :=
  match instr_msg.phy_instr_operand with
  | some (.LocalCallOpKernel operand) => some operand
  | some .Other => none
  | none => none

/-- The loop of `LocalCallOpKernelUtil::AllocateOutputBlobsMemory` over the output blob
objects. -/
def AllocateOutputBlobsMemoryLoop {μ : Type} (device_ctx : Nat) :
    List (EagerBlobObject μ) → World μ → Maybe × World μ
  | [], w => (.Ok, w)
  | blob_object :: rest, w =>
    match w.call (.TryInitBlob blob_object.addr) blob_object.TryInitBlob with
    | (.Error e, w1) => (.Error e, w1)
    | (.Ok, w1) =>
      match w1.call (.TryAllocateBlobBodyMemory blob_object.addr device_ctx)
          (blob_object.TryAllocateBlobBodyMemory device_ctx) with
      | (.Error e, w2) => (.Error e, w2)
      | (.Ok, w2) => AllocateOutputBlobsMemoryLoop device_ctx rest w2

/-- Embedding of `LocalCallOpKernelUtil::AllocateOutputBlobsMemory`. -/
def AllocateOutputBlobsMemory {μ : Type} (operand : LocalCallOpKernelPhyInstrOperand μ)
    (device_ctx : Nat) (w : World μ) : Maybe × World μ :=
  AllocateOutputBlobsMemoryLoop device_ctx operand.outputs.objects w

/-- Embedding of `LocalCallOpKernelUtil::InferTempStorageBlobDesc`; the `CHECK` on the data
type of the temp blob aborts. -/
def InferTempStorageBlobDesc {μ : Type} (operand : LocalCallOpKernelPhyInstrOperand μ)
    (w : World μ) : Outcome Unit (World μ) :=
  let temp := operand.opkernel.temp_blob_object
  if temp.data_type w.machine ≠ DataType.kChar then .aborted w
  else
    let w1 := w.exec
      (.InferContextUpdate (some operand.inputs.addr) (some operand.outputs.addr)
        operand.consistent_tensor_infer_result)
      (operand.opkernel.InferContextUpdate (some operand.inputs.addr)
        (some operand.outputs.addr) operand.consistent_tensor_infer_result)
    let r := w1.call .InferTmpSizeFn operand.opkernel.InferTmpSizeFn
    let temp_size : Nat := r.1
    let w2 := r.2.exec (.set_shape temp.addr (toInt64 temp_size))
      (temp.set_shape (toInt64 temp_size))
    let w3 := w2.exec (.set_is_dynamic temp.addr true) (temp.set_is_dynamic true)
    let w4 := w3.exec (.InferContextUpdate none none none)
      (operand.opkernel.InferContextUpdate none none none)
    .returned () w4

/-- Embedding of `LocalCallOpKernelUtil::ResetTempStorageBlob`. -/
def ResetTempStorageBlob {μ : Type} (operand : LocalCallOpKernelPhyInstrOperand μ)
    (w : World μ) : Maybe × World μ :=
  w.call (.InitBlob operand.opkernel.temp_blob_object.addr)
    operand.opkernel.temp_blob_object.InitBlob

/-- Embedding of `LocalCallOpKernelUtil::TryAllocateTempStorageBlobMemory`. -/
def TryAllocateTempStorageBlobMemory {μ : Type} (operand : LocalCallOpKernelPhyInstrOperand μ)
    (device_ctx : Nat) (w : World μ) : Maybe × World μ :=
  w.call (.TryAllocateBlobBodyMemory operand.opkernel.temp_blob_object.addr device_ctx)
    (operand.opkernel.temp_blob_object.TryAllocateBlobBodyMemory device_ctx)

/-- Embedding of `LocalCallOpKernelUtil::TryInitOpKernelStateAndCache`; the result is the
content of the local variables `state` and `cache` of `Compute` afterwards, both null before
the call. -/
def TryInitOpKernelStateAndCache {μ : Type} (operand : LocalCallOpKernelPhyInstrOperand μ)
    (device_ctx : Nat) (w : World μ) : (Option Nat × Option Nat) × World μ :=
  let state_slot : Bool := operand.op_interp_ctx_state.isNone
  let r := w.call
    (.TryInitOpKernelStateAndCache device_ctx (some operand.inputs.addr)
      (some operand.outputs.addr) operand.consistent_tensor_infer_result state_slot true)
    (operand.opkernel.TryInitOpKernelStateAndCache device_ctx state_slot true)
  let state : Option Nat :=
    match operand.op_interp_ctx_state with
    | some s => some s
    | none => r.1.1
  ((state, r.1.2), r.2)

/-- Embedding of `LocalCallOpKernelUtil::OpKernelCompute`. -/
def OpKernelCompute {μ : Type} (operand : LocalCallOpKernelPhyInstrOperand μ)
    (device_ctx : Nat) (state cache : Option Nat) (w : World μ) : World μ :=
  let w1 := w.exec
    (.UpdateComputeContext (some operand.inputs.addr) (some operand.outputs.addr)
      operand.consistent_tensor_infer_result (some device_ctx))
    (operand.opkernel.UpdateComputeContext (some operand.inputs.addr)
      (some operand.outputs.addr) operand.consistent_tensor_infer_result (some device_ctx))
  let w2 := w1.exec (.KernelCompute state cache)
    (operand.user_opkernel.Compute state cache)
  w2.exec (.UpdateComputeContext none none none none)
    (operand.opkernel.UpdateComputeContext none none none none)

/-- Embedding of `LocalCallOpKernelUtil::DeallocateTempStorageBlobMemory`. -/
def DeallocateTempStorageBlobMemory {μ : Type} (operand : LocalCallOpKernelPhyInstrOperand μ)
    (_device_ctx : Nat) (w : World μ) : Maybe × World μ :=
  w.call (.DeallocateBlobDataPtr operand.opkernel.temp_blob_object.addr)
    operand.opkernel.temp_blob_object.DeallocateBlobDataPtr

/-- The temp storage block of `Compute` that precedes the kernel: infer the size, reset the
blob, allocate its memory. -/
def TempStoragePrologue {μ : Type} (operand : LocalCallOpKernelPhyInstrOperand μ)
    (device_ctx : Nat) (w : World μ) : Outcome Maybe (World μ) :=
  match InferTempStorageBlobDesc operand w with
  | .aborted w1 => .aborted w1
  | .returned () w1 =>
    JUST (.ofPair (ResetTempStorageBlob operand w1)) fun w2 =>
      .ofPair (TryAllocateTempStorageBlobMemory operand device_ctx w2)

/-- The part of `Compute` from the state and cache initialisation to the end. -/
def ComputeKernelAndRelease {μ : Type} (operand : LocalCallOpKernelPhyInstrOperand μ)
    (device_ctx : Nat) (w : World μ) : Outcome Maybe (World μ) :=
  let sc : (Option Nat × Option Nat) × World μ :=
    if operand.user_opkernel.has_state_or_cache then
      TryInitOpKernelStateAndCache operand device_ctx w
    else ((none, none), w)
  let w1 := OpKernelCompute operand device_ctx sc.1.1 sc.1.2 sc.2
  if operand.need_temp_storage then
    .ofPair (DeallocateTempStorageBlobMemory operand device_ctx w1)
  else .returned .Ok w1

/-- First statement of `Compute` on the operand: `ResetPrior(operand->attrs())` on the composed
attributes of the kernel. -/
def priorReset {μ : Type} (operand : LocalCallOpKernelPhyInstrOperand μ) (w : World μ) :
    World μ :=
  w.exec (.ResetPrior operand.attrs) (operand.opkernel.ResetPrior operand.attrs)

/-- Embedding of `LocalCallOpKernelUtil::Compute`. -/
def Compute {μ : Type} (instr_msg : InstructionMsg μ) (w : World μ) :
    Outcome Maybe (World μ) :=
  match GetLocalCallOpKernelPhyInstrOperand instr_msg with
  | none => .aborted w
  | some operand =>
    let w0 := priorReset operand w
    let device_ctx : Nat := instr_msg.phy_instr_stream.device_ctx.addr
    JUST (.ofPair (AllocateOutputBlobsMemory operand device_ctx w0)) fun w1 =>
      JUST (if operand.need_temp_storage then TempStoragePrologue operand device_ctx w1
            else .returned .Ok w1) fun w2 =>
        ComputeKernelAndRelease operand device_ctx w2

end LocalCallOpKernelUtil

namespace LocalCallOpKernelInstructionType

/-- Embedding of `LocalCallOpKernelInstructionType::Compute`. -/
def Compute {μ : Type} (instruction : Instruction μ) (w : World μ) : Outcome Unit (World μ) :=
  CHECK_JUST (LocalCallOpKernelUtil.Compute instruction.instr_msg w)

/-- Embedding of `LocalCallOpKernelInstructionType::ComputeInFuseMode`. -/
def ComputeInFuseMode {μ : Type} (instr_msg : InstructionMsg μ) (w : World μ) :
    Outcome Unit (World μ) :=
  CHECK_JUST (LocalCallOpKernelUtil.Compute instr_msg w)

/-- The instruction type object of `LocalCallOpKernelInstructionType`. -/
def instruction_type (μ : Type) : InstructionType μ := { Compute := Compute }

end LocalCallOpKernelInstructionType

/-! ## `CudaCopyD2HStreamType` -/

namespace CudaOptionalEventRecordStatusQuerier

/-- Modelled from the spec: CudaOptionalEventRecordStatusQuerier::PlacementNew, which
constructs in the buffer a token for `cuda_event` that is not yet launched. -/
def PlacementNew (cuda_event : Nat) : CudaOptionalEventRecordStatusQuerier :=
  { launched := false, cuda_event := cuda_event }

/-- Modelled from the spec: CudaOptionalEventRecordStatusQuerier::done, true when the
instruction launched and the cuda event completed. -/
def done (q : CudaOptionalEventRecordStatusQuerier) (rt : CudaRuntime) : Bool :=
  q.launched && cudaEventQuery q.cuda_event rt

/-- Modelled from the spec: CudaOptionalEventRecordStatusQuerier::SetLaunched, which records
the cuda event on the stream of `device_ctx` and marks the token launched. -/
def SetLaunched {μ : Type} (device_ctx : Nat) (w : World μ) : World μ :=
  let w1 := w.cudaExec (.SetLaunched device_ctx) (cudaEventRecord w.status_buffer.cuda_event)
  { w1 with status_buffer := { w1.status_buffer with launched := true } }

end CudaOptionalEventRecordStatusQuerier

namespace CudaCopyD2HStreamType

/-- Embedding of `CudaCopyD2HStreamType::InitInstructionStatus`; a device context that is not a
`QueryCudaEventProvider` fails `CHECK_NOTNULL`. -/
def InitInstructionStatus {μ : Type} (stream : Stream μ) (w : World μ) :
    Outcome Unit (World μ) :=
  match stream.device_ctx.event_provider with
  | none => .aborted w
  | some GetCudaEvent =>
    let r := w.call (.GetCudaEvent stream.device_ctx.addr) GetCudaEvent
    .returned () { r.2 with
      status_buffer := CudaOptionalEventRecordStatusQuerier.PlacementNew r.1 }

/-- Embedding of `CudaCopyD2HStreamType::QueryInstructionStatusDone`; the CUDA runtime state
is the one in which the query is made. -/
def QueryInstructionStatusDone {μ : Type} (_stream : Stream μ)
    (status_buffer : InstructionStatusBuffer) (rt : CudaRuntime) : Bool :=
  CudaOptionalEventRecordStatusQuerier.done status_buffer rt

/-- First statement of `CudaCopyD2HStreamType::Compute`: `cudaSetDevice(stream->device_id())`. -/
def deviceSelected {μ : Type} (stream : Stream μ) (w : World μ) : World μ :=
  w.cudaExec (.cudaSetDevice stream.device_id) (cudaSetDevice stream.device_id)

/-- Embedding of `CudaCopyD2HStreamType::Compute`, for an instruction whose
`instr_type_id().instruction_type()` is `instruction_type`. -/
def Compute {μ : Type} (instruction_type : InstructionType μ) (instruction : Instruction μ)
    (w : World μ) : Outcome Unit (World μ) :=
  let stream := instruction.stream
  let w0 := deviceSelected stream w
  match instruction_type.Compute instruction w0 with
  | .aborted w1 => .aborted w1
  | .returned () w1 =>
    let err : cudaError_t := (cudaGetLastError w1.machine.cuda).1
    let w2 := w1.cudaExec .cudaGetLastError (fun rt => (cudaGetLastError rt).2)
    match OF_CUDA_CHECK err w2 with
    | .aborted w3 => .aborted w3
    | .returned () w3 =>
      .returned () (CudaOptionalEventRecordStatusQuerier.SetLaunched stream.device_ctx.addr w3)

/-- Modelled from the spec: QueryCudaEventProvider::GetCudaEvent of the device context, on a
machine whose memory lists the cuda events held by the live status buffers of the device.  The
provider is not among the embedded files.  By the ownership rule of the spec, an instruction
exclusively owns its status buffer, and with it the completion token that wraps the event
handle, until retirement: the event handed out is one that no live status buffer holds. -/
def GetCudaEvent (m : Machine (List Nat)) : Nat × Machine (List Nat) :=
  (m.mem.foldl max 0 + 1, m)

/-- Modelled from the spec: the status buffers on a device as seen from one instruction: the
CUDA runtime, the status buffer of the instruction (`mine`), and the live status buffers of
the other instructions. -/
structure StreamLife where
  rt : CudaRuntime
  mine : InstructionStatusBuffer
  others : List InstructionStatusBuffer

/-- A stream of the device whose device context provides events through `GetCudaEvent`. -/
def StreamLife.stream (device_id : Int) (device_ctx : Nat) : Stream (List Nat) :=
  { device_id := device_id
    device_ctx := { addr := device_ctx, event_provider := some GetCudaEvent } }

/-- The events held by the live status buffers. -/
def StreamLife.held (s : StreamLife) : List Nat :=
  s.mine.cuda_event :: s.others.map (fun buffer => buffer.cuda_event)

/-- The world in which a stream type function runs on the status buffer `status_buffer`. -/
def StreamLife.world (s : StreamLife) (status_buffer : InstructionStatusBuffer) :
    World (List Nat) :=
  { machine := { cuda := s.rt, mem := s.held }, status_buffer := status_buffer, trace := [] }

/-- What may happen on the device during the life of the status buffer of an instruction,
apart from its own dispatch: a completion query; the device finishing the work captured by an
event; InitInstructionStatus of another instruction; Compute of another instruction, which
runs SetLaunched on the status buffer of that instruction; DeleteInstructionStatus of another
instruction.  The other instructions are named by their position among the live status
buffers. -/
inductive Step where
  | query
  | eventCompletes (event : Nat)
  | otherInit
  | otherLaunched (index : Nat)
  | otherDeleted (index : Nat)
  deriving DecidableEq, Repr

/-- Effect of one step on a device with the stream `stream`. -/
def Step.apply (stream : Stream (List Nat)) (s : StreamLife) : Step → StreamLife
  | .query => s
  | .eventCompletes event => { s with rt := cudaEventCompletes event s.rt }
  | .otherInit =>
    let w := (InitInstructionStatus stream
      (s.world { launched := false, cuda_event := 0 })).state
    { s with rt := w.machine.cuda, others := s.others ++ [w.status_buffer] }
  | .otherLaunched index =>
    match s.others[index]? with
    | none => s
    | some buffer =>
      let w := CudaOptionalEventRecordStatusQuerier.SetLaunched stream.device_ctx.addr
        (s.world buffer)
      { s with rt := w.machine.cuda, others := s.others.set index w.status_buffer }
  | .otherDeleted index => { s with others := s.others.eraseIdx index }

end CudaCopyD2HStreamType

/-! ## Expected call sequences -/

namespace LocalCallOpKernelUtil

/-- The calls of a pass of `AllocateOutputBlobsMemory` over `outputs` in which every call
succeeds: for each blob object in turn, `TryInitBlob` and then `TryAllocateBlobBodyMemory`. -/
def AllocateOutputBlobsMemoryCalls {μ : Type} (device_ctx : Nat) :
    List (EagerBlobObject μ) → List Call
  | [] => []
  | blob_object :: rest =>
    .TryInitBlob blob_object.addr :: .TryAllocateBlobBodyMemory blob_object.addr device_ctx
      :: AllocateOutputBlobsMemoryCalls device_ctx rest

/-- The calls of `InferTempStorageBlobDesc` when the inferred size is `temp_size`. -/
def InferTempStorageBlobDescCalls {μ : Type} (operand : LocalCallOpKernelPhyInstrOperand μ)
    (temp_size : Nat) : List Call :=
  [ .InferContextUpdate (some operand.inputs.addr) (some operand.outputs.addr)
      operand.consistent_tensor_infer_result,
    .InferTmpSizeFn,
    .set_shape operand.opkernel.temp_blob_object.addr (toInt64 temp_size),
    .set_is_dynamic operand.opkernel.temp_blob_object.addr true,
    .InferContextUpdate none none none ]

/-- The calls of the state and cache initialisation of `Compute`: none when the user kernel
has neither, one call of `TryInitOpKernelStateAndCache` otherwise. -/
def TryInitOpKernelStateAndCacheCalls {μ : Type}
    (operand : LocalCallOpKernelPhyInstrOperand μ) (device_ctx : Nat) : List Call :=
  if operand.user_opkernel.has_state_or_cache then
    [ .TryInitOpKernelStateAndCache device_ctx (some operand.inputs.addr)
        (some operand.outputs.addr) operand.consistent_tensor_infer_result
        operand.op_interp_ctx_state.isNone true ]
  else []

/-- The calls of `OpKernelCompute` when the kernel receives `state` and `cache`. -/
def OpKernelComputeCalls {μ : Type} (operand : LocalCallOpKernelPhyInstrOperand μ)
    (device_ctx : Nat) (state cache : Option Nat) : List Call :=
  [ .UpdateComputeContext (some operand.inputs.addr) (some operand.outputs.addr)
      operand.consistent_tensor_infer_result (some device_ctx),
    .KernelCompute state cache,
    .UpdateComputeContext none none none none ]

end LocalCallOpKernelUtil

/-! ## A concrete machine

Memory is a counter of kernel launches.  Used to evaluate the embedding on concrete inputs. -/

namespace Example

/-- A CUDA runtime with two devices, no error, and no event recorded. -/
def rt : CudaRuntime :=
  { device_count := 2, current_device := 0, last_error := cudaSuccess,
    event := fun _ => CudaEventState.created }

/-- A blob object whose initialisation, allocation and deallocation return the given
results. -/
def blob (addr : Nat) (init alloc dealloc : Maybe) : EagerBlobObject Nat :=
  { addr := addr
    TryInitBlob := fun m => (init, m)
    InitBlob := fun m => (init, m)
    TryAllocateBlobBodyMemory := fun _ m => (alloc, m)
    DeallocateBlobDataPtr := fun m => (dealloc, m)
    data_type := fun _ => DataType.kChar
    set_shape := fun _ m => m
    set_is_dynamic := fun _ m => m }

/-- A stateful kernel with the given temp blob object and a temp size of 64 bytes. -/
def opkernel (temp : EagerBlobObject Nat) : StatefulLocalOpKernel Nat :=
  { ResetPrior := fun _ m => m
    temp_blob_object := temp
    InferTmpSizeFn := fun m => (64, m)
    InferContextUpdate := fun _ _ _ m => m
    TryInitOpKernelStateAndCache := fun _ _ _ m => ((some 70, some 71), m)
    UpdateComputeContext := fun _ _ _ _ m => m }

/-- A user kernel whose launch counts itself and leaves `launch_error` as the last CUDA
error. -/
def user_opkernel (launch_error : cudaError_t) : OpKernel Nat :=
  { has_state_or_cache := false
    Compute := fun _ _ m =>
      { cuda := { m.cuda with last_error := launch_error }, mem := m.mem + 1 } }

/-- An operand with the given outputs and temp blob object. -/
def operand (outputs : List (EagerBlobObject Nat)) (temp : EagerBlobObject Nat)
    (need_temp_storage : Bool) (launch_error : cudaError_t) :
    LocalCallOpKernelPhyInstrOperand Nat :=
  { opkernel := opkernel temp
    user_opkernel := user_opkernel launch_error
    attrs := 10
    inputs := { addr := 100, objects := [] }
    outputs := { addr := 200, objects := outputs }
    consistent_tensor_infer_result := none
    need_temp_storage := need_temp_storage
    op_interp_ctx_state := none }

/-- A device context that provides cuda event 5. -/
def device_ctx : DeviceCtx Nat := { addr := 900, event_provider := some (fun m => (5, m)) }

/-- A stream on device 1. -/
def stream : Stream Nat := { device_id := 1, device_ctx := device_ctx }

/-- An instruction message on `stream` carrying `op`. -/
def instr_msg (op : LocalCallOpKernelPhyInstrOperand Nat) : InstructionMsg Nat :=
  { phy_instr_stream := stream, phy_instr_operand := some (.LocalCallOpKernel op) }

/-- An instruction on `stream` carrying `op`. -/
def instruction (op : LocalCallOpKernelPhyInstrOperand Nat) : Instruction Nat :=
  { stream := stream, instr_msg := instr_msg op }

/-- A world with an empty trace whose status buffer was initialised for event 5. -/
def world : World Nat :=
  { machine := { cuda := rt, mem := 0 }
    status_buffer := CudaOptionalEventRecordStatusQuerier.PlacementNew 5
    trace := [] }

/-- Two output blobs and a temp blob, all of whose calls succeed. -/
def good_operand (need_temp_storage : Bool) (launch_error : cudaError_t) :
    LocalCallOpKernelPhyInstrOperand Nat :=
  operand [blob 201 .Ok .Ok .Ok, blob 202 .Ok .Ok .Ok] (blob 300 .Ok .Ok .Ok)
    need_temp_storage launch_error

/-- Three outputs, the second of which cannot be allocated. -/
def failing_output_operand : LocalCallOpKernelPhyInstrOperand Nat :=
  operand [blob 201 .Ok .Ok .Ok, blob 202 .Ok (.Error "out of memory") .Ok,
      blob 203 .Ok .Ok .Ok] (blob 300 .Ok .Ok .Ok) true 0

/-- One output and a temp blob that cannot be initialised. -/
def failing_temp_operand : LocalCallOpKernelPhyInstrOperand Nat :=
  operand [blob 201 .Ok .Ok .Ok] (blob 300 (.Error "invalid temp blob") .Ok .Ok) true 0

/-- A user kernel that has state or cache, whose launch counts itself. -/
def stateful_user_opkernel : OpKernel Nat :=
  { has_state_or_cache := true
    Compute := fun _ _ m => { m with mem := m.mem + 1 } }

/-- The operand `good_operand need_temp_storage 0` with a user kernel that has state or cache
and with `state` in the interpreter context. -/
def stateful_operand (need_temp_storage : Bool) (state : Option Nat) :
    LocalCallOpKernelPhyInstrOperand Nat :=
  { good_operand need_temp_storage 0 with
    user_opkernel := stateful_user_opkernel
    op_interp_ctx_state := state }

end Example

/-! ## Observations on calls -/

/-- The device context that a call receives, when it takes one. -/
def Call.device_ctx : Call → Option Nat
  | .GetCudaEvent device_ctx => some device_ctx
  | .SetLaunched device_ctx => some device_ctx
  | .TryAllocateBlobBodyMemory _ device_ctx => some device_ctx
  | .TryInitOpKernelStateAndCache device_ctx _ _ _ _ _ => some device_ctx
  | .UpdateComputeContext _ _ _ device_ctx => device_ctx
  | _ => none

/-- Whether a call is an update of the compute context of the stateful kernel. -/
def Call.isUpdateComputeContext : Call → Bool
  | .UpdateComputeContext _ _ _ _ => true
  | _ => false

/-- A call as it is executed: the entry that it leaves in the trace and its action on the
machine. -/
structure Effect (μ : Type) where
  call : Call
  action : Machine μ → Machine μ

/-- The world after `effects` were executed in order: each call is logged and its action is
applied to the machine; the status buffer is not written. -/
def World.after {μ : Type} (w : World μ) : List (Effect μ) → World μ
  | [] => w
  | effect :: rest => World.after (w.exec effect.call effect.action) rest

namespace LocalCallOpKernelUtil

/-- The call `ResetPrior(operand->attrs())` with its action. -/
def ResetPriorEffects {μ : Type} (operand : LocalCallOpKernelPhyInstrOperand μ) :
    List (Effect μ) :=
  [ { call := .ResetPrior operand.attrs, action := operand.opkernel.ResetPrior operand.attrs } ]

/-- The calls of `AllocateOutputBlobsMemoryCalls` with their actions: `TryInitBlob` and
`TryAllocateBlobBodyMemory(device_ctx)` of each output in turn. -/
def AllocateOutputBlobsMemoryEffects {μ : Type} (device_ctx : Nat) :
    List (EagerBlobObject μ) → List (Effect μ)
  | [] => []
  | blob_object :: rest =>
    { call := .TryInitBlob blob_object.addr, action := fun m => (blob_object.TryInitBlob m).2 }
      :: { call := .TryAllocateBlobBodyMemory blob_object.addr device_ctx,
           action := fun m => (blob_object.TryAllocateBlobBodyMemory device_ctx m).2 }
      :: AllocateOutputBlobsMemoryEffects device_ctx rest

/-- The calls of `InferTempStorageBlobDescCalls` with their actions, when the inferred size
is `temp_size`. -/
def InferTempStorageBlobDescEffects {μ : Type} (operand : LocalCallOpKernelPhyInstrOperand μ)
    (temp_size : Nat) : List (Effect μ) :=
  [ { call := .InferContextUpdate (some operand.inputs.addr) (some operand.outputs.addr)
        operand.consistent_tensor_infer_result,
      action := operand.opkernel.InferContextUpdate (some operand.inputs.addr)
        (some operand.outputs.addr) operand.consistent_tensor_infer_result },
    { call := .InferTmpSizeFn, action := fun m => (operand.opkernel.InferTmpSizeFn m).2 },
    { call := .set_shape operand.opkernel.temp_blob_object.addr (toInt64 temp_size),
      action := operand.opkernel.temp_blob_object.set_shape (toInt64 temp_size) },
    { call := .set_is_dynamic operand.opkernel.temp_blob_object.addr true,
      action := operand.opkernel.temp_blob_object.set_is_dynamic true },
    { call := .InferContextUpdate none none none,
      action := operand.opkernel.InferContextUpdate none none none } ]

/-- The size that `InferTmpSizeFn` returns when the size inference starts in machine `m`:
the infer context is updated with the inputs, the outputs and the infer result first. -/
def inferredTempSize {μ : Type} (operand : LocalCallOpKernelPhyInstrOperand μ)
    (m : Machine μ) : Nat :=
  (operand.opkernel.InferTmpSizeFn
    (operand.opkernel.InferContextUpdate (some operand.inputs.addr)
      (some operand.outputs.addr) operand.consistent_tensor_infer_result m)).1

/-- The call `InitBlob` on the temp blob with its action. -/
def ResetTempStorageBlobEffects {μ : Type} (operand : LocalCallOpKernelPhyInstrOperand μ) :
    List (Effect μ) :=
  [ { call := .InitBlob operand.opkernel.temp_blob_object.addr,
      action := fun m => (operand.opkernel.temp_blob_object.InitBlob m).2 } ]

/-- The call `TryAllocateBlobBodyMemory(device_ctx)` on the temp blob with its action. -/
def TryAllocateTempStorageBlobMemoryEffects {μ : Type}
    (operand : LocalCallOpKernelPhyInstrOperand μ) (device_ctx : Nat) : List (Effect μ) :=
  [ { call := .TryAllocateBlobBodyMemory operand.opkernel.temp_blob_object.addr device_ctx,
      action := fun m =>
        (operand.opkernel.temp_blob_object.TryAllocateBlobBodyMemory device_ctx m).2 } ]

/-- The calls of `TryInitOpKernelStateAndCacheCalls` with their actions: the state slot is
passed exactly when the interpreter context carries no state, the cache slot always. -/
def TryInitOpKernelStateAndCacheEffects {μ : Type}
    (operand : LocalCallOpKernelPhyInstrOperand μ) (device_ctx : Nat) : List (Effect μ) :=
  if operand.user_opkernel.has_state_or_cache then
    [ { call := .TryInitOpKernelStateAndCache device_ctx (some operand.inputs.addr)
          (some operand.outputs.addr) operand.consistent_tensor_infer_result
          operand.op_interp_ctx_state.isNone true,
        action := fun m =>
          (operand.opkernel.TryInitOpKernelStateAndCache device_ctx
            operand.op_interp_ctx_state.isNone true m).2 } ]
  else []

/-- The calls of `OpKernelComputeCalls` with their actions: the compute context is updated
with the inputs, the outputs, the infer result and `device_ctx`, the user kernel runs with
`state` and `cache`, and the compute context is updated with four null pointers. -/
def OpKernelComputeEffects {μ : Type} (operand : LocalCallOpKernelPhyInstrOperand μ)
    (device_ctx : Nat) (state cache : Option Nat) : List (Effect μ) :=
  [ { call := .UpdateComputeContext (some operand.inputs.addr) (some operand.outputs.addr)
        operand.consistent_tensor_infer_result (some device_ctx),
      action := operand.opkernel.UpdateComputeContext (some operand.inputs.addr)
        (some operand.outputs.addr) operand.consistent_tensor_infer_result
        (some device_ctx) },
    { call := .KernelCompute state cache,
      action := operand.user_opkernel.Compute state cache },
    { call := .UpdateComputeContext none none none none,
      action := operand.opkernel.UpdateComputeContext none none none none } ]

/-- The call `DeallocateBlobDataPtr` on the temp blob with its action. -/
def DeallocateTempStorageBlobMemoryEffects {μ : Type}
    (operand : LocalCallOpKernelPhyInstrOperand μ) : List (Effect μ) :=
  [ { call := .DeallocateBlobDataPtr operand.opkernel.temp_blob_object.addr,
      action := fun m => (operand.opkernel.temp_blob_object.DeallocateBlobDataPtr m).2 } ]

/-- What `Compute` does before the state and cache initialisation when every step succeeds:
`ResetPrior`, the allocation of the outputs, and for an operand with `need_temp_storage` the
size inference, the reset and the allocation of the temp blob. -/
def PrologueEffects {μ : Type} (operand : LocalCallOpKernelPhyInstrOperand μ)
    (device_ctx temp_size : Nat) : List (Effect μ) :=
  ResetPriorEffects operand
    ++ AllocateOutputBlobsMemoryEffects device_ctx operand.outputs.objects
    ++ (if operand.need_temp_storage then
          InferTempStorageBlobDescEffects operand temp_size
            ++ ResetTempStorageBlobEffects operand
            ++ TryAllocateTempStorageBlobMemoryEffects operand device_ctx
        else [])

/-- What `Compute` does from the state and cache initialisation to the reset of the compute
context. -/
def KernelEffects {μ : Type} (operand : LocalCallOpKernelPhyInstrOperand μ)
    (device_ctx : Nat) (state cache : Option Nat) : List (Effect μ) :=
  TryInitOpKernelStateAndCacheEffects operand device_ctx
    ++ OpKernelComputeEffects operand device_ctx state cache

/-- Everything that a `Compute` that reaches its last statement does, in order: the
prologue, the kernel part, and for an operand with `need_temp_storage` the deallocation of
the temp blob. -/
def ComputeEffects {μ : Type} (operand : LocalCallOpKernelPhyInstrOperand μ)
    (device_ctx temp_size : Nat) (state cache : Option Nat) : List (Effect μ) :=
  PrologueEffects operand device_ctx temp_size
    ++ KernelEffects operand device_ctx state cache
    ++ (if operand.need_temp_storage then DeallocateTempStorageBlobMemoryEffects operand
        else [])

end LocalCallOpKernelUtil

/-! ## A machine that records what its collaborators receive

The memory is the list of the calls that the collaborators received: each collaborator
appends, itself, an entry with the arguments it was given.  Used to observe on concrete
inputs what the embedding does to the machine, as opposed to what it logs. -/

namespace Recorded

/-- The machine `m` with `c` appended to its memory. -/
def record (c : Call) (m : Machine (List Call)) : Machine (List Call) :=
  { m with mem := m.mem ++ [c] }

/-- A blob object whose member functions record their call and return the given results. -/
def blob (addr : Nat) (init alloc dealloc : Maybe) : EagerBlobObject (List Call) :=
  { addr := addr
    TryInitBlob := fun m => (init, record (.TryInitBlob addr) m)
    InitBlob := fun m => (init, record (.InitBlob addr) m)
    TryAllocateBlobBodyMemory := fun device_ctx m =>
      (alloc, record (.TryAllocateBlobBodyMemory addr device_ctx) m)
    DeallocateBlobDataPtr := fun m => (dealloc, record (.DeallocateBlobDataPtr addr) m)
    data_type := fun _ => DataType.kChar
    set_shape := fun dim m => record (.set_shape addr dim) m
    set_is_dynamic := fun val m => record (.set_is_dynamic addr val) m }

/-- A stateful kernel whose member functions record their call.  The temp size is 64 bytes;
the state and cache initialisation leaves state 70 and cache 71 in the slots it is given.
The inputs, the outputs and the infer result of the initialisation are those of the operand
and are recorded as null. -/
def opkernel (temp : EagerBlobObject (List Call)) : StatefulLocalOpKernel (List Call) :=
  { ResetPrior := fun attrs m => record (.ResetPrior attrs) m
    temp_blob_object := temp
    InferTmpSizeFn := fun m => (64, record .InferTmpSizeFn m)
    InferContextUpdate := fun inputs outputs infer_result m =>
      record (.InferContextUpdate inputs outputs infer_result) m
    TryInitOpKernelStateAndCache := fun device_ctx state_slot cache_slot m =>
      ((if state_slot then some 70 else none, if cache_slot then some 71 else none),
        record (.TryInitOpKernelStateAndCache device_ctx none none none state_slot cache_slot)
          m)
    UpdateComputeContext := fun inputs outputs infer_result device_ctx m =>
      record (.UpdateComputeContext inputs outputs infer_result device_ctx) m }

/-- A user kernel that records the state and the cache that it receives. -/
def user_opkernel (has_state_or_cache : Bool) : OpKernel (List Call) :=
  { has_state_or_cache := has_state_or_cache
    Compute := fun state cache m => record (.KernelCompute state cache) m }

/-- An operand with the given outputs and temp blob object. -/
def operand (outputs : List (EagerBlobObject (List Call))) (temp : EagerBlobObject (List Call))
    (need_temp_storage has_state_or_cache : Bool) (state : Option Nat) :
    LocalCallOpKernelPhyInstrOperand (List Call) :=
  { opkernel := opkernel temp
    user_opkernel := user_opkernel has_state_or_cache
    attrs := 10
    inputs := { addr := 100, objects := [] }
    outputs := { addr := 200, objects := outputs }
    consistent_tensor_infer_result := none
    need_temp_storage := need_temp_storage
    op_interp_ctx_state := state }

/-- Two output blobs and a temp blob, all of whose calls succeed. -/
def good_operand (need_temp_storage has_state_or_cache : Bool) (state : Option Nat) :
    LocalCallOpKernelPhyInstrOperand (List Call) :=
  operand [blob 201 .Ok .Ok .Ok, blob 202 .Ok .Ok .Ok] (blob 300 .Ok .Ok .Ok)
    need_temp_storage has_state_or_cache state

/-- Two outputs, the second of which cannot be allocated. -/
def failing_output_operand : LocalCallOpKernelPhyInstrOperand (List Call) :=
  operand [blob 201 .Ok .Ok .Ok, blob 202 .Ok (.Error "out of memory") .Ok]
    (blob 300 .Ok .Ok .Ok) true false none

/-- One output and a temp blob whose memory cannot be released. -/
def failing_release_operand : LocalCallOpKernelPhyInstrOperand (List Call) :=
  operand [blob 201 .Ok .Ok .Ok] (blob 300 .Ok .Ok (.Error "cannot release")) true false none

/-- A stream on device 1 whose device context has address 900 and provides cuda event 5. -/
def stream : Stream (List Call) :=
  { device_id := 1, device_ctx := { addr := 900, event_provider := some (fun m => (5, m)) } }

/-- An instruction message on `stream` carrying `op`. -/
def instr_msg (op : LocalCallOpKernelPhyInstrOperand (List Call)) :
    InstructionMsg (List Call) :=
  { phy_instr_stream := stream, phy_instr_operand := some (.LocalCallOpKernel op) }

/-- An instruction on `stream` carrying `op`. -/
def instruction (op : LocalCallOpKernelPhyInstrOperand (List Call)) :
    Instruction (List Call) :=
  { stream := stream, instr_msg := instr_msg op }

/-- A world with nothing recorded, an empty trace, and a status buffer initialised for
event 5. -/
def world : World (List Call) :=
  { machine := { cuda := Example.rt, mem := [] }
    status_buffer := CudaOptionalEventRecordStatusQuerier.PlacementNew 5
    trace := [] }

end Recorded

/-! ## What the contexts of the stateful kernel hold -/

end vm

/-! ## `SourceTickComputeActor` -/

namespace SourceTickComputeActor

/-- Embedding of `SourceTickComputeActor::IsCustomizedReadAlwaysUnReadyFromNow`.  The header
only declares `IsCustomizedReadReady`; its body is taken as the argument
`IsCustomizedReadReady`, a predicate on the actor state `σ`. -/
def IsCustomizedReadAlwaysUnReadyFromNow {σ : Type} (IsCustomizedReadReady : σ → Bool)
    (actor : σ) : Bool :=
  !IsCustomizedReadReady actor

end SourceTickComputeActor

namespace vm

/-! ## `StreamRtDesc` -/

/-- The class `StreamRtDesc`, by the two fields that `__Init__` writes: the descriptor it
holds and the stream type it points to; `none` is a null pointer. -/
structure StreamRtDesc where
  stream_desc : Option StreamDesc
  stream_type : Option StreamType
  deriving DecidableEq, Repr

/-- Embedding of `StreamRtDesc::__Init__`. -/
def StreamRtDesc.__Init__ (self : StreamRtDesc) (stream_desc : StreamDesc) : StreamRtDesc :=
  let stream_type : StreamType := stream_desc.stream_type
  let self1 : StreamRtDesc := { self with stream_desc := some stream_desc }
  { self1 with stream_type := some stream_type }

/-! ## The scheduler (spec sections 4.3 and 4.4) -/

namespace Scheduler

/-- Modelled from the spec: the states of the instruction state machine of section 4.3; the
scheduler itself is not among the embedded files. -/
inductive State where
  | Pending
  | Ready
  | Dispatched
  | Done
  | Retired
  deriving DecidableEq, Repr

/-- Modelled from the spec: an instruction held by the scheduler, with the handle it got at
submission, its target stream and its state. -/
structure Entry where
  handle : Nat
  stream : Nat
  state : State
  deriving DecidableEq, Repr

/-- Modelled from the spec: whether an instruction has reached `Dispatched`, that is, has
been handed to its stream (and may since be `Done` or `Retired`). -/
def Entry.reachedDispatched (entry : Entry) : Bool :=
  match entry.state with
  | .Pending => false
  | .Ready => false
  | .Dispatched => true
  | .Done => true
  | .Retired => true

end Scheduler

/-- Modelled from the spec: the scheduler state, with the configured streams, the accepted
instructions in submission order, and the next handle to give out. -/
structure Scheduler where
  streams : List Nat
  instructions : List Scheduler.Entry
  next_handle : Nat
  deriving DecidableEq, Repr

namespace Scheduler

/-- Modelled from the spec: the scheduler at VM initialisation, with no instruction. -/
def init (streams : List Nat) : Scheduler :=
  { streams := streams, instructions := [], next_handle := 0 }

/-- Modelled from the spec: `Enqueue` of section 4.4 and 6.  The instruction is accepted as
`Pending` behind all earlier ones; when no stream of the requested kind exists the
submission fails (`InvalidStreamSelector`) and the scheduler is unchanged. -/
def Enqueue (stream : Nat) (s : Scheduler) : Option Nat × Scheduler :=
  if stream ∈ s.streams then
    (some s.next_handle,
     { s with
       instructions := s.instructions ++
         [{ handle := s.next_handle, stream := stream, state := .Pending }]
       next_handle := s.next_handle + 1 })
  else (none, s)

/-- Modelled from the spec: `Pending → Ready` for the instructions whose dependencies are
satisfied; `eligible` tells which handles these are. -/
def promote (eligible : Nat → Bool) (entry : Entry) : Entry :=
  if entry.state = .Pending ∧ eligible entry.handle = true then { entry with state := .Ready }
  else entry

/-- Modelled from the spec: `Dispatched → Done`, detected by polling; `completed` tells for
which handles `QueryInstructionStatusDone` answers true. -/
def poll (completed : Nat → Bool) (entry : Entry) : Entry :=
  if entry.state = .Dispatched ∧ completed entry.handle = true then
    { entry with state := .Done }
  else entry

/-- Modelled from the spec: `Done → Retired` for the instructions whose dependents are
satisfied; `released` tells which handles these are. -/
def retire (released : Nat → Bool) (entry : Entry) : Entry :=
  if entry.state = .Done ∧ released entry.handle = true then { entry with state := .Retired }
  else entry

/-- Modelled from the spec: a stream is idle when none of its instructions is
`Dispatched` (single in-flight slot per channel). -/
def idle (stream : Nat) (instructions : List Entry) : Bool :=
  !instructions.any (fun entry => entry.stream = stream ∧ entry.state = .Dispatched)

/-- Modelled from the spec: the next instruction of `stream` in submission order, that is, the
first one that has not reached `Dispatched`, is dispatched when it is `Ready`; there is no
reordering within a stream, so an instruction behind it is never taken instead. -/
def dispatchNext (stream : Nat) : List Entry → List Entry
  | [] => []
  | entry :: rest =>
    if entry.stream = stream ∧ entry.reachedDispatched = false then
      if entry.state = .Ready then { entry with state := .Dispatched } :: rest
      else entry :: rest
    else entry :: dispatchNext stream rest

/-- Modelled from the spec: `Ready → Dispatched` on one stream: at most one instruction, and
only when the stream is idle. -/
def dispatchStream (instructions : List Entry) (stream : Nat) : List Entry :=
  if idle stream instructions then dispatchNext stream instructions else instructions

/-- Modelled from the spec: `Tick` of section 4.4, one bounded pass: promote the eligible
`Pending` instructions, dispatch at most one `Ready` instruction per idle stream, poll the
`Dispatched` instructions, retire the completed ones. -/
def Tick (eligible completed released : Nat → Bool) (s : Scheduler) : Scheduler :=
  let promoted := s.instructions.map (promote eligible)
  let dispatched := s.streams.foldl dispatchStream promoted
  let polled := dispatched.map (poll completed)
  { s with instructions := polled.map (retire released) }

/-- Modelled from the spec: what drives the scheduler, a submission to a stream or a tick
with the readiness, completion and release observed in it. -/
inductive Event where
  | enqueue (stream : Nat)
  | tick (eligible completed released : Nat → Bool)

/-- Modelled from the spec: the scheduler after one event. -/
def step (s : Scheduler) : Event → Scheduler
  | .enqueue stream => (Enqueue stream s).2
  | .tick eligible completed released => Tick eligible completed released s

/-- Modelled from the spec: the scheduler after a sequence of events. -/
def run (events : List Event) (s : Scheduler) : Scheduler :=
  events.foldl step s

/-- The order that per-stream FIFO asks of two instructions, the first submitted before the
second: the handles increase, and on the same stream the second has reached `Dispatched`
only if the first has. -/
def InOrder (a b : Entry) : Prop :=
  a.handle < b.handle ∧ (a.stream = b.stream → b.reachedDispatched = true →
    a.reachedDispatched = true)

/-- What every event preserves: the instructions are in order and their handles are below
the next handle. -/
def Invariant (s : Scheduler) : Prop :=
  s.instructions.Pairwise InOrder ∧ ∀ entry ∈ s.instructions, entry.handle < s.next_handle

end Scheduler

end vm

/-! ## Interpreter selection (`op_interpreter_util.cpp`) -/

namespace one

/-- A `Tensor`, by the two predicates that interpreter selection calls on it. -/
structure Tensor where
  is_consistent : Bool
  is_local : Bool
  deriving DecidableEq, Repr

/-- The struct `OpExprInterpContext`, restricted to its three optional fields; a present value
is named by its symbol id. -/
structure OpExprInterpContext where
  device : Option Nat
  parallel_desc : Option Nat
  parallel_distribution : Option Nat
  deriving DecidableEq, Repr

/-- An `OpExpr`, by its `op_type_name()`. -/
structure OpExpr where
  op_type_name : String
  deriving DecidableEq, Repr

/-- The three interpreters that `GetInterpreter` builds once and hands out. -/
inductive AutogradInterpreter where
  | g_lazy_interpreter
  | g_eager_consistent_interpreter
  | g_eager_mirrored_interpreter
  deriving DecidableEq, Repr

/-- The error of a failed `Maybe`: a failed `CHECK_OR_RETURN` with the message streamed into
it, the error of `Optional::value()` on an empty optional, or `UNIMPLEMENTED_THEN_RETURN`. -/
inductive Error where
  | check_failed (message : String)
  | value_not_found
  | unimplemented
  deriving DecidableEq, Repr

/-- Modelled from the spec: the macro CHECK_OR_RETURN (only its uses are embedded from code);
`CHECK_OR_RETURN(cond) << message` returns a typed failure that carries the streamed message
when the condition is false, and goes on otherwise. -/
def CHECK_OR_RETURN (cond : Bool) (message : String) : Except Error Unit :=
  if cond then .ok () else .error (.check_failed message)

/-- Modelled from the spec: the member Optional::value (only its uses are embedded from
code), which returns the held value, and a typed failure on an empty optional. -/
def Optional.value {α : Type} : Option α → Except Error α
  | some a => .ok a
  | none => .error .value_not_found

/-- The loop `for (id = 1; id < inputs.size(); ++id)` of the consistent branch of
`GetInterpreter`, entered at index `id` with the inputs from that index on. -/
def checkConsistentLoop (op_expr : OpExpr) : Nat → List Tensor → Except Error Unit
  | _, [] => .ok ()
  | id, t :: rest =>
    match CHECK_OR_RETURN t.is_consistent
        ("Got tensors with inconsistent attributes!\n"
          ++ "op_type_name: " ++ op_expr.op_type_name ++ "\n"
          ++ "the first " ++ toString id ++ " tensors is consistent tensor while the "
          ++ toString (id + 1) ++ "th input is local tensor") with
    | .error e => .error e
    | .ok () => checkConsistentLoop op_expr (id + 1) rest

/-- The loop `for (id = 1; id < inputs.size(); ++id)` of the local branch of
`GetInterpreter`, entered at index `id` with the inputs from that index on. -/
def checkLocalLoop (op_expr : OpExpr) : Nat → List Tensor → Except Error Unit
  | _, [] => .ok ()
  | id, t :: rest =>
    match CHECK_OR_RETURN t.is_local
        ("Got tensors with inconsistent attributes!\n"
          ++ "op_type_name: " ++ op_expr.op_type_name ++ "\n"
          ++ "the first " ++ toString id ++ " tensors is local tensor while the "
          ++ toString (id + 1) ++ "th input is consistent tensor") with
    | .error e => .error e
    | .ok () => checkLocalLoop op_expr (id + 1) rest

/-- Embedding of `GetInterpreter`; `lazy_mode` is `LazyMode::is_enabled()`. -/
def GetInterpreter (lazy_mode : Bool) (inputs : List Tensor) (ctx : OpExprInterpContext)
    (op_expr : OpExpr) : Except Error AutogradInterpreter :=
  if !lazy_mode then
    match inputs with
    | [] =>
      if ctx.parallel_desc.isSome then
        match Optional.value ctx.parallel_distribution with
        | .error e => .error e
        | .ok _ =>
          match CHECK_OR_RETURN (!ctx.device.isSome) "" with
          | .error e => .error e
          | .ok () => .ok .g_eager_consistent_interpreter
      else
        match CHECK_OR_RETURN (!ctx.parallel_distribution.isSome) "" with
        | .error e => .error e
        | .ok () => .ok .g_eager_mirrored_interpreter
    | input0 :: others =>
      if input0.is_consistent then
        let checked : Except Error Unit :=
          match others with
          | [] => .ok ()
          | [input1] =>
            CHECK_OR_RETURN input1.is_consistent
              ("Got tensors with inconsistent attributes!\n"
                ++ "op_type_name: " ++ op_expr.op_type_name ++ "\n"
                ++ "first input tensor: consistent\n"
                ++ "second input tensor: local")
          | [input1, input2] =>
            match CHECK_OR_RETURN input1.is_consistent
                ("Got tensors with inconsistent attributes!\n"
                  ++ "op_type_name: " ++ op_expr.op_type_name ++ "\n"
                  ++ "first input tensor: consistent\n"
                  ++ "second input tensor: local") with
            | .error e => .error e
            | .ok () =>
              CHECK_OR_RETURN input2.is_consistent
                ("Got tensors with inconsistent attributes!\n"
                  ++ "op_type_name: " ++ op_expr.op_type_name ++ "\n"
                  ++ "first input tensor: consistent\n"
                  ++ "second input tensor: consistent\n"
                  ++ "third input tensor: local")
          | _ => checkConsistentLoop op_expr 1 others
        match checked with
        | .error e => .error e
        | .ok () => .ok .g_eager_consistent_interpreter
      else
        let checked : Except Error Unit :=
          match others with
          | [] => .ok ()
          | [input1] =>
            CHECK_OR_RETURN input1.is_local
              ("Got tensors with inconsistent attributes!\n"
                ++ "op_type_name: " ++ op_expr.op_type_name ++ "\n"
                ++ "first input tensor: local\n"
                ++ "second input tensor: consistent")
          | [input1, input2] =>
            match CHECK_OR_RETURN input1.is_local
                ("Got tensors with inconsistent attributes!\n"
                  ++ "op_type_name: " ++ op_expr.op_type_name ++ "\n"
                  ++ "first input tensor: local\n"
                  ++ "second input tensor: consistent") with
            | .error e => .error e
            | .ok () =>
              CHECK_OR_RETURN input2.is_local
                ("Got tensors with inconsistent attributes!\n"
                  ++ "op_type_name: " ++ op_expr.op_type_name ++ "\n"
                  ++ "first input tensor: local\n"
                  ++ "second input tensor: local\n"
                  ++ "third input tensor: consistent")
          | _ => checkLocalLoop op_expr 1 others
        match checked with
        | .error e => .error e
        | .ok () => .ok .g_eager_mirrored_interpreter
  else .ok .g_lazy_interpreter

end one

/-! ## Model IO jobs (`model_io_v2_job.cpp`)

Protobuf messages are records; an optional field that is not set is `none`, and the fields
that the embedded functions never read or write are gathered in an opaque `rest`.  A
`HashMap` is an association list that is iterated in insertion order (the C++ iteration
order is unspecified). -/

/-- The message `VariableOpConf`. -/
structure VariableOpConf where
  tick : Option String
  out : Option String
  trainable : Option Bool
  random_seed : Option Int
  rest : Nat
  deriving DecidableEq, Repr

/-- The message `InterfaceBlobConf`, as far as it is written here. -/
structure InterfaceBlobConf where
  shape_dim : List Int
  is_dynamic : Option Bool
  data_type : Option vm.DataType
  deriving DecidableEq, Repr

/-- The message `ForeignInputOpConf`. -/
structure ForeignInputOpConf where
  out : Option String
  ofblob_buffer_name : Option String
  blob_conf : InterfaceBlobConf
  deriving DecidableEq, Repr

/-- The message `TickOpConf`, as far as it is written here. -/
structure TickOpConf where
  out : Option String
  deriving DecidableEq, Repr

/-- The message `ModelInitV2OpConf`. -/
structure ModelInitV2OpConf where
  ref : List String
  variable_op_name : List String
  original_variable_conf : List VariableOpConf
  deriving DecidableEq, Repr

/-- The message `ModelLoadV2OpConf`. -/
structure ModelLoadV2OpConf where
  path : Option String
  ref : List String
  variable_op_name : List String
  original_variable_conf : List VariableOpConf
  deriving DecidableEq, Repr

/-- The message `ModelSaveV2OpConf`; `in_` is its field `in`. -/
structure ModelSaveV2OpConf where
  path : Option String
  in_ : List String
  variable_op_name : List String
  original_variable_conf : List VariableOpConf
  deriving DecidableEq, Repr

/-- The oneof `op_type` of an `OperatorConf`. -/
inductive OpType where
  | not_set
  | variable_conf (conf : VariableOpConf)
  | tick_conf (conf : TickOpConf)
  | foreign_input_conf (conf : ForeignInputOpConf)
  | model_init_v2_conf (conf : ModelInitV2OpConf)
  | model_load_v2_conf (conf : ModelLoadV2OpConf)
  | model_save_v2_conf (conf : ModelSaveV2OpConf)
  | other (conf : Nat)
  deriving DecidableEq, Repr

/-- The message `OperatorConf`. -/
structure OperatorConf where
  name : String
  op_type : OpType
  rest : Nat
  deriving DecidableEq, Repr

/-- Protobuf presence test `op_conf.has_variable_conf()`. -/
def OperatorConf.has_variable_conf (op_conf : OperatorConf) : Bool :=
  match op_conf.op_type with
  | .variable_conf _ => true
  | _ => false

/-- Protobuf getter `op_conf.variable_conf()`; the default message when another `op_type`
is set. -/
def OperatorConf.variable_conf (op_conf : OperatorConf) : VariableOpConf :=
  match op_conf.op_type with
  | .variable_conf conf => conf
  | _ => { tick := none, out := none, trainable := none, random_seed := none, rest := 0 }

/-- Protobuf getter `op_conf.foreign_input_conf()`; the default message when another
`op_type` is set. -/
def OperatorConf.foreign_input_conf (op_conf : OperatorConf) : ForeignInputOpConf :=
  match op_conf.op_type with
  | .foreign_input_conf conf => conf
  | _ => { out := none, ofblob_buffer_name := none,
           blob_conf := { shape_dim := [], is_dynamic := none, data_type := none } }

/-- The message `ParallelConf`. -/
structure ParallelConf where
  device_tag : String
  device_name : List String
  deriving DecidableEq, Repr

/-- The message `AttrValue`, as far as it is written here. -/
inductive AttrValue where
  | not_set
  | at_bool (val : Bool)
  | other (val : Nat)
  deriving DecidableEq, Repr

/-- The message `JobConfigProto`, as far as it is written here. -/
structure JobConfigProto where
  job_name : Option String
  has_predict_conf : Bool
  flag_name2flag_value : List (String × AttrValue)
  deriving DecidableEq, Repr

/-- The message `Job`: its configuration and its operators, grouped by the placement under
which they were added; `net().op()` is the concatenation of the groups. -/
structure Job where
  job_conf : JobConfigProto
  ops : List (ParallelConf × List OperatorConf)
  deriving DecidableEq, Repr

/-- Protobuf getter `job.net().op()`. -/
def Job.net_op (job : Job) : List OperatorConf :=
  (job.ops.map (fun group => group.2)).flatten

/-- Assignment `(*map)[key] = value` on an association list. -/
def HashMap.set {κ ν : Type} [DecidableEq κ] (map : List (κ × ν)) (key : κ) (value : ν) :
    List (κ × ν) :=
  match map with
  | [] => [(key, value)]
  | entry :: rest =>
    if entry.1 = key then (key, value) :: rest else entry :: HashMap.set rest key value

/-- The functions of other files that the model IO jobs call: `NewUniqueId` (on the process
state `γ`), `GetForeignInputBufferName`, `GenLogicalBlobName`,
`GenParallelConfOfCpuZeroOnMaster`, and the three setters of `Global<InterUserJobInfo>`. -/
structure ModelIoExternals (γ : Type) where
  NewUniqueId : γ → String × γ
  GetForeignInputBufferName : String → String
  GenLogicalBlobName : String → String → String
  GenParallelConfOfCpuZeroOnMaster : ParallelConf
  set_global_model_init_job_name : String → γ → γ
  set_global_model_load_job_name : String → γ → γ
  set_global_model_save_job_name : String → γ → γ

/-- Embedding of `CompareVariableOpConf`; `none` is a failed `CHECK_EQ` on the random
seeds. -/
def CompareVariableOpConf (lhs rhs : VariableOpConf) : Option Bool :=
  if lhs.random_seed.isSome && rhs.random_seed.isSome
      && decide (lhs.random_seed ≠ rhs.random_seed) then none
  else
    let var_conf_a : VariableOpConf := { lhs with tick := none, out := none, trainable := none }
    let var_conf_b : VariableOpConf := { rhs with tick := none, out := none, trainable := none }
    some (decide (var_conf_a = var_conf_b))

/-- The inner loop of `FilterVariableOps` over the operators of one job; `none` is a failed
`CHECK`. -/
def FilterVariableOps.ops :
    List OperatorConf → List (String × OperatorConf) → Option (List (String × OperatorConf))
  | [], var_op_name2op_conf => some var_op_name2op_conf
  | op_conf :: rest, var_op_name2op_conf =>
    if op_conf.has_variable_conf then
      match var_op_name2op_conf.lookup op_conf.name with
      | none => FilterVariableOps.ops rest (var_op_name2op_conf ++ [(op_conf.name, op_conf)])
      | some found =>
        match CompareVariableOpConf found.variable_conf op_conf.variable_conf with
        | some true => FilterVariableOps.ops rest var_op_name2op_conf
        | _ => none
    else FilterVariableOps.ops rest var_op_name2op_conf

/-- Embedding of `FilterVariableOps`, from the given content of the map; `none` is a failed
`CHECK`. -/
def FilterVariableOps :
    List Job → List (String × OperatorConf) → Option (List (String × OperatorConf))
  | [], var_op_name2op_conf => some var_op_name2op_conf
  | job :: rest, var_op_name2op_conf =>
    match FilterVariableOps.ops job.net_op var_op_name2op_conf with
    | none => none
    | some next => FilterVariableOps rest next

/-- State of a run of `MakeModelIoV2Jobs`: the process state, and the jobs that `Handler` has
been invoked on so far, in order. -/
structure ModelIoWorld (γ : Type) where
  globals : γ
  handled : List Job

/-- The call `Handler(&job)`: the callback acts on the process state, and the call is
recorded. -/
def ModelIoWorld.handle {γ : Type} (Handler : Job → γ → γ) (job : Job) (g : γ)
    (handled : List Job) : ModelIoWorld γ :=
  { globals := Handler job g, handled := handled ++ [job] }

namespace ModelIoExample

/-- Externals over a counter of unique ids. -/
def ext : ModelIoExternals Nat :=
  { NewUniqueId := fun g => (toString g, g + 1)
    GetForeignInputBufferName := fun job_name => job_name ++ "-ForeignInput"
    GenLogicalBlobName := fun op_name blob_name => op_name ++ "/" ++ blob_name
    GenParallelConfOfCpuZeroOnMaster := { device_tag := "cpu", device_name := ["0:0"] }
    set_global_model_init_job_name := fun _ g => g
    set_global_model_load_job_name := fun _ g => g
    set_global_model_save_job_name := fun _ g => g }

/-- A callback that does nothing. -/
def Handler : Job → Nat → Nat := fun _ g => g

/-- The initial state. -/
def world : ModelIoWorld Nat := { globals := 0, handled := [] }

end ModelIoExample

end oneflow

/-! ## Operation traits of the OneFlow dialect (`OneFlowOpTraits.cpp`) -/

namespace mlir

/-- An MLIR attribute, by kind.  The elements of an array attribute are named by the handles
of their uniqued storage; `Other` stands for every other kind of attribute. -/
inductive Attribute where
  | StringAttr (value : String)
  | ArrayAttr (elements : List Nat)
  | Other (handle : Nat)
  deriving DecidableEq, Repr

mutual
/-- An SSA value: a block argument, or a result of the operation that defines it. -/
inductive Value where
  | BlockArgument (index : Nat)
  | OpResult (owner : Operation) (index : Nat)
/-- An operation: its name, its operands, its attribute dictionary and, when it implements
the interface `ControlEdgeCompatible`, the size of its `dataOutputResults()`. -/
inductive Operation where
  | mk (name : String) (operands : List Value) (attrs : List (String × Attribute))
      (controlEdgeCompatible : Option Nat)
end

/-- The member `Value::getDefiningOp()`; `none` is the null pointer of a block argument. -/
def Value.getDefiningOp : Value → Option Operation
  | .BlockArgument _ => none
  | .OpResult owner _ => some owner

/-- The member `Operation::getName()`. -/
def Operation.getName : Operation → String
  | .mk name _ _ _ => name

/-- The member `Operation::getOperands()`. -/
def Operation.getOperands : Operation → List Value
  | .mk _ operands _ _ => operands

/-- The member `Operation::getOperand(idx)`; `none` when `idx` is out of range, where the
C++ call has no defined result. -/
def Operation.getOperand (op : Operation) (idx : Nat) : Option Value :=
  op.getOperands.get? idx

/-- The member `Operation::getAttrDictionary()`. -/
def Operation.getAttrDictionary : Operation → List (String × Attribute)
  | .mk _ _ attrs _ => attrs

/-- The member `Operation::getAttr(name)`; `none` is the null attribute. -/
def Operation.getAttr (op : Operation) (name : String) : Option Attribute :=
  (op.getAttrDictionary.find? (fun entry => entry.1 == name)).map (fun entry => entry.2)

/-- The member `Operation::hasAttrOfType<StringAttr>(name)`. -/
def Operation.hasAttrOfType_StringAttr (op : Operation) (name : String) : Bool :=
  match op.getAttr name with
  | some (.StringAttr _) => true
  | _ => false

/-- The member `Operation::getAttrOfType<ArrayAttr>(name)`; `none` is the null attribute,
returned when the attribute is missing or of another kind. -/
def Operation.getAttrOfType_ArrayAttr (op : Operation) (name : String) : Option (List Nat) :=
  match op.getAttr name with
  | some (.ArrayAttr elements) => some elements
  | _ => none

/-- The member `Operation::hasAttrOfType<ArrayAttr>(name)`. -/
def Operation.hasAttrOfType_ArrayAttr (op : Operation) (name : String) : Bool :=
  (op.getAttrOfType_ArrayAttr name).isSome

/-- The cast `dyn_cast<oneflow::ControlEdgeCompatible>(op)` followed by
`dataOutputResults().size()`; `none` when the cast fails. -/
def Operation.controlEdgeCompatible : Operation → Option Nat
  | .mk _ _ _ cec => cec

/-- An `OpFoldResult`: empty, a value, or an attribute. -/
inductive OpFoldResult where
  | empty
  | value (v : Value)
  | attribute (a : Attribute)

/-- The outcome `LogicalResult` of a verifier, with the diagnostic of `emitError` on
failure. -/
inductive LogicalResult where
  | success
  | failure (diagnostic : String)
  deriving DecidableEq, Repr

namespace oneflow

/-- The accessor `UserOpAdaptor::device_tag()`: the entry `device_tag` of the attribute
dictionary the adaptor was built from.  The cast of the entry to `StringAttr` is an
assertion and is not represented. -/
def UserOpAdaptor.device_tag (attrs : List (String × Attribute)) : Option Attribute :=
  (attrs.find? (fun entry => entry.1 == "device_tag")).map (fun entry => entry.2)

/-- The accessor `UserOpAdaptor::device_name()`: the entry `device_name` of the attribute
dictionary the adaptor was built from.  The cast of the entry to `ArrayAttr` is an
assertion and is not represented. -/
def UserOpAdaptor.device_name (attrs : List (String × Attribute)) : Option Attribute :=
  (attrs.find? (fun entry => entry.1 == "device_name")).map (fun entry => entry.2)

end oneflow

namespace OpTrait

/-- Embedding of `HaveIdenticalPlacement`. -/
def HaveIdenticalPlacement (a b : Operation) : Bool :=
  oneflow.UserOpAdaptor.device_tag a.getAttrDictionary
      == oneflow.UserOpAdaptor.device_tag b.getAttrDictionary
    && oneflow.UserOpAdaptor.device_name a.getAttrDictionary
      == oneflow.UserOpAdaptor.device_name b.getAttrDictionary

namespace impl

/-- Embedding of `foldIdempotentOfIdenticalPlacement`; the outer `none` is an operation
without operand 0, on which `getOperand(0)` has no defined result. -/
def foldIdempotentOfIdenticalPlacement (op : Operation) : Option OpFoldResult :=
  match op.getOperand 0 with
  | none => none
  | some operand0 =>
    match operand0.getDefiningOp with
    | some argument_op =>
      if op.getName == argument_op.getName && HaveIdenticalPlacement op argument_op then
        some (.value operand0)
      else some .empty
    | none => some .empty

/-- Embedding of `foldInvolutionOfIdenticalPlacement`; the outer `none` is an out-of-range
`getOperand(0)`, on `op` or on the operation that defines its operand 0. -/
def foldInvolutionOfIdenticalPlacement (op : Operation) : Option OpFoldResult :=
  match op.getOperand 0 with
  | none => none
  | some operand0 =>
    match operand0.getDefiningOp with
    | some argument_op =>
      if op.getName == argument_op.getName && HaveIdenticalPlacement op argument_op then
        (argument_op.getOperand 0).map OpFoldResult.value
      else some .empty
    | none => some .empty

/-- The loop of `VerifyIsOpConfCompatible` over the names of the attributes that must be
string attributes; `some` is the early return with an error. -/
def VerifyIsOpConfCompatible.loop (op : Operation) : List String → Option LogicalResult
  | [] => none
  | attr :: rest =>
    if !op.hasAttrOfType_StringAttr attr then
      some (.failure ("expected operation to have attribute: " ++ attr))
    else VerifyIsOpConfCompatible.loop op rest

/-- Embedding of `VerifyIsOpConfCompatible`.  The three attribute names are the values of
`IsOpConfCompatible<void>::getOpNameAttr()`, `getDeviceTagAttr()` and `getDeviceNameAttr()`. -/
def VerifyIsOpConfCompatible (getOpNameAttr getDeviceTagAttr getDeviceNameAttr : String)
    (op : Operation) : LogicalResult :=
  match VerifyIsOpConfCompatible.loop op [getOpNameAttr, getDeviceTagAttr] with
  | some result => result
  | none =>
    if !op.hasAttrOfType_ArrayAttr getDeviceNameAttr then
      .failure ("expected operation to have attribute: " ++ getDeviceNameAttr)
    else .success

/-- Embedding of `VerifyIsImportCompatible`.  The attribute name is the value of
`IsImportCompatible<void>::getOutputLBNsAttr()`. -/
def VerifyIsImportCompatible (getOutputLBNsAttr : String) (op : Operation) : LogicalResult :=
  match op.getAttrOfType_ArrayAttr getOutputLBNsAttr with
  | some output_lbns =>
    match op.controlEdgeCompatible with
    | some dataOutputResults_size =>
      if dataOutputResults_size ≠ output_lbns.length then
        .failure ("expected number of data output results to be "
          ++ toString output_lbns.length ++ " but got " ++ toString dataOutputResults_size)
      else .success
    | none => .failure "expected to support ControlEdgeCompatible"
  | none => .failure ("expected operation to have attribute: " ++ getOutputLBNsAttr)

end impl
end OpTrait

namespace Example

/-- An operation `user.relu` on device `cuda`, `0:0`, applied to `operand`. -/
def relu (operand : Value) : Operation :=
  .mk "oneflow.relu" [operand]
    [ ("op_name", .StringAttr "relu-1"), ("device_tag", .StringAttr "cuda"),
      ("device_name", .ArrayAttr [7]), ("output_lbns", .ArrayAttr [11]) ] (some 1)

/-- The same operation placed on the cpu. -/
def relu_on_cpu (operand : Value) : Operation :=
  .mk "oneflow.relu" [operand]
    [ ("op_name", .StringAttr "relu-0"), ("device_tag", .StringAttr "cpu"),
      ("device_name", .ArrayAttr [7]), ("output_lbns", .ArrayAttr [11]) ] (some 1)

/-- An operation `oneflow.constant` on device `cuda`, `0:0`, without operands. -/
def constant : Operation :=
  .mk "oneflow.constant" []
    [ ("op_name", .StringAttr "constant-0"), ("device_tag", .StringAttr "cuda"),
      ("device_name", .ArrayAttr [7]), ("output_lbns", .ArrayAttr [12]) ] (some 1)

end Example

end mlir


namespace oneflow

/-! # Theorems -/

namespace vm

/-! ## `MakeStreamDesc` -/

/-- An `int32_t` survives the round trip through `std::size_t` and back. -/
theorem toInt32_toSizeT (n : Int) (h : isInt32 n) : toInt32 (toSizeT n) = n := by
  unfold isInt32 at h
  unfold toInt32 toSizeT
  omega

/-- C1, as stated, fails: a resource description whose gpu_device_num field is set to 0 does
not get the null descriptor; it gets a descriptor with both stream counts 0. -/
theorem MakeStreamDesc_zero_devices_set_not_null :
    CudaCopyD2HStreamType.MakeStreamDesc { gpu_device_num_ := some 0 } 0
      = some { stream_type := StreamType.CudaCopyD2HStreamType
               num_streams_per_machine := 0
               num_streams_per_thread := 0 }
    ∧ CudaCopyD2HStreamType.MakeStreamDesc { gpu_device_num_ := some 0 } 0 ≠ none := by
  constructor
  · rfl
  · intro h
    cases h

/-- C1, amended: MakeStreamDesc returns the null descriptor exactly when the gpu_device_num
field is unset; when the field is set to 0 the descriptor is non-null and both of its stream
counts are 0, whatever the machine id. -/
theorem MakeStreamDesc_null_iff_unset (resource : Resource) (this_machine_id : Int) :
    (CudaCopyD2HStreamType.MakeStreamDesc resource this_machine_id = none
        ↔ resource.gpu_device_num_ = none)
    ∧ CudaCopyD2HStreamType.MakeStreamDesc { gpu_device_num_ := some 0 } this_machine_id
        = some { stream_type := StreamType.CudaCopyD2HStreamType
                 num_streams_per_machine := 0
                 num_streams_per_thread := 0 } := by
  refine ⟨?_, rfl⟩
  cases resource with
  | mk g =>
    cases g with
    | none => simp [CudaCopyD2HStreamType.MakeStreamDesc, Resource.has_gpu_device_num]
    | some n => simp [CudaCopyD2HStreamType.MakeStreamDesc, Resource.has_gpu_device_num]

/-- C2: for a resource description whose gpu_device_num field carries the int32 value n,
MakeStreamDesc returns a descriptor of the CudaCopyD2H stream type whose
num_streams_per_machine and num_streams_per_thread are both n, and the machine id does not
influence the result. -/
theorem MakeStreamDesc_one_stream_per_device (resource : Resource) (n : Int)
    (this_machine_id : Int) (hn : resource.gpu_device_num_ = some n) (h32 : isInt32 n) :
    CudaCopyD2HStreamType.MakeStreamDesc resource this_machine_id
        = some { stream_type := StreamType.CudaCopyD2HStreamType
                 num_streams_per_machine := n
                 num_streams_per_thread := n }
    ∧ ∀ other_machine_id : Int,
        CudaCopyD2HStreamType.MakeStreamDesc resource other_machine_id
          = CudaCopyD2HStreamType.MakeStreamDesc resource this_machine_id := by
  refine ⟨?_, fun _ => rfl⟩
  simp [CudaCopyD2HStreamType.MakeStreamDesc, Resource.has_gpu_device_num,
    Resource.gpu_device_num, hn, toInt32_toSizeT n h32]

/-- C2 at a resource description with 4 devices on machine 7. -/
theorem MakeStreamDesc_one_stream_per_device_witness :
    CudaCopyD2HStreamType.MakeStreamDesc { gpu_device_num_ := some 4 } 7
        = some { stream_type := StreamType.CudaCopyD2HStreamType
                 num_streams_per_machine := 4
                 num_streams_per_thread := 4 }
    ∧ ∀ other_machine_id : Int,
        CudaCopyD2HStreamType.MakeStreamDesc { gpu_device_num_ := some 4 } other_machine_id
          = CudaCopyD2HStreamType.MakeStreamDesc { gpu_device_num_ := some 4 } 7 :=
  MakeStreamDesc_one_stream_per_device { gpu_device_num_ := some 4 } 4 7 rfl (by decide)

/-! ## `LocalCallOpKernelUtil`: call sequences -/

namespace LocalCallOpKernelUtil

theorem exec_trace {μ : Type} (w : World μ) (c : Call) (f : Machine μ → Machine μ) :
    (w.exec c f).trace = w.trace ++ [c] := rfl

theorem exec_status_buffer {μ : Type} (w : World μ) (c : Call) (f : Machine μ → Machine μ) :
    (w.exec c f).status_buffer = w.status_buffer := rfl

theorem call_trace {μ α : Type} (w : World μ) (c : Call) (f : Machine μ → α × Machine μ) :
    (w.call c f).2.trace = w.trace ++ [c] := rfl

theorem call_status_buffer {μ α : Type} (w : World μ) (c : Call)
    (f : Machine μ → α × Machine μ) : (w.call c f).2.status_buffer = w.status_buffer := rfl

theorem call_result {μ α : Type} (w : World μ) (c : Call) (f : Machine μ → α × Machine μ) :
    (w.call c f).1 = (f w.machine).1 := rfl

/-- A pass of the loop that returns Ok has made the calls of every output, in order, and has
not written the status buffer. -/
theorem AllocateOutputBlobsMemoryLoop_ok {μ : Type} (device_ctx : Nat)
    (outputs : List (EagerBlobObject μ)) (w w1 : World μ)
    (h : AllocateOutputBlobsMemoryLoop device_ctx outputs w = (.Ok, w1)) :
    w1.trace = w.trace ++ AllocateOutputBlobsMemoryCalls device_ctx outputs
      ∧ w1.status_buffer = w.status_buffer := by
  induction outputs generalizing w with
  | nil =>
    simp only [AllocateOutputBlobsMemoryLoop, Prod.mk.injEq, true_and] at h
    subst h
    simp [AllocateOutputBlobsMemoryCalls]
  | cons b rest ih =>
    unfold AllocateOutputBlobsMemoryLoop at h
    split at h
    · simp at h
    · rename_i wa h1
      split at h
      · simp at h
      · rename_i wb h2
        have hb := ih wb h
        have ha : wa = (w.call (.TryInitBlob b.addr) b.TryInitBlob).2 := by rw [h1]
        have hb2 : wb = (wa.call (.TryAllocateBlobBodyMemory b.addr device_ctx)
            (b.TryAllocateBlobBodyMemory device_ctx)).2 := by rw [h2]
        rw [hb.1, hb.2, hb2, call_trace, call_status_buffer, ha, call_trace,
          call_status_buffer]
        simp [AllocateOutputBlobsMemoryCalls]

/-- Once the loop has passed a prefix of the outputs with Ok, it goes on with the rest. -/
theorem AllocateOutputBlobsMemoryLoop_append {μ : Type} (device_ctx : Nat)
    (pre rest : List (EagerBlobObject μ)) (w w1 : World μ)
    (h : AllocateOutputBlobsMemoryLoop device_ctx pre w = (.Ok, w1)) :
    AllocateOutputBlobsMemoryLoop device_ctx (pre ++ rest) w
      = AllocateOutputBlobsMemoryLoop device_ctx rest w1 := by
  induction pre generalizing w with
  | nil =>
    simp only [AllocateOutputBlobsMemoryLoop, Prod.mk.injEq, true_and] at h
    subst h
    rfl
  | cons b pre ih =>
    unfold AllocateOutputBlobsMemoryLoop at h
    simp only [List.cons_append]
    rw [AllocateOutputBlobsMemoryLoop]
    split at h
    · simp at h
    · rename_i wa h1
      split at h
      · simp at h
      · rename_i wb h2
        exact ih wb h

/-- The loop stops at an output whose `TryInitBlob` fails. -/
theorem AllocateOutputBlobsMemoryLoop_init_error {μ : Type} (device_ctx : Nat)
    (b : EagerBlobObject μ) (rest : List (EagerBlobObject μ)) (w : World μ) (e : ErrorProto)
    (h : (b.TryInitBlob w.machine).1 = .Error e) :
    AllocateOutputBlobsMemoryLoop device_ctx (b :: rest) w
      = (.Error e, (w.call (.TryInitBlob b.addr) b.TryInitBlob).2) := by
  rw [AllocateOutputBlobsMemoryLoop]
  have h1 : w.call (.TryInitBlob b.addr) b.TryInitBlob
      = (.Error e, (w.call (.TryInitBlob b.addr) b.TryInitBlob).2) := by
    rw [← h, ← call_result w (.TryInitBlob b.addr)]
  rw [h1]

/-- The loop stops at an output whose `TryAllocateBlobBodyMemory` fails. -/
theorem AllocateOutputBlobsMemoryLoop_alloc_error {μ : Type} (device_ctx : Nat)
    (b : EagerBlobObject μ) (rest : List (EagerBlobObject μ)) (w : World μ) (e : ErrorProto)
    (hinit : (b.TryInitBlob w.machine).1 = .Ok)
    (h : (b.TryAllocateBlobBodyMemory device_ctx (b.TryInitBlob w.machine).2).1 = .Error e) :
    AllocateOutputBlobsMemoryLoop device_ctx (b :: rest) w
      = (.Error e, ((w.call (.TryInitBlob b.addr) b.TryInitBlob).2.call
          (.TryAllocateBlobBodyMemory b.addr device_ctx)
          (b.TryAllocateBlobBodyMemory device_ctx)).2) := by
  rw [AllocateOutputBlobsMemoryLoop]
  have h1 : w.call (.TryInitBlob b.addr) b.TryInitBlob
      = (.Ok, (w.call (.TryInitBlob b.addr) b.TryInitBlob).2) := by
    rw [← hinit, ← call_result w (.TryInitBlob b.addr)]
  rw [h1]
  simp only
  have h2 : (w.call (.TryInitBlob b.addr) b.TryInitBlob).2.call
        (.TryAllocateBlobBodyMemory b.addr device_ctx) (b.TryAllocateBlobBodyMemory device_ctx)
      = (.Error e, ((w.call (.TryInitBlob b.addr) b.TryInitBlob).2.call
          (.TryAllocateBlobBodyMemory b.addr device_ctx)
          (b.TryAllocateBlobBodyMemory device_ctx)).2) := by
    rw [← h]
    rfl
  rw [h2]

/-- The kernel is not among the calls of the output allocation. -/
theorem KernelCompute_not_mem_AllocateOutputBlobsMemoryCalls {μ : Type} (device_ctx : Nat)
    (outputs : List (EagerBlobObject μ)) (state cache : Option Nat) :
    Call.KernelCompute state cache ∉ AllocateOutputBlobsMemoryCalls device_ctx outputs := by
  induction outputs with
  | nil => simp [AllocateOutputBlobsMemoryCalls]
  | cons b rest ih => simp [AllocateOutputBlobsMemoryCalls, ih]

theorem JUST_eq_Ok {S : Type} (r : Outcome Maybe S) (k : S → Outcome Maybe S) (s_end : S)
    (h : JUST r k = .returned .Ok s_end) :
    ∃ s : S, r = .returned .Ok s ∧ k s = .returned .Ok s_end := by
  unfold JUST at h
  split at h
  · exact ⟨_, rfl, h⟩
  · cases h
  · cases h

theorem JUST_of_Ok {S : Type} (r : Outcome Maybe S) (k : S → Outcome Maybe S) (s : S)
    (h : r = .returned .Ok s) : JUST r k = k s := by
  subst h
  rfl

theorem JUST_of_Error {S : Type} (r : Outcome Maybe S) (k : S → Outcome Maybe S) (s : S)
    (e : ErrorProto) (h : r = .returned (.Error e) s) : JUST r k = .returned (.Error e) s := by
  subst h
  rfl

/-- Size inference that returns has made its five calls and has not written the status
buffer. -/
theorem InferTempStorageBlobDesc_returned {μ : Type}
    (operand : LocalCallOpKernelPhyInstrOperand μ) (w w1 : World μ)
    (h : InferTempStorageBlobDesc operand w = .returned () w1) :
    ∃ temp_size : Nat,
      w1.trace = w.trace ++ InferTempStorageBlobDescCalls operand temp_size
      ∧ w1.status_buffer = w.status_buffer := by
  unfold InferTempStorageBlobDesc at h
  simp only at h
  split at h
  · cases h
  · simp only [Outcome.returned.injEq, true_and] at h
    subst h
    exact ⟨((w.exec
        (.InferContextUpdate (some operand.inputs.addr) (some operand.outputs.addr)
          operand.consistent_tensor_infer_result)
        (operand.opkernel.InferContextUpdate (some operand.inputs.addr)
          (some operand.outputs.addr) operand.consistent_tensor_infer_result)).call
        .InferTmpSizeFn operand.opkernel.InferTmpSizeFn).1,
      by simp [exec_trace, call_trace, InferTempStorageBlobDescCalls],
      by simp [exec_status_buffer, call_status_buffer]⟩

/-- A temp storage prologue that returns Ok has inferred the size, reset the temp blob and
allocated its memory, in this order. -/
theorem TempStoragePrologue_ok {μ : Type} (operand : LocalCallOpKernelPhyInstrOperand μ)
    (device_ctx : Nat) (w w1 : World μ)
    (h : TempStoragePrologue operand device_ctx w = .returned .Ok w1) :
    ∃ temp_size : Nat,
      w1.trace = w.trace ++ InferTempStorageBlobDescCalls operand temp_size
          ++ [ .InitBlob operand.opkernel.temp_blob_object.addr,
               .TryAllocateBlobBodyMemory operand.opkernel.temp_blob_object.addr device_ctx ]
      ∧ w1.status_buffer = w.status_buffer := by
  unfold TempStoragePrologue at h
  split at h
  · cases h
  · rename_i wa hinfer
    obtain ⟨temp_size, ht, hs⟩ := InferTempStorageBlobDesc_returned operand w wa hinfer
    obtain ⟨wb, hreset, halloc⟩ := JUST_eq_Ok _ _ _ h
    simp only [Outcome.ofPair, Outcome.returned.injEq] at hreset halloc
    refine ⟨temp_size, ?_, ?_⟩
    · rw [← halloc.2, TryAllocateTempStorageBlobMemory, call_trace, ← hreset.2,
        ResetTempStorageBlob, call_trace, ht]
      simp
    · rw [← halloc.2, TryAllocateTempStorageBlobMemory, call_status_buffer, ← hreset.2,
        ResetTempStorageBlob, call_status_buffer, hs]

/-- The calls of `Compute` from the state and cache initialisation to the end: the optional
initialisation, the three calls of `OpKernelCompute`, and the temp deallocation when temp
storage is needed. -/
theorem ComputeKernelAndRelease_returned {μ : Type}
    (operand : LocalCallOpKernelPhyInstrOperand μ) (device_ctx : Nat) (w : World μ) :
    ∃ (state cache : Option Nat) (r : Maybe) (w_end : World μ),
      ComputeKernelAndRelease operand device_ctx w = .returned r w_end
      ∧ w_end.trace = w.trace ++ TryInitOpKernelStateAndCacheCalls operand device_ctx
          ++ OpKernelComputeCalls operand device_ctx state cache
          ++ (if operand.need_temp_storage then
                [.DeallocateBlobDataPtr operand.opkernel.temp_blob_object.addr]
              else [])
      ∧ w_end.status_buffer = w.status_buffer
      ∧ (operand.need_temp_storage = false → r = .Ok) := by
  have hsc : ∃ sc : (Option Nat × Option Nat) × World μ,
      sc = (if operand.user_opkernel.has_state_or_cache then
              TryInitOpKernelStateAndCache operand device_ctx w
            else ((none, none), w))
      ∧ sc.2.trace = w.trace ++ TryInitOpKernelStateAndCacheCalls operand device_ctx
      ∧ sc.2.status_buffer = w.status_buffer := by
    refine ⟨_, rfl, ?_, ?_⟩ <;>
      cases hs : operand.user_opkernel.has_state_or_cache <;>
      simp [hs, TryInitOpKernelStateAndCache, TryInitOpKernelStateAndCacheCalls, call_trace,
        call_status_buffer]
  obtain ⟨sc, hsc, htr, hst⟩ := hsc
  unfold ComputeKernelAndRelease
  simp only [← hsc]
  cases ht : operand.need_temp_storage
  · refine ⟨sc.1.1, sc.1.2, .Ok, OpKernelCompute operand device_ctx sc.1.1 sc.1.2 sc.2,
      by simp, ?_, ?_, fun _ => rfl⟩
    · simp [OpKernelCompute, OpKernelComputeCalls, exec_trace, htr]
    · simp [OpKernelCompute, exec_status_buffer, hst]
  · refine ⟨sc.1.1, sc.1.2,
      (DeallocateTempStorageBlobMemory operand device_ctx
        (OpKernelCompute operand device_ctx sc.1.1 sc.1.2 sc.2)).1,
      (DeallocateTempStorageBlobMemory operand device_ctx
        (OpKernelCompute operand device_ctx sc.1.1 sc.1.2 sc.2)).2,
      by simp [Outcome.ofPair], ?_, ?_, fun h => by cases h⟩
    · simp [DeallocateTempStorageBlobMemory, OpKernelCompute, OpKernelComputeCalls,
        exec_trace, call_trace, htr]
    · simp [DeallocateTempStorageBlobMemory, OpKernelCompute, exec_status_buffer,
        call_status_buffer, hst]

/-- A `Compute` that returns Ok went through the output allocation, the temp storage prologue
(when temp storage is needed) and the kernel part, each returning Ok. -/
theorem Compute_ok_stages {μ : Type} (instr_msg : InstructionMsg μ)
    (operand : LocalCallOpKernelPhyInstrOperand μ) (w w_end : World μ)
    (hop : GetLocalCallOpKernelPhyInstrOperand instr_msg = some operand)
    (hok : Compute instr_msg w = .returned .Ok w_end) :
    ∃ w1 w2 : World μ,
      AllocateOutputBlobsMemory operand instr_msg.phy_instr_stream.device_ctx.addr
          (priorReset operand w) = (.Ok, w1)
      ∧ (if operand.need_temp_storage then
            TempStoragePrologue operand instr_msg.phy_instr_stream.device_ctx.addr w1
          else .returned .Ok w1) = .returned .Ok w2
      ∧ ComputeKernelAndRelease operand instr_msg.phy_instr_stream.device_ctx.addr w2
          = .returned .Ok w_end := by
  unfold Compute at hok
  simp only [hop] at hok
  obtain ⟨w1, h1, hrest⟩ := JUST_eq_Ok _ _ _ hok
  obtain ⟨w2, h2, h3⟩ := JUST_eq_Ok _ _ _ hrest
  simp only [Outcome.ofPair, Outcome.returned.injEq] at h1
  exact ⟨w1, w2, Prod.ext h1.1 h1.2, h2, h3⟩

/-- The whole call sequence of a `Compute` that returns Ok for an operand that needs temp
storage; the status buffer is not written. -/
theorem Compute_ok_trace {μ : Type} (instr_msg : InstructionMsg μ)
    (operand : LocalCallOpKernelPhyInstrOperand μ) (w w_end : World μ)
    (hop : GetLocalCallOpKernelPhyInstrOperand instr_msg = some operand)
    (htemp : operand.need_temp_storage = true)
    (hok : Compute instr_msg w = .returned .Ok w_end) :
    ∃ (temp_size : Nat) (state cache : Option Nat),
      w_end.trace = w.trace ++ [.ResetPrior operand.attrs]
          ++ AllocateOutputBlobsMemoryCalls instr_msg.phy_instr_stream.device_ctx.addr
              operand.outputs.objects
          ++ InferTempStorageBlobDescCalls operand temp_size
          ++ [ .InitBlob operand.opkernel.temp_blob_object.addr,
               .TryAllocateBlobBodyMemory operand.opkernel.temp_blob_object.addr
                 instr_msg.phy_instr_stream.device_ctx.addr ]
          ++ TryInitOpKernelStateAndCacheCalls operand
              instr_msg.phy_instr_stream.device_ctx.addr
          ++ OpKernelComputeCalls operand instr_msg.phy_instr_stream.device_ctx.addr
              state cache
          ++ [.DeallocateBlobDataPtr operand.opkernel.temp_blob_object.addr]
      ∧ w_end.status_buffer = w.status_buffer := by
  obtain ⟨w1, w2, h1, h2, h3⟩ := Compute_ok_stages instr_msg operand w w_end hop hok
  obtain ⟨ht1, hs1⟩ := AllocateOutputBlobsMemoryLoop_ok _ _ _ _ h1
  simp only [htemp, if_true] at h2
  obtain ⟨temp_size, ht2, hs2⟩ := TempStoragePrologue_ok _ _ _ _ h2
  obtain ⟨state, cache, r, w3, h4, ht3, hs3, _⟩ :=
    ComputeKernelAndRelease_returned operand instr_msg.phy_instr_stream.device_ctx.addr w2
  rw [h3] at h4
  simp only [Outcome.returned.injEq] at h4
  obtain ⟨_, h4⟩ := h4
  subst h4
  refine ⟨temp_size, state, cache, ?_, ?_⟩
  · rw [ht3, ht2, ht1, priorReset, exec_trace]
    simp [htemp]
  · rw [hs3, hs2, hs1, priorReset, exec_status_buffer]

/-- The call `Compute` returns the error of a failed output allocation. -/
theorem Compute_of_output_error {μ : Type} (instr_msg : InstructionMsg μ)
    (operand : LocalCallOpKernelPhyInstrOperand μ) (w w1 : World μ) (e : ErrorProto)
    (hop : GetLocalCallOpKernelPhyInstrOperand instr_msg = some operand)
    (h : AllocateOutputBlobsMemory operand instr_msg.phy_instr_stream.device_ctx.addr
        (priorReset operand w) = (.Error e, w1)) :
    Compute instr_msg w = .returned (.Error e) w1 := by
  unfold Compute
  simp only [hop]
  exact JUST_of_Error _ _ w1 e (by simp [Outcome.ofPair, h])

/-- The call `Compute` returns the error of a failed temp storage prologue. -/
theorem Compute_of_prologue_error {μ : Type} (instr_msg : InstructionMsg μ)
    (operand : LocalCallOpKernelPhyInstrOperand μ) (w w1 w2 : World μ) (e : ErrorProto)
    (hop : GetLocalCallOpKernelPhyInstrOperand instr_msg = some operand)
    (htemp : operand.need_temp_storage = true)
    (h1 : AllocateOutputBlobsMemory operand instr_msg.phy_instr_stream.device_ctx.addr
        (priorReset operand w) = (.Ok, w1))
    (h2 : TempStoragePrologue operand instr_msg.phy_instr_stream.device_ctx.addr w1
        = .returned (.Error e) w2) :
    Compute instr_msg w = .returned (.Error e) w2 := by
  unfold Compute
  simp only [hop]
  rw [JUST_of_Ok _ _ w1 (by simp [Outcome.ofPair, h1])]
  exact JUST_of_Error _ _ w2 e (by simp [htemp, h2])

/-- Every call of the output allocation is the `TryInitBlob` or the `TryAllocateBlobBodyMemory`
of an output, the latter with the given device context. -/
theorem mem_AllocateOutputBlobsMemoryCalls {μ : Type} (device_ctx : Nat)
    (outputs : List (EagerBlobObject μ)) (c : Call)
    (h : c ∈ AllocateOutputBlobsMemoryCalls device_ctx outputs) :
    ∃ b ∈ outputs,
      c = .TryInitBlob b.addr ∨ c = .TryAllocateBlobBodyMemory b.addr device_ctx := by
  induction outputs with
  | nil => simp [AllocateOutputBlobsMemoryCalls] at h
  | cons b rest ih =>
    simp only [AllocateOutputBlobsMemoryCalls, List.mem_cons] at h
    rcases h with h | h | h
    · exact ⟨b, List.mem_cons_self _ _, Or.inl h⟩
    · exact ⟨b, List.mem_cons_self _ _, Or.inr h⟩
    · obtain ⟨b1, hb1, hc⟩ := ih h
      exact ⟨b1, List.mem_cons_of_mem _ hb1, hc⟩

/-- The allocation of every output is among the calls of the output allocation. -/
theorem TryAllocateBlobBodyMemory_mem_AllocateOutputBlobsMemoryCalls {μ : Type}
    (device_ctx : Nat) (outputs : List (EagerBlobObject μ)) (b : EagerBlobObject μ)
    (hb : b ∈ outputs) :
    Call.TryAllocateBlobBodyMemory b.addr device_ctx
      ∈ AllocateOutputBlobsMemoryCalls device_ctx outputs := by
  induction outputs with
  | nil => cases hb
  | cons b1 rest ih =>
    simp only [AllocateOutputBlobsMemoryCalls, List.mem_cons]
    rcases List.mem_cons.mp hb with h | h
    · subst h
      exact Or.inr (Or.inl rfl)
    · exact Or.inr (Or.inr (ih h))

/-- Size inference that aborts has made no call. -/
theorem InferTempStorageBlobDesc_aborted {μ : Type}
    (operand : LocalCallOpKernelPhyInstrOperand μ) (w w1 : World μ)
    (h : InferTempStorageBlobDesc operand w = .aborted w1) : w1 = w := by
  unfold InferTempStorageBlobDesc at h
  simp only at h
  split at h
  · cases h
    rfl
  · cases h

/-- After a successful output allocation, `Compute` goes on with the temp storage prologue
(when temp storage is needed) and the kernel part. -/
theorem Compute_of_output_ok {μ : Type} (instr_msg : InstructionMsg μ)
    (operand : LocalCallOpKernelPhyInstrOperand μ) (w w1 : World μ)
    (hop : GetLocalCallOpKernelPhyInstrOperand instr_msg = some operand)
    (h1 : AllocateOutputBlobsMemory operand instr_msg.phy_instr_stream.device_ctx.addr
        (priorReset operand w) = (.Ok, w1)) :
    Compute instr_msg w
      = JUST (if operand.need_temp_storage then
                TempStoragePrologue operand instr_msg.phy_instr_stream.device_ctx.addr w1
              else .returned .Ok w1)
          (fun w2 =>
            ComputeKernelAndRelease operand instr_msg.phy_instr_stream.device_ctx.addr w2) := by
  unfold Compute
  simp only [hop]
  rw [JUST_of_Ok _ _ w1 (by simp [Outcome.ofPair, h1])]

theorem after_nil {μ : Type} (w : World μ) : w.after [] = w := rfl

theorem after_cons {μ : Type} (w : World μ) (effect : Effect μ) (rest : List (Effect μ)) :
    w.after (effect :: rest) = (w.exec effect.call effect.action).after rest := rfl

theorem after_append {μ : Type} (w : World μ) (effects more : List (Effect μ)) :
    w.after (effects ++ more) = (w.after effects).after more := by
  induction effects generalizing w with
  | nil => rfl
  | cons effect rest ih => exact ih _

theorem after_trace {μ : Type} (w : World μ) (effects : List (Effect μ)) :
    (w.after effects).trace = w.trace ++ effects.map Effect.call := by
  induction effects generalizing w with
  | nil => simp [World.after]
  | cons effect rest ih =>
    rw [after_cons, ih, exec_trace]
    simp

theorem after_status_buffer {μ : Type} (w : World μ) (effects : List (Effect μ)) :
    (w.after effects).status_buffer = w.status_buffer := by
  induction effects generalizing w with
  | nil => rfl
  | cons effect rest ih => rw [after_cons, ih, exec_status_buffer]

/-- A call with a result changes the world as the execution of its action does. -/
theorem call_snd {μ α : Type} (w : World μ) (c : Call) (f : Machine μ → α × Machine μ) :
    (w.call c f).2 = w.exec c (fun m => (f m).2) := rfl

theorem AllocateOutputBlobsMemoryEffects_calls {μ : Type} (device_ctx : Nat)
    (outputs : List (EagerBlobObject μ)) :
    (AllocateOutputBlobsMemoryEffects device_ctx outputs).map Effect.call
      = AllocateOutputBlobsMemoryCalls device_ctx outputs := by
  induction outputs with
  | nil => rfl
  | cons b rest ih =>
    simp [AllocateOutputBlobsMemoryEffects, AllocateOutputBlobsMemoryCalls, ih]

theorem AllocateOutputBlobsMemoryEffects_append {μ : Type} (device_ctx : Nat)
    (pre post : List (EagerBlobObject μ)) :
    AllocateOutputBlobsMemoryEffects device_ctx (pre ++ post)
      = AllocateOutputBlobsMemoryEffects device_ctx pre
        ++ AllocateOutputBlobsMemoryEffects device_ctx post := by
  induction pre with
  | nil => rfl
  | cons b rest ih => simp [AllocateOutputBlobsMemoryEffects, ih]

theorem InferTempStorageBlobDescEffects_calls {μ : Type}
    (operand : LocalCallOpKernelPhyInstrOperand μ) (temp_size : Nat) :
    (InferTempStorageBlobDescEffects operand temp_size).map Effect.call
      = InferTempStorageBlobDescCalls operand temp_size := rfl

theorem TryInitOpKernelStateAndCacheEffects_calls {μ : Type}
    (operand : LocalCallOpKernelPhyInstrOperand μ) (device_ctx : Nat) :
    (TryInitOpKernelStateAndCacheEffects operand device_ctx).map Effect.call
      = TryInitOpKernelStateAndCacheCalls operand device_ctx := by
  unfold TryInitOpKernelStateAndCacheEffects TryInitOpKernelStateAndCacheCalls
  split <;> rfl

theorem OpKernelComputeEffects_calls {μ : Type}
    (operand : LocalCallOpKernelPhyInstrOperand μ) (device_ctx : Nat)
    (state cache : Option Nat) :
    (OpKernelComputeEffects operand device_ctx state cache).map Effect.call
      = OpKernelComputeCalls operand device_ctx state cache := rfl

/-- The calls of `ComputeEffects`. -/
theorem ComputeEffects_calls {μ : Type} (operand : LocalCallOpKernelPhyInstrOperand μ)
    (device_ctx temp_size : Nat) (state cache : Option Nat) :
    (ComputeEffects operand device_ctx temp_size state cache).map Effect.call
      = [.ResetPrior operand.attrs]
        ++ AllocateOutputBlobsMemoryCalls device_ctx operand.outputs.objects
        ++ (if operand.need_temp_storage then
              InferTempStorageBlobDescCalls operand temp_size
                ++ [ .InitBlob operand.opkernel.temp_blob_object.addr,
                     .TryAllocateBlobBodyMemory operand.opkernel.temp_blob_object.addr
                       device_ctx ]
            else [])
        ++ TryInitOpKernelStateAndCacheCalls operand device_ctx
        ++ OpKernelComputeCalls operand device_ctx state cache
        ++ (if operand.need_temp_storage then
              [.DeallocateBlobDataPtr operand.opkernel.temp_blob_object.addr]
            else []) := by
  unfold ComputeEffects PrologueEffects KernelEffects
  cases operand.need_temp_storage <;>
    simp [ResetPriorEffects, AllocateOutputBlobsMemoryEffects_calls,
      InferTempStorageBlobDescEffects_calls, TryInitOpKernelStateAndCacheEffects_calls,
      OpKernelComputeEffects_calls, ResetTempStorageBlobEffects,
      TryAllocateTempStorageBlobMemoryEffects, DeallocateTempStorageBlobMemoryEffects]

/-- A pass of the loop that returns Ok has executed the calls of every output, in order. -/
theorem AllocateOutputBlobsMemoryLoop_ok_world {μ : Type} (device_ctx : Nat)
    (outputs : List (EagerBlobObject μ)) (w w1 : World μ)
    (h : AllocateOutputBlobsMemoryLoop device_ctx outputs w = (.Ok, w1)) :
    w1 = w.after (AllocateOutputBlobsMemoryEffects device_ctx outputs) := by
  induction outputs generalizing w with
  | nil =>
    simp only [AllocateOutputBlobsMemoryLoop, Prod.mk.injEq, true_and] at h
    exact h.symm
  | cons b rest ih =>
    unfold AllocateOutputBlobsMemoryLoop at h
    split at h
    · simp at h
    · rename_i wa h1
      split at h
      · simp at h
      · rename_i wb h2
        have ha : wa = (w.call (.TryInitBlob b.addr) b.TryInitBlob).2 := by rw [h1]
        have hb2 : wb = (wa.call (.TryAllocateBlobBodyMemory b.addr device_ctx)
            (b.TryAllocateBlobBodyMemory device_ctx)).2 := by rw [h2]
        rw [ih wb h, hb2, ha]
        rfl

/-- In a pass of the loop that returns Ok, `TryInitBlob` and `TryAllocateBlobBodyMemory` of
every output returned Ok in the machine in which they were called. -/
theorem AllocateOutputBlobsMemoryLoop_ok_results {μ : Type} (device_ctx : Nat)
    (outputs : List (EagerBlobObject μ)) (w w1 : World μ)
    (h : AllocateOutputBlobsMemoryLoop device_ctx outputs w = (.Ok, w1))
    (pre post : List (EagerBlobObject μ)) (b : EagerBlobObject μ)
    (hsplit : outputs = pre ++ b :: post) :
    (b.TryInitBlob (w.after (AllocateOutputBlobsMemoryEffects device_ctx pre)).machine).1
        = .Ok
    ∧ (b.TryAllocateBlobBodyMemory device_ctx
        (b.TryInitBlob
          (w.after (AllocateOutputBlobsMemoryEffects device_ctx pre)).machine).2).1
        = .Ok := by
  induction pre generalizing w outputs with
  | nil =>
    subst hsplit
    simp only [List.nil_append] at h
    unfold AllocateOutputBlobsMemoryLoop at h
    split at h
    · simp at h
    · rename_i wa h1
      have ha : wa = (w.call (.TryInitBlob b.addr) b.TryInitBlob).2 := by rw [h1]
      have hr1 : (b.TryInitBlob w.machine).1 = .Ok := by
        rw [← call_result w (.TryInitBlob b.addr), h1]
      split at h
      · simp at h
      · rename_i wb h2
        have hr2 : (b.TryAllocateBlobBodyMemory device_ctx wa.machine).1 = .Ok := by
          rw [← call_result wa (.TryAllocateBlobBodyMemory b.addr device_ctx), h2]
        rw [ha] at hr2
        exact ⟨hr1, hr2⟩
  | cons b1 pre ih =>
    subst hsplit
    simp only [List.cons_append] at h
    unfold AllocateOutputBlobsMemoryLoop at h
    split at h
    · simp at h
    · rename_i wa h1
      have ha : wa = (w.call (.TryInitBlob b1.addr) b1.TryInitBlob).2 := by rw [h1]
      split at h
      · simp at h
      · rename_i wb h2
        have hb2 : wb = (wa.call (.TryAllocateBlobBodyMemory b1.addr device_ctx)
            (b1.TryAllocateBlobBodyMemory device_ctx)).2 := by rw [h2]
        have := ih (pre ++ b :: post) wb h rfl
        rw [hb2, ha] at this
        exact this

/-- Whatever its result, a pass of the loop has executed an initial part of the calls of the
output allocation. -/
theorem AllocateOutputBlobsMemoryLoop_world {μ : Type} (device_ctx : Nat)
    (outputs : List (EagerBlobObject μ)) (w : World μ) :
    ∃ effects later : List (Effect μ),
      (AllocateOutputBlobsMemoryLoop device_ctx outputs w).2 = w.after effects
      ∧ effects ++ later = AllocateOutputBlobsMemoryEffects device_ctx outputs := by
  induction outputs generalizing w with
  | nil => exact ⟨[], [], rfl, rfl⟩
  | cons b rest ih =>
    unfold AllocateOutputBlobsMemoryLoop
    split
    · rename_i e wa h1
      have ha : wa = (w.call (.TryInitBlob b.addr) b.TryInitBlob).2 := by rw [h1]
      exact ⟨[{ call := .TryInitBlob b.addr, action := fun m => (b.TryInitBlob m).2 }],
        { call := .TryAllocateBlobBodyMemory b.addr device_ctx,
          action := fun m => (b.TryAllocateBlobBodyMemory device_ctx m).2 }
          :: AllocateOutputBlobsMemoryEffects device_ctx rest,
        by rw [ha]; rfl, rfl⟩
    · rename_i wa h1
      have ha : wa = (w.call (.TryInitBlob b.addr) b.TryInitBlob).2 := by rw [h1]
      split
      · rename_i e wb h2
        have hb2 : wb = (wa.call (.TryAllocateBlobBodyMemory b.addr device_ctx)
            (b.TryAllocateBlobBodyMemory device_ctx)).2 := by rw [h2]
        exact ⟨[ { call := .TryInitBlob b.addr, action := fun m => (b.TryInitBlob m).2 },
            { call := .TryAllocateBlobBodyMemory b.addr device_ctx,
              action := fun m => (b.TryAllocateBlobBodyMemory device_ctx m).2 } ],
          AllocateOutputBlobsMemoryEffects device_ctx rest,
          by rw [hb2, ha]; rfl, rfl⟩
      · rename_i wb h2
        have hb2 : wb = (wa.call (.TryAllocateBlobBodyMemory b.addr device_ctx)
            (b.TryAllocateBlobBodyMemory device_ctx)).2 := by rw [h2]
        obtain ⟨effects, later, ht, hp⟩ := ih wb
        exact ⟨{ call := .TryInitBlob b.addr, action := fun m => (b.TryInitBlob m).2 }
            :: { call := .TryAllocateBlobBodyMemory b.addr device_ctx,
                 action := fun m => (b.TryAllocateBlobBodyMemory device_ctx m).2 }
            :: effects,
          later, by rw [ht, hb2, ha]; rfl,
          by simp [AllocateOutputBlobsMemoryEffects, hp]⟩

/-- Size inference that returns has executed its five calls; the shape written is the size
that `InferTmpSizeFn` returned. -/
theorem InferTempStorageBlobDesc_returned_world {μ : Type}
    (operand : LocalCallOpKernelPhyInstrOperand μ) (w w1 : World μ)
    (h : InferTempStorageBlobDesc operand w = .returned () w1) :
    w1 = w.after
      (InferTempStorageBlobDescEffects operand (inferredTempSize operand w.machine)) := by
  unfold InferTempStorageBlobDesc at h
  simp only at h
  split at h
  · cases h
  · simp only [Outcome.returned.injEq, true_and] at h
    rw [← h]
    rfl

/-- The four ways in which the temp storage prologue ends, with the world in which it ends
and the results of the calls on the temp blob. -/
theorem TempStoragePrologue_world_cases {μ : Type}
    (operand : LocalCallOpKernelPhyInstrOperand μ) (device_ctx : Nat) (w : World μ) :
    TempStoragePrologue operand device_ctx w = .aborted w
    ∨ (∃ e : ErrorProto,
        TempStoragePrologue operand device_ctx w
          = .returned (.Error e)
              (w.after (InferTempStorageBlobDescEffects operand
                  (inferredTempSize operand w.machine)
                ++ ResetTempStorageBlobEffects operand))
        ∧ (operand.opkernel.temp_blob_object.InitBlob
            (w.after (InferTempStorageBlobDescEffects operand
              (inferredTempSize operand w.machine))).machine).1 = .Error e)
    ∨ (∃ e : ErrorProto,
        TempStoragePrologue operand device_ctx w
          = .returned (.Error e)
              (w.after (InferTempStorageBlobDescEffects operand
                  (inferredTempSize operand w.machine)
                ++ ResetTempStorageBlobEffects operand
                ++ TryAllocateTempStorageBlobMemoryEffects operand device_ctx))
        ∧ (operand.opkernel.temp_blob_object.InitBlob
            (w.after (InferTempStorageBlobDescEffects operand
              (inferredTempSize operand w.machine))).machine).1 = .Ok
        ∧ (operand.opkernel.temp_blob_object.TryAllocateBlobBodyMemory device_ctx
            (w.after (InferTempStorageBlobDescEffects operand
                (inferredTempSize operand w.machine)
              ++ ResetTempStorageBlobEffects operand)).machine).1 = .Error e)
    ∨ (TempStoragePrologue operand device_ctx w
          = .returned .Ok
              (w.after (InferTempStorageBlobDescEffects operand
                  (inferredTempSize operand w.machine)
                ++ ResetTempStorageBlobEffects operand
                ++ TryAllocateTempStorageBlobMemoryEffects operand device_ctx))
        ∧ (operand.opkernel.temp_blob_object.InitBlob
            (w.after (InferTempStorageBlobDescEffects operand
              (inferredTempSize operand w.machine))).machine).1 = .Ok
        ∧ (operand.opkernel.temp_blob_object.TryAllocateBlobBodyMemory device_ctx
            (w.after (InferTempStorageBlobDescEffects operand
                (inferredTempSize operand w.machine)
              ++ ResetTempStorageBlobEffects operand)).machine).1 = .Ok) := by
  unfold TempStoragePrologue
  cases hinfer : InferTempStorageBlobDesc operand w with
  | aborted wa =>
    left
    simp only
    rw [InferTempStorageBlobDesc_aborted _ _ _ hinfer]
  | returned u wa =>
    have hwa := InferTempStorageBlobDesc_returned_world operand w wa hinfer
    subst hwa
    simp only
    cases hreset : (operand.opkernel.temp_blob_object.InitBlob
        (w.after (InferTempStorageBlobDescEffects operand
          (inferredTempSize operand w.machine))).machine).1 with
    | Error e =>
      right
      left
      refine ⟨e, ?_, rfl⟩
      rw [JUST_of_Error _ _ _ e]
      simp only [Outcome.ofPair, ResetTempStorageBlob, call_result, hreset, after_append]
      rfl
    | Ok =>
      rw [JUST_of_Ok _ _ ((w.after (InferTempStorageBlobDescEffects operand
          (inferredTempSize operand w.machine))).after (ResetTempStorageBlobEffects operand))
        (by simp only [Outcome.ofPair, ResetTempStorageBlob, call_result, hreset]; rfl)]
      cases halloc : (operand.opkernel.temp_blob_object.TryAllocateBlobBodyMemory device_ctx
          (w.after (InferTempStorageBlobDescEffects operand
              (inferredTempSize operand w.machine)
            ++ ResetTempStorageBlobEffects operand)).machine).1 with
      | Error e =>
        right
        right
        left
        refine ⟨e, ?_, rfl, rfl⟩
        rw [after_append] at halloc
        simp only [Outcome.ofPair, TryAllocateTempStorageBlobMemory, call_result, halloc,
          after_append]
        rfl
      | Ok =>
        right
        right
        right
        refine ⟨?_, rfl, rfl⟩
        rw [after_append] at halloc
        simp only [Outcome.ofPair, TryAllocateTempStorageBlobMemory, call_result, halloc,
          after_append]
        rfl

/-- The part of `Compute` from the state and cache initialisation to the end executes the
kernel part and, with `need_temp_storage`, the deallocation of the temp blob, whose result
it returns.  The kernel receives what the initialisation left in the variables `state` and
`cache`, or two null pointers if the user kernel has neither state nor cache. -/
theorem ComputeKernelAndRelease_world {μ : Type}
    (operand : LocalCallOpKernelPhyInstrOperand μ) (device_ctx : Nat) (w : World μ) :
    ∃ state cache : Option Nat,
      state = (if operand.user_opkernel.has_state_or_cache then
                (TryInitOpKernelStateAndCache operand device_ctx w).1.1 else none)
      ∧ cache = (if operand.user_opkernel.has_state_or_cache then
                (TryInitOpKernelStateAndCache operand device_ctx w).1.2 else none)
      ∧ ComputeKernelAndRelease operand device_ctx w
        = .returned
            (if operand.need_temp_storage then
              (operand.opkernel.temp_blob_object.DeallocateBlobDataPtr
                (w.after (KernelEffects operand device_ctx state cache)).machine).1
            else .Ok)
            (w.after (KernelEffects operand device_ctx state cache
              ++ (if operand.need_temp_storage then
                    DeallocateTempStorageBlobMemoryEffects operand
                  else []))) := by
  refine ⟨_, _, rfl, rfl, ?_⟩
  unfold ComputeKernelAndRelease KernelEffects TryInitOpKernelStateAndCacheEffects
  cases hs : operand.user_opkernel.has_state_or_cache <;>
    cases ht : operand.need_temp_storage <;>
    simp only [Bool.false_eq_true, if_false, if_true, Outcome.ofPair, List.append_nil,
      List.nil_append] <;>
    rfl

/-- The ways in which `Compute` ends on an operand, with the world in which it ends.  The
output allocation fails; the check of the temp data type aborts; the reset or the allocation
of the temp blob fails; or the kernel runs and `Compute` returns, with the result of the
deallocation of the temp blob when temp storage is needed and with Ok otherwise. -/
theorem Compute_world_cases {μ : Type} (instr_msg : InstructionMsg μ)
    (operand : LocalCallOpKernelPhyInstrOperand μ) (w : World μ)
    (hop : GetLocalCallOpKernelPhyInstrOperand instr_msg = some operand) :
    (∃ (effects later : List (Effect μ)) (e : ErrorProto),
        Compute instr_msg w
          = .returned (.Error e) (w.after (ResetPriorEffects operand ++ effects))
        ∧ effects ++ later = AllocateOutputBlobsMemoryEffects
            instr_msg.phy_instr_stream.device_ctx.addr operand.outputs.objects)
    ∨ (operand.need_temp_storage = true
        ∧ Compute instr_msg w
          = .aborted (w.after (ResetPriorEffects operand
              ++ AllocateOutputBlobsMemoryEffects
                  instr_msg.phy_instr_stream.device_ctx.addr operand.outputs.objects)))
    ∨ (operand.need_temp_storage = true
        ∧ ∃ (tail : List (Effect μ)) (e : ErrorProto),
          Compute instr_msg w
            = .returned (.Error e)
                (w.after (ResetPriorEffects operand
                  ++ AllocateOutputBlobsMemoryEffects
                      instr_msg.phy_instr_stream.device_ctx.addr operand.outputs.objects
                  ++ InferTempStorageBlobDescEffects operand
                      (inferredTempSize operand
                        (w.after (ResetPriorEffects operand
                          ++ AllocateOutputBlobsMemoryEffects
                              instr_msg.phy_instr_stream.device_ctx.addr
                              operand.outputs.objects)).machine)
                  ++ tail))
          ∧ (tail = ResetTempStorageBlobEffects operand
              ∨ tail = ResetTempStorageBlobEffects operand
                  ++ TryAllocateTempStorageBlobMemoryEffects operand
                      instr_msg.phy_instr_stream.device_ctx.addr))
    ∨ (∃ (temp_size : Nat) (state cache : Option Nat),
        temp_size = inferredTempSize operand
          (w.after (ResetPriorEffects operand
            ++ AllocateOutputBlobsMemoryEffects
                instr_msg.phy_instr_stream.device_ctx.addr
                operand.outputs.objects)).machine
        ∧ state = (if operand.user_opkernel.has_state_or_cache then
            (TryInitOpKernelStateAndCache operand instr_msg.phy_instr_stream.device_ctx.addr
              (w.after (PrologueEffects operand
                instr_msg.phy_instr_stream.device_ctx.addr temp_size))).1.1 else none)
        ∧ cache = (if operand.user_opkernel.has_state_or_cache then
            (TryInitOpKernelStateAndCache operand instr_msg.phy_instr_stream.device_ctx.addr
              (w.after (PrologueEffects operand
                instr_msg.phy_instr_stream.device_ctx.addr temp_size))).1.2 else none)
        ∧ Compute instr_msg w
          = .returned
              (if operand.need_temp_storage then
                (operand.opkernel.temp_blob_object.DeallocateBlobDataPtr
                  (w.after (PrologueEffects operand
                      instr_msg.phy_instr_stream.device_ctx.addr temp_size
                    ++ KernelEffects operand instr_msg.phy_instr_stream.device_ctx.addr
                        state cache)).machine).1
              else .Ok)
              (w.after (ComputeEffects operand instr_msg.phy_instr_stream.device_ctx.addr
                temp_size state cache))
        ∧ AllocateOutputBlobsMemory operand instr_msg.phy_instr_stream.device_ctx.addr
            (priorReset operand w)
          = (.Ok, w.after (ResetPriorEffects operand
              ++ AllocateOutputBlobsMemoryEffects
                  instr_msg.phy_instr_stream.device_ctx.addr operand.outputs.objects))
        ∧ (operand.need_temp_storage = true →
            (operand.opkernel.temp_blob_object.InitBlob
              (w.after (ResetPriorEffects operand
                ++ AllocateOutputBlobsMemoryEffects
                    instr_msg.phy_instr_stream.device_ctx.addr operand.outputs.objects
                ++ InferTempStorageBlobDescEffects operand temp_size)).machine).1 = .Ok
            ∧ (operand.opkernel.temp_blob_object.TryAllocateBlobBodyMemory
                instr_msg.phy_instr_stream.device_ctx.addr
                (w.after (ResetPriorEffects operand
                  ++ AllocateOutputBlobsMemoryEffects
                      instr_msg.phy_instr_stream.device_ctx.addr operand.outputs.objects
                  ++ InferTempStorageBlobDescEffects operand temp_size
                  ++ ResetTempStorageBlobEffects operand)).machine).1 = .Ok)) := by
  have hw0 : priorReset operand w = w.after (ResetPriorEffects operand) := rfl
  cases hloop : AllocateOutputBlobsMemory operand instr_msg.phy_instr_stream.device_ctx.addr
      (priorReset operand w) with
  | mk r1 w1 =>
  cases r1 with
  | Error e =>
    left
    obtain ⟨effects, later, ht, hp⟩ := AllocateOutputBlobsMemoryLoop_world
      instr_msg.phy_instr_stream.device_ctx.addr operand.outputs.objects (priorReset operand w)
    have hc := Compute_of_output_error instr_msg operand w w1 e hop hloop
    have hw1 : (AllocateOutputBlobsMemoryLoop instr_msg.phy_instr_stream.device_ctx.addr
        operand.outputs.objects (priorReset operand w)).2 = w1 := congrArg Prod.snd hloop
    rw [hw1, hw0, ← after_append] at ht
    exact ⟨effects, later, e, by rw [hc, ht], hp⟩
  | Ok =>
    have hw1 := AllocateOutputBlobsMemoryLoop_ok_world _ _ _ _ hloop
    rw [hw0, ← after_append] at hw1
    subst hw1
    have hc := Compute_of_output_ok instr_msg operand w _ hop hloop
    cases htemp : operand.need_temp_storage with
    | false =>
      right
      right
      right
      simp only [htemp, Bool.false_eq_true, if_false] at hc
      rw [JUST_of_Ok _ _ _ rfl] at hc
      obtain ⟨state, cache, hstate, hcache, hk⟩ := ComputeKernelAndRelease_world operand
        instr_msg.phy_instr_stream.device_ctx.addr
        (w.after (ResetPriorEffects operand
          ++ AllocateOutputBlobsMemoryEffects
              instr_msg.phy_instr_stream.device_ctx.addr operand.outputs.objects))
      simp only [htemp, Bool.false_eq_true, if_false, List.append_nil] at hk
      refine ⟨_, state, cache, rfl, ?_, ?_, ?_, rfl, fun h => by cases h⟩
      · simpa [PrologueEffects, htemp] using hstate
      · simpa [PrologueEffects, htemp] using hcache
      · rw [hc, hk]
        simp [ComputeEffects, PrologueEffects, htemp, after_append]
    | true =>
      simp only [htemp, if_true] at hc
      rcases TempStoragePrologue_world_cases operand
          instr_msg.phy_instr_stream.device_ctx.addr
          (w.after (ResetPriorEffects operand
            ++ AllocateOutputBlobsMemoryEffects
                instr_msg.phy_instr_stream.device_ctx.addr operand.outputs.objects))
        with hab | ⟨e, hp, _⟩ | ⟨e, hp, _, _⟩ | ⟨hp, hinit, halloc⟩
      · right
        left
        rw [hab] at hc
        exact ⟨rfl, hc⟩
      · right
        right
        left
        rw [JUST_of_Error _ _ _ e hp] at hc
        exact ⟨rfl, ResetTempStorageBlobEffects operand, e,
          by rw [hc]; simp only [after_append, List.append_assoc], Or.inl rfl⟩
      · right
        right
        left
        rw [JUST_of_Error _ _ _ e hp] at hc
        exact ⟨rfl, ResetTempStorageBlobEffects operand
            ++ TryAllocateTempStorageBlobMemoryEffects operand
                instr_msg.phy_instr_stream.device_ctx.addr, e,
          by rw [hc]; simp only [after_append, List.append_assoc], Or.inr rfl⟩
      · right
        right
        right
        rw [JUST_of_Ok _ _ _ hp] at hc
        obtain ⟨state, cache, hstate, hcache, hk⟩ := ComputeKernelAndRelease_world operand
          instr_msg.phy_instr_stream.device_ctx.addr
          ((w.after (ResetPriorEffects operand
            ++ AllocateOutputBlobsMemoryEffects
                instr_msg.phy_instr_stream.device_ctx.addr operand.outputs.objects)).after
            (InferTempStorageBlobDescEffects operand
                (inferredTempSize operand
                  (w.after (ResetPriorEffects operand
                    ++ AllocateOutputBlobsMemoryEffects
                        instr_msg.phy_instr_stream.device_ctx.addr
                        operand.outputs.objects)).machine)
              ++ ResetTempStorageBlobEffects operand
              ++ TryAllocateTempStorageBlobMemoryEffects operand
                  instr_msg.phy_instr_stream.device_ctx.addr))
        simp only [htemp, if_true] at hk
        refine ⟨_, state, cache, rfl, ?_, ?_, ?_, rfl, fun _ => ⟨?_, ?_⟩⟩
        · simpa [PrologueEffects, htemp, after_append] using hstate
        · simpa [PrologueEffects, htemp, after_append] using hcache
        · rw [hc, hk]
          simp [ComputeEffects, PrologueEffects, htemp, after_append]
        · simpa [after_append] using hinit
        · simpa [after_append] using halloc

/-- A `Compute` that returns Ok has executed all of `ComputeEffects`: the world on return is
the world after these calls.  The temp size is the one that `InferTmpSizeFn` returned, the
state and the cache are those that the initialisation left, and every fallible call on the
temp blob returned Ok in the machine in which it was made. -/
theorem Compute_ok_world {μ : Type} (instr_msg : InstructionMsg μ)
    (operand : LocalCallOpKernelPhyInstrOperand μ) (w w_end : World μ)
    (hop : GetLocalCallOpKernelPhyInstrOperand instr_msg = some operand)
    (hok : Compute instr_msg w = .returned .Ok w_end) :
    ∃ (temp_size : Nat) (state cache : Option Nat),
      temp_size = inferredTempSize operand
          (w.after (ResetPriorEffects operand
            ++ AllocateOutputBlobsMemoryEffects
                instr_msg.phy_instr_stream.device_ctx.addr
                operand.outputs.objects)).machine
      ∧ state = (if operand.user_opkernel.has_state_or_cache then
          (TryInitOpKernelStateAndCache operand instr_msg.phy_instr_stream.device_ctx.addr
            (w.after (PrologueEffects operand
              instr_msg.phy_instr_stream.device_ctx.addr temp_size))).1.1 else none)
      ∧ cache = (if operand.user_opkernel.has_state_or_cache then
          (TryInitOpKernelStateAndCache operand instr_msg.phy_instr_stream.device_ctx.addr
            (w.after (PrologueEffects operand
              instr_msg.phy_instr_stream.device_ctx.addr temp_size))).1.2 else none)
      ∧ w_end = w.after (ComputeEffects operand instr_msg.phy_instr_stream.device_ctx.addr
          temp_size state cache)
      ∧ AllocateOutputBlobsMemory operand instr_msg.phy_instr_stream.device_ctx.addr
          (priorReset operand w)
        = (.Ok, w.after (ResetPriorEffects operand
            ++ AllocateOutputBlobsMemoryEffects
                instr_msg.phy_instr_stream.device_ctx.addr operand.outputs.objects))
      ∧ (operand.need_temp_storage = true →
          (operand.opkernel.temp_blob_object.InitBlob
            (w.after (ResetPriorEffects operand
              ++ AllocateOutputBlobsMemoryEffects
                  instr_msg.phy_instr_stream.device_ctx.addr operand.outputs.objects
              ++ InferTempStorageBlobDescEffects operand temp_size)).machine).1 = .Ok
          ∧ (operand.opkernel.temp_blob_object.TryAllocateBlobBodyMemory
              instr_msg.phy_instr_stream.device_ctx.addr
              (w.after (ResetPriorEffects operand
                ++ AllocateOutputBlobsMemoryEffects
                    instr_msg.phy_instr_stream.device_ctx.addr operand.outputs.objects
                ++ InferTempStorageBlobDescEffects operand temp_size
                ++ ResetTempStorageBlobEffects operand)).machine).1 = .Ok
          ∧ (operand.opkernel.temp_blob_object.DeallocateBlobDataPtr
              (w.after (PrologueEffects operand
                  instr_msg.phy_instr_stream.device_ctx.addr temp_size
                ++ KernelEffects operand instr_msg.phy_instr_stream.device_ctx.addr
                    state cache)).machine).1 = .Ok) := by
  rcases Compute_world_cases instr_msg operand w hop with
    ⟨_, _, e, hc, _⟩ | ⟨_, hc⟩ | ⟨_, _, e, hc, _⟩
      | ⟨temp_size, state, cache, hts, hstate, hcache, hc, hloop, hprologue⟩
  · rw [hc] at hok
    cases hok
  · rw [hc] at hok
    cases hok
  · rw [hc] at hok
    cases hok
  · rw [hc] at hok
    simp only [Outcome.returned.injEq] at hok
    obtain ⟨hr, hw⟩ := hok
    refine ⟨temp_size, state, cache, hts, hstate, hcache, hw.symm, hloop, fun htemp => ?_⟩
    obtain ⟨h1, h2⟩ := hprologue htemp
    simp only [htemp, if_true] at hr
    exact ⟨h1, h2, hr⟩

/-- The kernel is not among the calls of the prologue. -/
theorem KernelCompute_not_mem_PrologueEffects {μ : Type}
    (operand : LocalCallOpKernelPhyInstrOperand μ) (device_ctx temp_size : Nat)
    (state cache : Option Nat) :
    Call.KernelCompute state cache
      ∉ (PrologueEffects operand device_ctx temp_size).map Effect.call := by
  unfold PrologueEffects
  cases operand.need_temp_storage <;>
    simp [ResetPriorEffects, AllocateOutputBlobsMemoryEffects_calls,
      KernelCompute_not_mem_AllocateOutputBlobsMemoryCalls,
      InferTempStorageBlobDescEffects, ResetTempStorageBlobEffects,
      TryAllocateTempStorageBlobMemoryEffects]

/-- The kernel is not among the calls of the state and cache initialisation. -/
theorem KernelCompute_not_mem_TryInitOpKernelStateAndCacheEffects {μ : Type}
    (operand : LocalCallOpKernelPhyInstrOperand μ) (device_ctx : Nat)
    (state cache : Option Nat) :
    Call.KernelCompute state cache
      ∉ (TryInitOpKernelStateAndCacheEffects operand device_ctx).map Effect.call := by
  unfold TryInitOpKernelStateAndCacheEffects
  split <;> simp

/-- `ComputeEffects`, split at the kernel. -/
theorem ComputeEffects_split {μ : Type} (operand : LocalCallOpKernelPhyInstrOperand μ)
    (device_ctx temp_size : Nat) (state cache : Option Nat) :
    ComputeEffects operand device_ctx temp_size state cache
      = (PrologueEffects operand device_ctx temp_size
          ++ TryInitOpKernelStateAndCacheEffects operand device_ctx)
        ++ OpKernelComputeEffects operand device_ctx state cache
        ++ (if operand.need_temp_storage then DeallocateTempStorageBlobMemoryEffects operand
            else []) := by
  simp only [ComputeEffects, KernelEffects, List.append_assoc]

/-- The kernel call among the calls of `ComputeEffects` is the one with the state and the
cache of `ComputeEffects`. -/
theorem KernelCompute_mem_ComputeEffects {μ : Type}
    (operand : LocalCallOpKernelPhyInstrOperand μ) (device_ctx temp_size : Nat)
    (state cache state1 cache1 : Option Nat)
    (h : Call.KernelCompute state1 cache1
      ∈ (ComputeEffects operand device_ctx temp_size state cache).map Effect.call) :
    state1 = state ∧ cache1 = cache := by
  rw [ComputeEffects_split] at h
  simp only [List.map_append, List.mem_append] at h
  rcases h with ((h | h) | h) | h
  · exact absurd h (KernelCompute_not_mem_PrologueEffects _ _ _ _ _)
  · exact absurd h (KernelCompute_not_mem_TryInitOpKernelStateAndCacheEffects _ _ _ _)
  · simpa [OpKernelComputeEffects] using h
  · split at h
    · simp [DeallocateTempStorageBlobMemoryEffects] at h
    · simp at h

/-- Whatever its outcome, `Compute` has executed an initial part of `ComputeEffects`, for the
temp size that `InferTmpSizeFn` returns and the state and cache that the initialisation
leaves.  Either the kernel was not invoked, or `Compute` returned after executing all of
`ComputeEffects`, with the result of the deallocation of the temp blob when temp storage is
needed and with Ok otherwise. -/
theorem Compute_world_initial_part {μ : Type} (instr_msg : InstructionMsg μ)
    (operand : LocalCallOpKernelPhyInstrOperand μ) (w : World μ)
    (hop : GetLocalCallOpKernelPhyInstrOperand instr_msg = some operand) :
    ∃ (effects later : List (Effect μ)) (temp_size : Nat) (state cache : Option Nat),
      (Compute instr_msg w).state = w.after effects
      ∧ effects ++ later
        = ComputeEffects operand instr_msg.phy_instr_stream.device_ctx.addr temp_size
            state cache
      ∧ temp_size = inferredTempSize operand
          (w.after (ResetPriorEffects operand
            ++ AllocateOutputBlobsMemoryEffects
                instr_msg.phy_instr_stream.device_ctx.addr
                operand.outputs.objects)).machine
      ∧ state = (if operand.user_opkernel.has_state_or_cache then
          (TryInitOpKernelStateAndCache operand instr_msg.phy_instr_stream.device_ctx.addr
            (w.after (PrologueEffects operand
              instr_msg.phy_instr_stream.device_ctx.addr temp_size))).1.1 else none)
      ∧ cache = (if operand.user_opkernel.has_state_or_cache then
          (TryInitOpKernelStateAndCache operand instr_msg.phy_instr_stream.device_ctx.addr
            (w.after (PrologueEffects operand
              instr_msg.phy_instr_stream.device_ctx.addr temp_size))).1.2 else none)
      ∧ (((∀ state1 cache1 : Option Nat,
              Call.KernelCompute state1 cache1 ∉ effects.map Effect.call)
            ∧ (∀ w_end : World μ, Compute instr_msg w ≠ .returned .Ok w_end)
            ∧ (∀ c ∈ effects.map Effect.call, c.isUpdateComputeContext = false))
          ∨ (later = []
            ∧ Compute instr_msg w
              = .returned
                  (if operand.need_temp_storage then
                    (operand.opkernel.temp_blob_object.DeallocateBlobDataPtr
                      (w.after (PrologueEffects operand
                          instr_msg.phy_instr_stream.device_ctx.addr temp_size
                        ++ KernelEffects operand instr_msg.phy_instr_stream.device_ctx.addr
                            state cache)).machine).1
                  else .Ok)
                  (w.after effects))) := by
  have hallocU : ∀ (outputs : List (EagerBlobObject μ)),
      ∀ c ∈ AllocateOutputBlobsMemoryCalls instr_msg.phy_instr_stream.device_ctx.addr outputs,
        c.isUpdateComputeContext = false := by
    intro outputs c hc
    obtain ⟨b, _, h | h⟩ := mem_AllocateOutputBlobsMemoryCalls _ _ _ hc <;> subst h <;> rfl
  have hts : ∃ temp_size : Nat, temp_size = inferredTempSize operand
      (w.after (ResetPriorEffects operand
        ++ AllocateOutputBlobsMemoryEffects
            instr_msg.phy_instr_stream.device_ctx.addr
            operand.outputs.objects)).machine := ⟨_, rfl⟩
  obtain ⟨temp_size, hts⟩ := hts
  have hst : ∃ state : Option Nat, state
      = (if operand.user_opkernel.has_state_or_cache then
          (TryInitOpKernelStateAndCache operand instr_msg.phy_instr_stream.device_ctx.addr
            (w.after (PrologueEffects operand
              instr_msg.phy_instr_stream.device_ctx.addr temp_size))).1.1 else none) :=
    ⟨_, rfl⟩
  obtain ⟨state, hst⟩ := hst
  have hca : ∃ cache : Option Nat, cache
      = (if operand.user_opkernel.has_state_or_cache then
          (TryInitOpKernelStateAndCache operand instr_msg.phy_instr_stream.device_ctx.addr
            (w.after (PrologueEffects operand
              instr_msg.phy_instr_stream.device_ctx.addr temp_size))).1.2 else none) :=
    ⟨_, rfl⟩
  obtain ⟨cache, hca⟩ := hca
  rcases Compute_world_cases instr_msg operand w hop with
    ⟨effs, later, e, hc, hp⟩ | ⟨htemp, hc⟩ | ⟨htemp, tail, e, hc, htail⟩
      | ⟨temp_size1, state1, cache1, hts1, hst1, hca1, hc, _, _⟩
  · have hcalls : ∀ c ∈ effs.map Effect.call, c ∈ AllocateOutputBlobsMemoryCalls
        instr_msg.phy_instr_stream.device_ctx.addr operand.outputs.objects := by
      intro c hm
      rw [← AllocateOutputBlobsMemoryEffects_calls, ← hp, List.map_append]
      exact List.mem_append_left _ hm
    refine ⟨ResetPriorEffects operand ++ effs,
      later ++ ((if operand.need_temp_storage then
            InferTempStorageBlobDescEffects operand temp_size
              ++ ResetTempStorageBlobEffects operand
              ++ TryAllocateTempStorageBlobMemoryEffects operand
                  instr_msg.phy_instr_stream.device_ctx.addr
          else [])
        ++ KernelEffects operand instr_msg.phy_instr_stream.device_ctx.addr state cache
        ++ (if operand.need_temp_storage then DeallocateTempStorageBlobMemoryEffects operand
            else [])),
      temp_size, state, cache, by rw [hc]; rfl, ?_, hts, hst, hca, Or.inl ⟨?_, ?_, ?_⟩⟩
    · simp only [ComputeEffects, PrologueEffects, ← hp, List.append_assoc]
    · intro state1 cache1 hm
      simp only [List.map_append, List.mem_append] at hm
      rcases hm with hm | hm
      · simp [ResetPriorEffects] at hm
      · exact KernelCompute_not_mem_AllocateOutputBlobsMemoryCalls _ _ _ _ (hcalls _ hm)
    · intro w_end hok
      rw [hc] at hok
      cases hok
    · intro c hm
      simp only [List.map_append, List.mem_append] at hm
      rcases hm with hm | hm
      · simp only [ResetPriorEffects, List.map_cons, List.map_nil, List.mem_singleton] at hm
        subst hm
        rfl
      · exact hallocU _ c (hcalls _ hm)
  · refine ⟨ResetPriorEffects operand
        ++ AllocateOutputBlobsMemoryEffects instr_msg.phy_instr_stream.device_ctx.addr
            operand.outputs.objects,
      (InferTempStorageBlobDescEffects operand temp_size
          ++ ResetTempStorageBlobEffects operand
          ++ TryAllocateTempStorageBlobMemoryEffects operand
              instr_msg.phy_instr_stream.device_ctx.addr)
        ++ KernelEffects operand instr_msg.phy_instr_stream.device_ctx.addr state cache
        ++ DeallocateTempStorageBlobMemoryEffects operand,
      temp_size, state, cache, by rw [hc]; rfl, ?_, hts, hst, hca, Or.inl ⟨?_, ?_, ?_⟩⟩
    · simp only [ComputeEffects, PrologueEffects, htemp, if_true, List.append_assoc]
    · intro state1 cache1 hm
      simp only [List.map_append, List.mem_append] at hm
      rcases hm with hm | hm
      · simp [ResetPriorEffects] at hm
      · rw [AllocateOutputBlobsMemoryEffects_calls] at hm
        exact KernelCompute_not_mem_AllocateOutputBlobsMemoryCalls _ _ _ _ hm
    · intro w_end hok
      rw [hc] at hok
      cases hok
    · intro c hm
      simp only [List.map_append, List.mem_append] at hm
      rcases hm with hm | hm
      · simp only [ResetPriorEffects, List.map_cons, List.map_nil, List.mem_singleton] at hm
        subst hm
        rfl
      · rw [AllocateOutputBlobsMemoryEffects_calls] at hm
        exact hallocU _ c hm
  · rw [← hts] at hc
    have hknown : ∀ c ∈ (ResetPriorEffects operand
          ++ AllocateOutputBlobsMemoryEffects instr_msg.phy_instr_stream.device_ctx.addr
              operand.outputs.objects
          ++ InferTempStorageBlobDescEffects operand temp_size ++ tail).map Effect.call,
        c.isUpdateComputeContext = false ∧ ∀ s1 c1 : Option Nat, c ≠ .KernelCompute s1 c1 := by
      intro c hm
      simp only [List.map_append, List.mem_append, AllocateOutputBlobsMemoryEffects_calls]
        at hm
      rcases hm with ((hm | hm) | hm) | hm
      · simp only [ResetPriorEffects, List.map_cons, List.map_nil, List.mem_singleton] at hm
        subst hm
        exact ⟨rfl, fun _ _ h => by cases h⟩
      · refine ⟨hallocU _ c hm, fun s1 c1 h => ?_⟩
        subst h
        exact KernelCompute_not_mem_AllocateOutputBlobsMemoryCalls _ _ _ _ hm
      · simp only [InferTempStorageBlobDescEffects, List.map_cons, List.map_nil,
          List.mem_cons, List.mem_singleton, List.not_mem_nil, or_false] at hm
        rcases hm with h | h | h | h | h <;> subst h <;>
          exact ⟨rfl, fun _ _ h => by cases h⟩
      · rcases htail with h2 | h2 <;> subst h2 <;>
          simp only [ResetTempStorageBlobEffects, TryAllocateTempStorageBlobMemoryEffects,
            List.map_append, List.map_cons, List.map_nil, List.mem_append, List.mem_cons,
            List.mem_singleton, List.not_mem_nil, or_false] at hm
        · subst hm
          exact ⟨rfl, fun _ _ h => by cases h⟩
        · rcases hm with h | h <;> subst h <;> exact ⟨rfl, fun _ _ h => by cases h⟩
    rcases htail with h2 | h2
    · subst h2
      refine ⟨_, TryAllocateTempStorageBlobMemoryEffects operand
            instr_msg.phy_instr_stream.device_ctx.addr
          ++ KernelEffects operand instr_msg.phy_instr_stream.device_ctx.addr state cache
          ++ DeallocateTempStorageBlobMemoryEffects operand,
        temp_size, state, cache, by rw [hc]; rfl, ?_, hts, hst, hca,
        Or.inl ⟨fun s1 c1 hm => (hknown _ hm).2 s1 c1 rfl, ?_, fun c hm => (hknown c hm).1⟩⟩
      · simp only [ComputeEffects, PrologueEffects, htemp, if_true, List.append_assoc]
      · intro w_end hok
        rw [hc] at hok
        cases hok
    · subst h2
      refine ⟨_, KernelEffects operand instr_msg.phy_instr_stream.device_ctx.addr state cache
          ++ DeallocateTempStorageBlobMemoryEffects operand,
        temp_size, state, cache, by rw [hc]; rfl, ?_, hts, hst, hca,
        Or.inl ⟨fun s1 c1 hm => (hknown _ hm).2 s1 c1 rfl, ?_, fun c hm => (hknown c hm).1⟩⟩
      · simp only [ComputeEffects, PrologueEffects, htemp, if_true, List.append_assoc]
      · intro w_end hok
        rw [hc] at hok
        cases hok
  · have e1 : temp_size1 = temp_size := hts1.trans hts.symm
    subst e1
    have e2 : state1 = state := hst1.trans hst.symm
    subst e2
    have e3 : cache1 = cache := hca1.trans hca.symm
    subst e3
    exact ⟨_, [], temp_size1, state1, cache1, by rw [hc]; rfl, by simp, hts, hst, hca,
      Or.inr ⟨rfl, hc⟩⟩

/-- Every call of `ComputeEffects` that takes a device context receives `device_ctx`. -/
theorem device_ctx_of_mem_ComputeEffects {μ : Type}
    (operand : LocalCallOpKernelPhyInstrOperand μ) (device_ctx temp_size : Nat)
    (state cache : Option Nat) (c : Call)
    (hc : c ∈ (ComputeEffects operand device_ctx temp_size state cache).map Effect.call)
    (d : Nat) (hd : c.device_ctx = some d) : d = device_ctx := by
  rw [ComputeEffects_calls] at hc
  simp only [List.mem_append, List.mem_singleton] at hc
  rcases hc with ((((h | h) | h) | h) | h) | h
  · subst h
    simp [Call.device_ctx] at hd
  · obtain ⟨b, _, h1 | h1⟩ := mem_AllocateOutputBlobsMemoryCalls _ _ _ h
    · subst h1
      simp [Call.device_ctx] at hd
    · subst h1
      simp only [Call.device_ctx, Option.some.injEq] at hd
      exact hd.symm
  · split at h
    · simp only [InferTempStorageBlobDescCalls, List.mem_append, List.mem_cons,
        List.mem_singleton, List.not_mem_nil, or_false] at h
      rcases h with (h | h | h | h | h) | h | h <;> subst h <;>
        first
        | (simp [Call.device_ctx] at hd; done)
        | (simp only [Call.device_ctx, Option.some.injEq] at hd; exact hd.symm)
    · cases h
  · unfold TryInitOpKernelStateAndCacheCalls at h
    split at h
    · rw [List.mem_singleton] at h
      subst h
      simp only [Call.device_ctx, Option.some.injEq] at hd
      exact hd.symm
    · cases h
  · simp only [OpKernelComputeCalls, List.mem_cons, List.mem_singleton, List.not_mem_nil,
      or_false] at h
    rcases h with h | h | h <;> subst h
    · simp only [Call.device_ctx, Option.some.injEq] at hd
      exact hd.symm
    · simp [Call.device_ctx] at hd
    · simp [Call.device_ctx] at hd
  · split at h
    · rw [List.mem_singleton] at h
      subst h
      simp [Call.device_ctx] at hd
    · cases h

/-- C8: a Compute that returns Ok for an operand with need_temp_storage makes, after ResetPrior
and the allocation of the outputs, exactly the calls `calls`: size inference (with
InferTmpSizeFn), InitBlob of the temp blob, allocation of its memory, the optional state and
cache initialisation, the kernel between the two updates of its compute context, and the
deallocation of the temp memory.  Each of the five steps occurs once in `calls`, so the
allocation precedes the kernel and the deallocation follows it.  The calls are executed, not
only logged: the world on return is the world after each of them was applied to the machine
in this order, the shape written to the temp blob is the size that InferTmpSizeFn returned,
and InitBlob, TryAllocateBlobBodyMemory and DeallocateBlobDataPtr of the temp blob each
returned Ok in the machine in which it was called. -/
theorem Compute_temp_storage_lazily_in_order {μ : Type} (instr_msg : InstructionMsg μ)
    (operand : LocalCallOpKernelPhyInstrOperand μ) (w w_end : World μ)
    (hop : GetLocalCallOpKernelPhyInstrOperand instr_msg = some operand)
    (htemp : operand.need_temp_storage = true)
    (hok : Compute instr_msg w = .returned .Ok w_end) :
    ∃ (temp_size : Nat) (state cache : Option Nat) (calls : List Call),
      w_end.trace = w.trace ++ [.ResetPrior operand.attrs]
          ++ AllocateOutputBlobsMemoryCalls instr_msg.phy_instr_stream.device_ctx.addr
              operand.outputs.objects
          ++ calls
      ∧ calls =
          [ .InferContextUpdate (some operand.inputs.addr) (some operand.outputs.addr)
              operand.consistent_tensor_infer_result,
            .InferTmpSizeFn,
            .set_shape operand.opkernel.temp_blob_object.addr (toInt64 temp_size),
            .set_is_dynamic operand.opkernel.temp_blob_object.addr true,
            .InferContextUpdate none none none,
            .InitBlob operand.opkernel.temp_blob_object.addr,
            .TryAllocateBlobBodyMemory operand.opkernel.temp_blob_object.addr
              instr_msg.phy_instr_stream.device_ctx.addr ]
          ++ TryInitOpKernelStateAndCacheCalls operand
              instr_msg.phy_instr_stream.device_ctx.addr
          ++ [ .UpdateComputeContext (some operand.inputs.addr) (some operand.outputs.addr)
                 operand.consistent_tensor_infer_result
                 (some instr_msg.phy_instr_stream.device_ctx.addr),
               .KernelCompute state cache,
               .UpdateComputeContext none none none none,
               .DeallocateBlobDataPtr operand.opkernel.temp_blob_object.addr ]
      ∧ calls.count .InferTmpSizeFn = 1
      ∧ calls.count (.InitBlob operand.opkernel.temp_blob_object.addr) = 1
      ∧ calls.count (.TryAllocateBlobBodyMemory operand.opkernel.temp_blob_object.addr
          instr_msg.phy_instr_stream.device_ctx.addr) = 1
      ∧ calls.count (.KernelCompute state cache) = 1
      ∧ calls.count (.DeallocateBlobDataPtr operand.opkernel.temp_blob_object.addr) = 1
      ∧ temp_size = inferredTempSize operand
          (w.after (ResetPriorEffects operand
            ++ AllocateOutputBlobsMemoryEffects
                instr_msg.phy_instr_stream.device_ctx.addr
                operand.outputs.objects)).machine
      ∧ w_end = w.after (ResetPriorEffects operand
          ++ AllocateOutputBlobsMemoryEffects instr_msg.phy_instr_stream.device_ctx.addr
              operand.outputs.objects
          ++ InferTempStorageBlobDescEffects operand temp_size
          ++ ResetTempStorageBlobEffects operand
          ++ TryAllocateTempStorageBlobMemoryEffects operand
              instr_msg.phy_instr_stream.device_ctx.addr
          ++ TryInitOpKernelStateAndCacheEffects operand
              instr_msg.phy_instr_stream.device_ctx.addr
          ++ OpKernelComputeEffects operand instr_msg.phy_instr_stream.device_ctx.addr
              state cache
          ++ DeallocateTempStorageBlobMemoryEffects operand)
      ∧ (operand.opkernel.temp_blob_object.InitBlob
          (w.after (ResetPriorEffects operand
            ++ AllocateOutputBlobsMemoryEffects
                instr_msg.phy_instr_stream.device_ctx.addr operand.outputs.objects
            ++ InferTempStorageBlobDescEffects operand temp_size)).machine).1 = .Ok
      ∧ (operand.opkernel.temp_blob_object.TryAllocateBlobBodyMemory
          instr_msg.phy_instr_stream.device_ctx.addr
          (w.after (ResetPriorEffects operand
            ++ AllocateOutputBlobsMemoryEffects
                instr_msg.phy_instr_stream.device_ctx.addr operand.outputs.objects
            ++ InferTempStorageBlobDescEffects operand temp_size
            ++ ResetTempStorageBlobEffects operand)).machine).1 = .Ok
      ∧ (operand.opkernel.temp_blob_object.DeallocateBlobDataPtr
          (w.after (ResetPriorEffects operand
            ++ AllocateOutputBlobsMemoryEffects
                instr_msg.phy_instr_stream.device_ctx.addr operand.outputs.objects
            ++ InferTempStorageBlobDescEffects operand temp_size
            ++ ResetTempStorageBlobEffects operand
            ++ TryAllocateTempStorageBlobMemoryEffects operand
                instr_msg.phy_instr_stream.device_ctx.addr
            ++ TryInitOpKernelStateAndCacheEffects operand
                instr_msg.phy_instr_stream.device_ctx.addr
            ++ OpKernelComputeEffects operand instr_msg.phy_instr_stream.device_ctx.addr
                state cache)).machine).1 = .Ok := by
  obtain ⟨temp_size, state, cache, hts, _, _, hw, _, hres⟩ :=
    Compute_ok_world instr_msg operand w w_end hop hok
  obtain ⟨hinit, halloc, hdealloc⟩ := hres htemp
  have htrace := congrArg World.trace hw
  rw [after_trace, ComputeEffects_calls] at htrace
  simp only [htemp, if_true] at htrace
  simp only [ComputeEffects, PrologueEffects, KernelEffects, htemp, if_true] at hw hdealloc
  refine ⟨temp_size, state, cache, _, ?_, rfl, ?_, ?_, ?_, ?_, ?_, hts, ?_, hinit, halloc,
    ?_⟩
  · rw [htrace]
    simp [InferTempStorageBlobDescCalls, OpKernelComputeCalls]
  · cases hs : operand.user_opkernel.has_state_or_cache <;>
      simp [TryInitOpKernelStateAndCacheCalls, hs, List.count_cons]
  · cases hs : operand.user_opkernel.has_state_or_cache <;>
      simp [TryInitOpKernelStateAndCacheCalls, hs, List.count_cons]
  · cases hs : operand.user_opkernel.has_state_or_cache <;>
      simp [TryInitOpKernelStateAndCacheCalls, hs, List.count_cons]
  · cases hs : operand.user_opkernel.has_state_or_cache <;>
      simp [TryInitOpKernelStateAndCacheCalls, hs, List.count_cons]
  · cases hs : operand.user_opkernel.has_state_or_cache <;>
      simp [TryInitOpKernelStateAndCacheCalls, hs, List.count_cons]
  · rw [hw]
    simp only [List.append_assoc]
  · simpa only [List.append_assoc] using hdealloc

/-- C8 on the machine that records what its collaborators receive: two outputs, temp blob
300, device context 900.  The memory on return shows that each call reached its collaborator
in the order of the claim, the allocations with device context 900 and the shape with the
inferred size 64. -/
theorem Compute_temp_storage_lazily_in_order_witness :
    (∃ (temp_size : Nat) (state cache : Option Nat) (calls : List Call),
      (Compute (Recorded.instr_msg (Recorded.good_operand true false none))
          Recorded.world).state.trace
        = [ .ResetPrior 10,
            .TryInitBlob 201, .TryAllocateBlobBodyMemory 201 900,
            .TryInitBlob 202, .TryAllocateBlobBodyMemory 202 900 ] ++ calls
      ∧ calls =
          [ .InferContextUpdate (some 100) (some 200) none,
            .InferTmpSizeFn,
            .set_shape 300 (toInt64 temp_size),
            .set_is_dynamic 300 true,
            .InferContextUpdate none none none,
            .InitBlob 300,
            .TryAllocateBlobBodyMemory 300 900,
            .UpdateComputeContext (some 100) (some 200) none (some 900),
            .KernelCompute state cache,
            .UpdateComputeContext none none none none,
            .DeallocateBlobDataPtr 300 ]
      ∧ temp_size = 64)
    ∧ (Compute (Recorded.instr_msg (Recorded.good_operand true false none))
        Recorded.world).state.machine.mem
      = [ .ResetPrior 10,
          .TryInitBlob 201, .TryAllocateBlobBodyMemory 201 900,
          .TryInitBlob 202, .TryAllocateBlobBodyMemory 202 900,
          .InferContextUpdate (some 100) (some 200) none,
          .InferTmpSizeFn,
          .set_shape 300 64,
          .set_is_dynamic 300 true,
          .InferContextUpdate none none none,
          .InitBlob 300,
          .TryAllocateBlobBodyMemory 300 900,
          .UpdateComputeContext (some 100) (some 200) none (some 900),
          .KernelCompute none none,
          .UpdateComputeContext none none none none,
          .DeallocateBlobDataPtr 300 ] := by
  obtain ⟨temp_size, state, cache, calls, h1, h2, _, _, _, _, _, h8, _⟩ :=
    Compute_temp_storage_lazily_in_order
      (Recorded.instr_msg (Recorded.good_operand true false none))
      (Recorded.good_operand true false none) Recorded.world
      (Compute (Recorded.instr_msg (Recorded.good_operand true false none))
        Recorded.world).state
      rfl rfl rfl
  exact ⟨⟨temp_size, state, cache, calls, h1, h2, h8.trans rfl⟩, by decide⟩

/-- C9: failures are propagated.  (1) If, after the outputs `pre` were allocated, TryInitBlob
or TryAllocateBlobBodyMemory of the next output `b` fails with `e`, Compute returns `e`; its
last call is the failed one, so the outputs `post` are not processed and the kernel is not
invoked: the world on return is the world after ResetPrior, the calls of `pre` and the calls
of `b` up to the failed one.  (2) With need_temp_storage, if InitBlob or TryAllocateBlobBodyMemory of the temp
blob fails with `e`, Compute returns `e` with the failed call last and the kernel not
invoked.  (3) Compute returns Ok only if TryInitBlob and TryAllocateBlobBodyMemory of every
output returned Ok and, with need_temp_storage, InitBlob, TryAllocateBlobBodyMemory and
DeallocateBlobDataPtr of the temp blob returned Ok, each in the machine in which Compute
called it.  (4) LocalCallOpKernelInstructionType::Compute and ComputeInFuseMode abort on
every error that Compute returns.  (5) With need_temp_storage, once the output allocation
and the temp storage prologue have returned Ok, Compute runs the kernel and returns what
DeallocateBlobDataPtr of the temp blob returns in the machine that the kernel and the reset
of its compute context left: a failed deallocation is the result of Compute. -/
theorem Compute_propagates_failures {μ : Type} (instr_msg : InstructionMsg μ)
    (operand : LocalCallOpKernelPhyInstrOperand μ) (w : World μ)
    (hop : GetLocalCallOpKernelPhyInstrOperand instr_msg = some operand) :
    (∀ (pre post : List (EagerBlobObject μ)) (b : EagerBlobObject μ) (w1 : World μ)
        (e : ErrorProto),
        operand.outputs.objects = pre ++ b :: post →
        AllocateOutputBlobsMemoryLoop instr_msg.phy_instr_stream.device_ctx.addr pre
            (priorReset operand w) = (.Ok, w1) →
        ((b.TryInitBlob w1.machine).1 = .Error e
          ∨ ((b.TryInitBlob w1.machine).1 = .Ok
              ∧ (b.TryAllocateBlobBodyMemory instr_msg.phy_instr_stream.device_ctx.addr
                  (b.TryInitBlob w1.machine).2).1 = .Error e)) →
        ∃ w_end : World μ,
          Compute instr_msg w = .returned (.Error e) w_end
          ∧ (w_end.trace = w.trace ++ [.ResetPrior operand.attrs]
                ++ AllocateOutputBlobsMemoryCalls
                    instr_msg.phy_instr_stream.device_ctx.addr pre
                ++ [.TryInitBlob b.addr]
              ∨ w_end.trace = w.trace ++ [.ResetPrior operand.attrs]
                ++ AllocateOutputBlobsMemoryCalls
                    instr_msg.phy_instr_stream.device_ctx.addr pre
                ++ [ .TryInitBlob b.addr,
                     .TryAllocateBlobBodyMemory b.addr
                       instr_msg.phy_instr_stream.device_ctx.addr ])
          ∧ (∀ state cache : Option Nat,
              Call.KernelCompute state cache ∉ w_end.trace.drop w.trace.length)
          ∧ (w_end = w.after (ResetPriorEffects operand
                ++ AllocateOutputBlobsMemoryEffects
                    instr_msg.phy_instr_stream.device_ctx.addr pre
                ++ [ { call := .TryInitBlob b.addr,
                       action := fun m => (b.TryInitBlob m).2 } ])
              ∨ w_end = w.after (ResetPriorEffects operand
                ++ AllocateOutputBlobsMemoryEffects
                    instr_msg.phy_instr_stream.device_ctx.addr pre
                ++ [ { call := .TryInitBlob b.addr,
                       action := fun m => (b.TryInitBlob m).2 },
                     { call := .TryAllocateBlobBodyMemory b.addr
                         instr_msg.phy_instr_stream.device_ctx.addr,
                       action := fun m =>
                         (b.TryAllocateBlobBodyMemory
                           instr_msg.phy_instr_stream.device_ctx.addr m).2 } ])))
    ∧ (∀ (w1 w2 : World μ) (e : ErrorProto),
        operand.need_temp_storage = true →
        AllocateOutputBlobsMemory operand instr_msg.phy_instr_stream.device_ctx.addr
            (priorReset operand w) = (.Ok, w1) →
        InferTempStorageBlobDesc operand w1 = .returned () w2 →
        ((operand.opkernel.temp_blob_object.InitBlob w2.machine).1 = .Error e
          ∨ ((operand.opkernel.temp_blob_object.InitBlob w2.machine).1 = .Ok
              ∧ (operand.opkernel.temp_blob_object.TryAllocateBlobBodyMemory
                  instr_msg.phy_instr_stream.device_ctx.addr
                  (operand.opkernel.temp_blob_object.InitBlob w2.machine).2).1 = .Error e)) →
        ∃ (w_end : World μ) (temp_size : Nat),
          Compute instr_msg w = .returned (.Error e) w_end
          ∧ (w_end.trace = w.trace ++ [.ResetPrior operand.attrs]
                ++ AllocateOutputBlobsMemoryCalls
                    instr_msg.phy_instr_stream.device_ctx.addr operand.outputs.objects
                ++ InferTempStorageBlobDescCalls operand temp_size
                ++ [.InitBlob operand.opkernel.temp_blob_object.addr]
              ∨ w_end.trace = w.trace ++ [.ResetPrior operand.attrs]
                ++ AllocateOutputBlobsMemoryCalls
                    instr_msg.phy_instr_stream.device_ctx.addr operand.outputs.objects
                ++ InferTempStorageBlobDescCalls operand temp_size
                ++ [ .InitBlob operand.opkernel.temp_blob_object.addr,
                     .TryAllocateBlobBodyMemory operand.opkernel.temp_blob_object.addr
                       instr_msg.phy_instr_stream.device_ctx.addr ])
          ∧ (∀ state cache : Option Nat,
              Call.KernelCompute state cache ∉ w_end.trace.drop w.trace.length)
          ∧ temp_size = inferredTempSize operand
              (w.after (ResetPriorEffects operand
                ++ AllocateOutputBlobsMemoryEffects
                    instr_msg.phy_instr_stream.device_ctx.addr
                    operand.outputs.objects)).machine
          ∧ (w_end = w.after (ResetPriorEffects operand
                ++ AllocateOutputBlobsMemoryEffects
                    instr_msg.phy_instr_stream.device_ctx.addr operand.outputs.objects
                ++ InferTempStorageBlobDescEffects operand temp_size
                ++ ResetTempStorageBlobEffects operand)
              ∨ w_end = w.after (ResetPriorEffects operand
                ++ AllocateOutputBlobsMemoryEffects
                    instr_msg.phy_instr_stream.device_ctx.addr operand.outputs.objects
                ++ InferTempStorageBlobDescEffects operand temp_size
                ++ ResetTempStorageBlobEffects operand
                ++ TryAllocateTempStorageBlobMemoryEffects operand
                    instr_msg.phy_instr_stream.device_ctx.addr)))
    ∧ (∀ w_end : World μ, Compute instr_msg w = .returned .Ok w_end →
        (∀ (pre post : List (EagerBlobObject μ)) (b : EagerBlobObject μ),
            operand.outputs.objects = pre ++ b :: post →
            (b.TryInitBlob
                (w.after (ResetPriorEffects operand
                  ++ AllocateOutputBlobsMemoryEffects
                      instr_msg.phy_instr_stream.device_ctx.addr pre)).machine).1 = .Ok
            ∧ (b.TryAllocateBlobBodyMemory instr_msg.phy_instr_stream.device_ctx.addr
                (b.TryInitBlob
                  (w.after (ResetPriorEffects operand
                    ++ AllocateOutputBlobsMemoryEffects
                        instr_msg.phy_instr_stream.device_ctx.addr pre)).machine).2).1
              = .Ok)
        ∧ (operand.need_temp_storage = true →
            ∃ (temp_size : Nat) (state cache : Option Nat),
              temp_size = inferredTempSize operand
                (w.after (ResetPriorEffects operand
                  ++ AllocateOutputBlobsMemoryEffects
                      instr_msg.phy_instr_stream.device_ctx.addr
                      operand.outputs.objects)).machine
              ∧ (operand.opkernel.temp_blob_object.InitBlob
                  (w.after (ResetPriorEffects operand
                    ++ AllocateOutputBlobsMemoryEffects
                        instr_msg.phy_instr_stream.device_ctx.addr operand.outputs.objects
                    ++ InferTempStorageBlobDescEffects operand temp_size)).machine).1 = .Ok
              ∧ (operand.opkernel.temp_blob_object.TryAllocateBlobBodyMemory
                  instr_msg.phy_instr_stream.device_ctx.addr
                  (w.after (ResetPriorEffects operand
                    ++ AllocateOutputBlobsMemoryEffects
                        instr_msg.phy_instr_stream.device_ctx.addr operand.outputs.objects
                    ++ InferTempStorageBlobDescEffects operand temp_size
                    ++ ResetTempStorageBlobEffects operand)).machine).1 = .Ok
              ∧ (operand.opkernel.temp_blob_object.DeallocateBlobDataPtr
                  (w.after (PrologueEffects operand
                      instr_msg.phy_instr_stream.device_ctx.addr temp_size
                    ++ KernelEffects operand instr_msg.phy_instr_stream.device_ctx.addr
                        state cache)).machine).1 = .Ok
              ∧ w_end = w.after (PrologueEffects operand
                    instr_msg.phy_instr_stream.device_ctx.addr temp_size
                  ++ KernelEffects operand instr_msg.phy_instr_stream.device_ctx.addr
                      state cache
                  ++ DeallocateTempStorageBlobMemoryEffects operand)))
    ∧ (∀ (e : ErrorProto) (w_end : World μ),
        Compute instr_msg w = .returned (.Error e) w_end →
        LocalCallOpKernelInstructionType.ComputeInFuseMode instr_msg w = .aborted w_end
        ∧ ∀ instruction : Instruction μ, instruction.instr_msg = instr_msg →
            LocalCallOpKernelInstructionType.Compute instruction w = .aborted w_end)
    ∧ (∀ w1 w2 : World μ,
        operand.need_temp_storage = true →
        AllocateOutputBlobsMemory operand instr_msg.phy_instr_stream.device_ctx.addr
            (priorReset operand w) = (.Ok, w1) →
        TempStoragePrologue operand instr_msg.phy_instr_stream.device_ctx.addr w1
            = .returned .Ok w2 →
        ∃ state cache : Option Nat,
          Compute instr_msg w
            = .returned
                (operand.opkernel.temp_blob_object.DeallocateBlobDataPtr
                  (w2.after (KernelEffects operand
                    instr_msg.phy_instr_stream.device_ctx.addr state cache)).machine).1
                (w2.after (KernelEffects operand
                    instr_msg.phy_instr_stream.device_ctx.addr state cache
                  ++ DeallocateTempStorageBlobMemoryEffects operand))
          ∧ ∀ e : ErrorProto,
              (operand.opkernel.temp_blob_object.DeallocateBlobDataPtr
                (w2.after (KernelEffects operand
                  instr_msg.phy_instr_stream.device_ctx.addr state cache)).machine).1
                = .Error e →
              Compute instr_msg w
                = .returned (.Error e)
                    (w2.after (KernelEffects operand
                        instr_msg.phy_instr_stream.device_ctx.addr state cache
                      ++ DeallocateTempStorageBlobMemoryEffects operand))) := by
  refine ⟨?_, ?_, ?_, ?_, ?_⟩
  · intro pre post b w1 e houts hpre hfail
    obtain ⟨htr1, _⟩ := AllocateOutputBlobsMemoryLoop_ok _ _ _ _ hpre
    have hw1 : w1 = w.after (ResetPriorEffects operand
        ++ AllocateOutputBlobsMemoryEffects
            instr_msg.phy_instr_stream.device_ctx.addr pre) := by
      rw [after_append]
      exact AllocateOutputBlobsMemoryLoop_ok_world _ _ _ _ hpre
    have happ := AllocateOutputBlobsMemoryLoop_append
      instr_msg.phy_instr_stream.device_ctx.addr pre (b :: post) _ _ hpre
    rcases hfail with hinit | ⟨hinit, halloc⟩
    · refine ⟨(w1.call (.TryInitBlob b.addr) b.TryInitBlob).2, ?_, Or.inl ?_, ?_,
        Or.inl (by rw [after_append, ← hw1]; rfl)⟩
      · apply Compute_of_output_error instr_msg operand w _ e hop
        rw [AllocateOutputBlobsMemory, houts, happ]
        exact AllocateOutputBlobsMemoryLoop_init_error _ b post w1 e hinit
      · rw [call_trace, htr1, priorReset, exec_trace]
      · intro state cache
        rw [call_trace, htr1, priorReset, exec_trace]
        simp [KernelCompute_not_mem_AllocateOutputBlobsMemoryCalls]
    · refine ⟨((w1.call (.TryInitBlob b.addr) b.TryInitBlob).2.call
          (.TryAllocateBlobBodyMemory b.addr instr_msg.phy_instr_stream.device_ctx.addr)
          (b.TryAllocateBlobBodyMemory instr_msg.phy_instr_stream.device_ctx.addr)).2,
        ?_, Or.inr ?_, ?_, Or.inr (by rw [after_append, ← hw1]; rfl)⟩
      · apply Compute_of_output_error instr_msg operand w _ e hop
        rw [AllocateOutputBlobsMemory, houts, happ]
        exact AllocateOutputBlobsMemoryLoop_alloc_error _ b post w1 e hinit halloc
      · rw [call_trace, call_trace, htr1, priorReset, exec_trace]
        simp
      · intro state cache
        rw [call_trace, call_trace, htr1, priorReset, exec_trace]
        simp [KernelCompute_not_mem_AllocateOutputBlobsMemoryCalls]
  · intro w1 w2 e htemp houts hinfer hfail
    obtain ⟨htr1, _⟩ := AllocateOutputBlobsMemoryLoop_ok _ _ _ _ houts
    have hw1 : w1 = w.after (ResetPriorEffects operand
        ++ AllocateOutputBlobsMemoryEffects
            instr_msg.phy_instr_stream.device_ctx.addr operand.outputs.objects) := by
      rw [after_append]
      exact AllocateOutputBlobsMemoryLoop_ok_world _ _ _ _ houts
    have hw2 := InferTempStorageBlobDesc_returned_world operand w1 w2 hinfer
    obtain ⟨temp_size, hts⟩ : ∃ temp_size : Nat,
        temp_size = inferredTempSize operand w1.machine := ⟨_, rfl⟩
    rw [← hts] at hw2
    have htr2 : w2.trace = w1.trace ++ InferTempStorageBlobDescCalls operand temp_size := by
      rw [hw2, after_trace, InferTempStorageBlobDescEffects_calls]
    have hw2a : w2 = w.after (ResetPriorEffects operand
        ++ AllocateOutputBlobsMemoryEffects
            instr_msg.phy_instr_stream.device_ctx.addr operand.outputs.objects
        ++ InferTempStorageBlobDescEffects operand temp_size) := by
      rw [after_append, ← hw1]
      exact hw2
    rw [hw1] at hts
    rcases hfail with hinit | ⟨hinit, halloc⟩
    · refine ⟨(ResetTempStorageBlob operand w2).2, temp_size, ?_, Or.inl ?_, ?_, hts,
        Or.inl (by rw [after_append, ← hw2a]; rfl)⟩
      · apply Compute_of_prologue_error instr_msg operand w w1 _ e hop htemp houts
        unfold TempStoragePrologue
        simp only [hinfer]
        apply JUST_of_Error
        simp only [Outcome.ofPair, ResetTempStorageBlob, call_result, hinit]
      · rw [ResetTempStorageBlob, call_trace, htr2, htr1, priorReset, exec_trace]
      · intro state cache
        rw [ResetTempStorageBlob, call_trace, htr2, htr1, priorReset, exec_trace]
        simp [KernelCompute_not_mem_AllocateOutputBlobsMemoryCalls,
          InferTempStorageBlobDescCalls]
    · refine ⟨(TryAllocateTempStorageBlobMemory operand
          instr_msg.phy_instr_stream.device_ctx.addr (ResetTempStorageBlob operand w2).2).2,
        temp_size, ?_, Or.inr ?_, ?_, hts,
        Or.inr (by rw [after_append, after_append, ← hw2a]; rfl)⟩
      · apply Compute_of_prologue_error instr_msg operand w w1 _ e hop htemp houts
        unfold TempStoragePrologue
        simp only [hinfer]
        rw [JUST_of_Ok _ _ (ResetTempStorageBlob operand w2).2
          (by simp only [Outcome.ofPair, ResetTempStorageBlob, call_result, hinit])]
        simp only [Outcome.ofPair, Outcome.returned.injEq, and_true]
        exact halloc
      · rw [TryAllocateTempStorageBlobMemory, call_trace, ResetTempStorageBlob, call_trace,
          htr2, htr1, priorReset, exec_trace]
        simp
      · intro state cache
        rw [TryAllocateTempStorageBlobMemory, call_trace, ResetTempStorageBlob, call_trace,
          htr2, htr1, priorReset, exec_trace]
        simp [KernelCompute_not_mem_AllocateOutputBlobsMemoryCalls,
          InferTempStorageBlobDescCalls]
  · intro w_end hok
    obtain ⟨temp_size, state, cache, hts, _, _, hw, hloop, hres⟩ :=
      Compute_ok_world instr_msg operand w w_end hop hok
    refine ⟨fun pre post b hsplit => ?_, fun htemp => ?_⟩
    · have h := AllocateOutputBlobsMemoryLoop_ok_results
        instr_msg.phy_instr_stream.device_ctx.addr operand.outputs.objects
        (priorReset operand w) _ hloop pre post b hsplit
      have hw0 : priorReset operand w = w.after (ResetPriorEffects operand) := rfl
      rw [hw0, ← after_append] at h
      exact h
    · obtain ⟨hinit, halloc, hdealloc⟩ := hres htemp
      refine ⟨temp_size, state, cache, hts, hinit, halloc, hdealloc, ?_⟩
      rw [hw]
      simp only [ComputeEffects, htemp, if_true]
  · intro e w_end herr
    refine ⟨?_, ?_⟩
    · simp [LocalCallOpKernelInstructionType.ComputeInFuseMode, herr, CHECK_JUST]
    · intro instruction hmsg
      simp [LocalCallOpKernelInstructionType.Compute, hmsg, herr, CHECK_JUST]
  · intro w1 w2 htemp hloop hprologue
    have hc := Compute_of_output_ok instr_msg operand w w1 hop hloop
    simp only [htemp, if_true] at hc
    rw [JUST_of_Ok _ _ w2 hprologue] at hc
    obtain ⟨state, cache, _, _, hk⟩ := ComputeKernelAndRelease_world operand
      instr_msg.phy_instr_stream.device_ctx.addr w2
    simp only [htemp, if_true] at hk
    refine ⟨state, cache, hc.trans hk, fun e he => ?_⟩
    rw [hc, hk, he]

/-- C9 on concrete machines.  The second of three outputs cannot be allocated: Compute
returns that error after five calls, and the instruction type aborts.  A temp blob that
cannot be initialised: Compute returns that error and the kernel is not invoked.  On the
machine that records what its collaborators receive, a temp blob whose memory cannot be
released: the kernel has run, Compute returns the error of DeallocateBlobDataPtr, and the
instruction type aborts.  And a Compute that returns Ok has executed every call. -/
theorem Compute_propagates_failures_witness :
    (∃ w_end : World Nat,
      Compute (Example.instr_msg Example.failing_output_operand) Example.world
        = .returned (.Error "out of memory") w_end
      ∧ w_end.trace =
          [ .ResetPrior 10, .TryInitBlob 201, .TryAllocateBlobBodyMemory 201 900,
            .TryInitBlob 202, .TryAllocateBlobBodyMemory 202 900 ]
      ∧ LocalCallOpKernelInstructionType.Compute
          (Example.instruction Example.failing_output_operand) Example.world
        = .aborted w_end)
    ∧ (∃ w_end : World Nat,
      Compute (Example.instr_msg Example.failing_temp_operand) Example.world
        = .returned (.Error "invalid temp blob") w_end
      ∧ ∀ state cache : Option Nat, Call.KernelCompute state cache ∉ w_end.trace)
    ∧ (∃ w_end : World (List Call),
      Compute (Recorded.instr_msg Recorded.failing_release_operand) Recorded.world
        = .returned (.Error "cannot release") w_end
      ∧ w_end.machine.mem =
          [ .ResetPrior 10, .TryInitBlob 201, .TryAllocateBlobBodyMemory 201 900,
            .InferContextUpdate (some 100) (some 200) none,
            .InferTmpSizeFn,
            .set_shape 300 64,
            .set_is_dynamic 300 true,
            .InferContextUpdate none none none,
            .InitBlob 300,
            .TryAllocateBlobBodyMemory 300 900,
            .UpdateComputeContext (some 100) (some 200) none (some 900),
            .KernelCompute none none,
            .UpdateComputeContext none none none none,
            .DeallocateBlobDataPtr 300 ]
      ∧ LocalCallOpKernelInstructionType.ComputeInFuseMode
          (Recorded.instr_msg Recorded.failing_release_operand) Recorded.world
        = .aborted w_end)
    ∧ (∃ (temp_size : Nat) (state cache : Option Nat),
      (Compute (Recorded.instr_msg (Recorded.good_operand true false none))
          Recorded.world).state
        = Recorded.world.after
            (PrologueEffects (Recorded.good_operand true false none) 900 temp_size
              ++ KernelEffects (Recorded.good_operand true false none) 900 state cache
              ++ DeallocateTempStorageBlobMemoryEffects
                  (Recorded.good_operand true false none))) := by
  refine ⟨?_, ?_, ?_, ?_⟩
  · obtain ⟨w_end, h1, _, _, _⟩ :=
      (Compute_propagates_failures (Example.instr_msg Example.failing_output_operand)
        Example.failing_output_operand Example.world rfl).1
        [Example.blob 201 .Ok .Ok .Ok] [Example.blob 203 .Ok .Ok .Ok]
        (Example.blob 202 .Ok (.Error "out of memory") .Ok)
        (AllocateOutputBlobsMemoryLoop 900 [Example.blob 201 .Ok .Ok .Ok]
          (priorReset Example.failing_output_operand Example.world)).2
        "out of memory" rfl rfl (Or.inr ⟨rfl, rfl⟩)
    have habort :=
      ((Compute_propagates_failures (Example.instr_msg Example.failing_output_operand)
        Example.failing_output_operand Example.world rfl).2.2.2.1 _ w_end h1).2
        (Example.instruction Example.failing_output_operand) rfl
    have hw : w_end
        = (Compute (Example.instr_msg Example.failing_output_operand) Example.world).state := by
      rw [h1]
      rfl
    refine ⟨w_end, h1, ?_, habort⟩
    rw [hw]
    decide
  · obtain ⟨w_end, _, h1, _, h3, _, _⟩ :=
      (Compute_propagates_failures (Example.instr_msg Example.failing_temp_operand)
        Example.failing_temp_operand Example.world rfl).2.1
        (AllocateOutputBlobsMemory Example.failing_temp_operand 900
          (priorReset Example.failing_temp_operand Example.world)).2
        (InferTempStorageBlobDesc Example.failing_temp_operand
          (AllocateOutputBlobsMemory Example.failing_temp_operand 900
            (priorReset Example.failing_temp_operand Example.world)).2).state
        "invalid temp blob" rfl rfl rfl (Or.inl rfl)
    exact ⟨w_end, h1, fun state cache => by simpa [Example.world] using h3 state cache⟩
  · obtain ⟨state, cache, _, herr⟩ :=
      (Compute_propagates_failures (Recorded.instr_msg Recorded.failing_release_operand)
        Recorded.failing_release_operand Recorded.world rfl).2.2.2.2
        (AllocateOutputBlobsMemory Recorded.failing_release_operand 900
          (priorReset Recorded.failing_release_operand Recorded.world)).2
        (TempStoragePrologue Recorded.failing_release_operand 900
          (AllocateOutputBlobsMemory Recorded.failing_release_operand 900
            (priorReset Recorded.failing_release_operand Recorded.world)).2).state
        rfl rfl rfl
    have h1 := herr "cannot release" rfl
    have habort :=
      ((Compute_propagates_failures (Recorded.instr_msg Recorded.failing_release_operand)
        Recorded.failing_release_operand Recorded.world rfl).2.2.2.1 _ _ h1).1
    have hw : (Compute (Recorded.instr_msg Recorded.failing_release_operand)
        Recorded.world).state.machine.mem
        = [ .ResetPrior 10, .TryInitBlob 201, .TryAllocateBlobBodyMemory 201 900,
            .InferContextUpdate (some 100) (some 200) none,
            .InferTmpSizeFn,
            .set_shape 300 64,
            .set_is_dynamic 300 true,
            .InferContextUpdate none none none,
            .InitBlob 300,
            .TryAllocateBlobBodyMemory 300 900,
            .UpdateComputeContext (some 100) (some 200) none (some 900),
            .KernelCompute none none,
            .UpdateComputeContext none none none none,
            .DeallocateBlobDataPtr 300 ] := by decide
    rw [h1] at hw
    exact ⟨_, h1, hw, habort⟩
  · obtain ⟨temp_size, state, cache, _, _, _, _, h5⟩ :=
      ((Compute_propagates_failures
        (Recorded.instr_msg (Recorded.good_operand true false none))
        (Recorded.good_operand true false none) Recorded.world rfl).2.2.1
        (Compute (Recorded.instr_msg (Recorded.good_operand true false none))
          Recorded.world).state rfl).2 rfl
    exact ⟨temp_size, state, cache, h5⟩

/-- C21: within one call of Compute on an operand, every call that takes a device context
receives the device context of the stream of the instruction,
`instr_msg.phy_instr_stream.device_ctx`.  Whatever the outcome, the world in which Compute
ends is the world after `effects`, an initial part of ComputeEffects for that device
context: the output blobs and the temp blob are allocated with it, the state and the cache
are initialised with it, and the compute context that the kernel reads is updated with it.
No call among them carries another device context, and the kernel runs directly after the
update of its compute context with that device context.  When Compute returns Ok, all of
ComputeEffects was executed, so each step named in the claim was made with it. -/
theorem Compute_device_ctx_of_own_stream {μ : Type} (instr_msg : InstructionMsg μ)
    (operand : LocalCallOpKernelPhyInstrOperand μ) (w : World μ)
    (hop : GetLocalCallOpKernelPhyInstrOperand instr_msg = some operand) :
    ∃ (effects later : List (Effect μ)) (temp_size : Nat) (state cache : Option Nat),
      (Compute instr_msg w).state = w.after effects
      ∧ effects ++ later
        = ComputeEffects operand instr_msg.phy_instr_stream.device_ctx.addr temp_size
            state cache
      ∧ (∀ c ∈ effects.map Effect.call, ∀ d : Nat,
          c.device_ctx = some d → d = instr_msg.phy_instr_stream.device_ctx.addr)
      ∧ (∀ state1 cache1 : Option Nat,
          Call.KernelCompute state1 cache1 ∈ effects.map Effect.call →
          ∃ pre post : List (Effect μ),
            effects = pre
              ++ [ { call := .UpdateComputeContext (some operand.inputs.addr)
                       (some operand.outputs.addr) operand.consistent_tensor_infer_result
                       (some instr_msg.phy_instr_stream.device_ctx.addr),
                     action := operand.opkernel.UpdateComputeContext
                       (some operand.inputs.addr) (some operand.outputs.addr)
                       operand.consistent_tensor_infer_result
                       (some instr_msg.phy_instr_stream.device_ctx.addr) },
                   { call := .KernelCompute state1 cache1,
                     action := operand.user_opkernel.Compute state1 cache1 } ]
              ++ post)
      ∧ (∀ w_end : World μ, Compute instr_msg w = .returned .Ok w_end →
          later = []
          ∧ (∀ b ∈ operand.outputs.objects,
            Call.TryAllocateBlobBodyMemory b.addr instr_msg.phy_instr_stream.device_ctx.addr
              ∈ effects.map Effect.call)
          ∧ (operand.need_temp_storage = true →
              Call.TryAllocateBlobBodyMemory operand.opkernel.temp_blob_object.addr
                instr_msg.phy_instr_stream.device_ctx.addr ∈ effects.map Effect.call)
          ∧ (operand.user_opkernel.has_state_or_cache = true →
              Call.TryInitOpKernelStateAndCache instr_msg.phy_instr_stream.device_ctx.addr
                (some operand.inputs.addr) (some operand.outputs.addr)
                operand.consistent_tensor_infer_result operand.op_interp_ctx_state.isNone true
                ∈ effects.map Effect.call)
          ∧ Call.KernelCompute state cache ∈ effects.map Effect.call) := by
  obtain ⟨effects, later, temp_size, state, cache, hw, hpart, _, _, _, hcases⟩ :=
    Compute_world_initial_part instr_msg operand w hop
  have hsub : ∀ c ∈ effects.map Effect.call,
      c ∈ (ComputeEffects operand instr_msg.phy_instr_stream.device_ctx.addr temp_size
        state cache).map Effect.call := by
    intro c hc
    rw [← hpart, List.map_append]
    exact List.mem_append_left _ hc
  refine ⟨effects, later, temp_size, state, cache, hw, hpart, ?_, ?_, ?_⟩
  · intro c hc d hd
    exact device_ctx_of_mem_ComputeEffects operand _ temp_size state cache c (hsub c hc) d hd
  · intro state1 cache1 hk
    rcases hcases with ⟨hno, _, _⟩ | ⟨hlater, _⟩
    · exact absurd hk (hno state1 cache1)
    · subst hlater
      rw [List.append_nil] at hpart
      obtain ⟨h1, h2⟩ := KernelCompute_mem_ComputeEffects operand _ temp_size state cache
        state1 cache1 (hsub _ hk)
      subst h1
      subst h2
      refine ⟨PrologueEffects operand instr_msg.phy_instr_stream.device_ctx.addr temp_size
          ++ TryInitOpKernelStateAndCacheEffects operand
              instr_msg.phy_instr_stream.device_ctx.addr,
        [ { call := .UpdateComputeContext none none none none,
            action := operand.opkernel.UpdateComputeContext none none none none } ]
          ++ (if operand.need_temp_storage then
                DeallocateTempStorageBlobMemoryEffects operand
              else []), ?_⟩
      rw [hpart, ComputeEffects_split]
      simp [OpKernelComputeEffects]
  · intro w_end hok
    rcases hcases with ⟨_, hnot, _⟩ | ⟨hlater, _⟩
    · exact absurd hok (hnot w_end)
    · subst hlater
      rw [List.append_nil] at hpart
      rw [hpart, ComputeEffects_calls]
      refine ⟨rfl, ?_, ?_, ?_, ?_⟩
      · intro b hb
        have := TryAllocateBlobBodyMemory_mem_AllocateOutputBlobsMemoryCalls
          instr_msg.phy_instr_stream.device_ctx.addr operand.outputs.objects b hb
        simp [this]
      · intro htemp
        simp [htemp]
      · intro hs
        simp [TryInitOpKernelStateAndCacheCalls, hs]
      · simp [OpKernelComputeCalls]

/-- C21 on the machine that records what its collaborators receive, for an operand with temp
storage and a user kernel with state: every collaborator that takes a device context
received 900, the device context of the stream, among them the allocations of the outputs 201
and 202 and of the temp blob 300, the state and cache initialisation, and the update of the
compute context right before the kernel. -/
theorem Compute_device_ctx_of_own_stream_witness :
    (Compute (Recorded.instr_msg (Recorded.good_operand true true none))
        Recorded.world).state.machine.mem
      = [ .ResetPrior 10,
          .TryInitBlob 201, .TryAllocateBlobBodyMemory 201 900,
          .TryInitBlob 202, .TryAllocateBlobBodyMemory 202 900,
          .InferContextUpdate (some 100) (some 200) none,
          .InferTmpSizeFn,
          .set_shape 300 64,
          .set_is_dynamic 300 true,
          .InferContextUpdate none none none,
          .InitBlob 300,
          .TryAllocateBlobBodyMemory 300 900,
          .TryInitOpKernelStateAndCache 900 none none none true true,
          .UpdateComputeContext (some 100) (some 200) none (some 900),
          .KernelCompute (some 70) (some 71),
          .UpdateComputeContext none none none none,
          .DeallocateBlobDataPtr 300 ]
    ∧ ∃ (effects : List (Effect (List Call))) (temp_size : Nat) (state cache : Option Nat),
      (Compute (Recorded.instr_msg (Recorded.good_operand true true none))
          Recorded.world).state = Recorded.world.after effects
      ∧ effects = ComputeEffects (Recorded.good_operand true true none) 900 temp_size
          state cache
      ∧ (∀ c ∈ effects.map Effect.call, ∀ d : Nat, c.device_ctx = some d → d = 900)
      ∧ Call.TryAllocateBlobBodyMemory 300 900 ∈ effects.map Effect.call
      ∧ Call.TryInitOpKernelStateAndCache 900 (some 100) (some 200) none true true
          ∈ effects.map Effect.call := by
  obtain ⟨effects, later, temp_size, state, cache, h1, h2, h3, _, h5⟩ :=
    Compute_device_ctx_of_own_stream
      (Recorded.instr_msg (Recorded.good_operand true true none))
      (Recorded.good_operand true true none) Recorded.world rfl
  obtain ⟨h6, _, h7, h8, _⟩ := h5
    (Compute (Recorded.instr_msg (Recorded.good_operand true true none))
      Recorded.world).state rfl
  subst h6
  rw [List.append_nil] at h2
  exact ⟨by decide, effects, temp_size, state, cache, h1, h2, h3, h7 rfl, h8 rfl⟩

end LocalCallOpKernelUtil

/-! ## `CudaCopyD2HStreamType`: launch and completion -/

namespace CudaCopyD2HStreamType

/-- C3: CudaCopyD2HStreamType::Compute first selects the device of the stream: the
instruction type's Compute is invoked in the world in which cudaSetDevice with the stream's
device id has been applied to the CUDA runtime (so that, for a valid device id, it is the
current device) and logged.  When that Compute returns in `w1` and the launch-error check
finds no error, CudaCopyD2HStreamType::Compute returns in `w_end`, which differs from `w1`
exactly by the two calls that follow, in this order: cudaGetLastError, which clears the last
error, and SetLaunched with the stream's own device context, which records the cuda event of
the status buffer and marks the buffer launched.  Memory is as the instruction type left it.
The completion query is still false on return: the recorded event is pending, Compute did
not wait for it. -/
theorem Compute_launches_in_order {μ : Type} (instruction_type : InstructionType μ)
    (instruction : Instruction μ) (w w1 : World μ)
    (hret : instruction_type.Compute instruction
        { machine :=
            { cuda := cudaSetDevice instruction.stream.device_id w.machine.cuda,
              mem := w.machine.mem },
          status_buffer := w.status_buffer,
          trace := w.trace ++ [.cudaSetDevice instruction.stream.device_id] }
      = .returned () w1)
    (herr : w1.machine.cuda.last_error = cudaSuccess) :
    ∃ w_end : World μ,
      Compute instruction_type instruction w = .returned () w_end
      ∧ (0 ≤ instruction.stream.device_id
          ∧ instruction.stream.device_id < w.machine.cuda.device_count →
          (cudaSetDevice instruction.stream.device_id w.machine.cuda).current_device
            = instruction.stream.device_id)
      ∧ w_end.trace
          = w1.trace ++ [.cudaGetLastError, .SetLaunched instruction.stream.device_ctx.addr]
      ∧ w_end.machine.mem = w1.machine.mem
      ∧ w_end.machine.cuda
          = cudaEventRecord w1.status_buffer.cuda_event (cudaGetLastError w1.machine.cuda).2
      ∧ w_end.status_buffer = { w1.status_buffer with launched := true }
      ∧ w_end.status_buffer.launched = true
      ∧ w_end.machine.cuda.event w_end.status_buffer.cuda_event = CudaEventState.pending
      ∧ QueryInstructionStatusDone instruction.stream w_end.status_buffer w_end.machine.cuda
          = false := by
  have hsel : deviceSelected instruction.stream w
      = { machine :=
            { cuda := cudaSetDevice instruction.stream.device_id w.machine.cuda,
              mem := w.machine.mem },
          status_buffer := w.status_buffer,
          trace := w.trace ++ [.cudaSetDevice instruction.stream.device_id] } := rfl
  refine ⟨CudaOptionalEventRecordStatusQuerier.SetLaunched instruction.stream.device_ctx.addr
    (w1.cudaExec .cudaGetLastError (fun rt => (cudaGetLastError rt).2)),
    ?_, ?_, ?_, ?_, ?_, ?_, ?_, ?_, ?_⟩
  · simp only [Compute, hsel, hret, cudaGetLastError, herr, OF_CUDA_CHECK, if_true]
  · intro hvalid
    simp [cudaSetDevice, hvalid]
  · simp [CudaOptionalEventRecordStatusQuerier.SetLaunched, World.cudaExec, World.exec]
  · simp [CudaOptionalEventRecordStatusQuerier.SetLaunched, World.cudaExec, World.exec]
  · simp [CudaOptionalEventRecordStatusQuerier.SetLaunched, World.cudaExec, World.exec]
  · simp [CudaOptionalEventRecordStatusQuerier.SetLaunched, World.cudaExec, World.exec]
  · simp [CudaOptionalEventRecordStatusQuerier.SetLaunched]
  · simp [CudaOptionalEventRecordStatusQuerier.SetLaunched, World.cudaExec, World.exec,
      cudaEventRecord]
  · simp [QueryInstructionStatusDone, CudaOptionalEventRecordStatusQuerier.done,
      CudaOptionalEventRecordStatusQuerier.SetLaunched, World.cudaExec, World.exec,
      cudaEventQuery, cudaEventRecord]

/-- C3 on the machine that records what its collaborators receive: a kernel launch on
device 1 of two, with two outputs.  On return device 1 is the current device (it was 0), the
kernel has run, event 5 of the status buffer is pending and the buffer is launched; the
whole call sequence is shown. -/
theorem Compute_launches_in_order_witness :
    ∃ w_end : World (List Call),
      Compute (LocalCallOpKernelInstructionType.instruction_type (List Call))
          (Recorded.instruction (Recorded.good_operand false false none)) Recorded.world
        = .returned () w_end
      ∧ Recorded.world.machine.cuda.current_device = 0
      ∧ w_end.machine.cuda.current_device = 1
      ∧ w_end.trace =
          [ .cudaSetDevice 1, .ResetPrior 10,
            .TryInitBlob 201, .TryAllocateBlobBodyMemory 201 900,
            .TryInitBlob 202, .TryAllocateBlobBodyMemory 202 900,
            .UpdateComputeContext (some 100) (some 200) none (some 900),
            .KernelCompute none none,
            .UpdateComputeContext none none none none,
            .cudaGetLastError, .SetLaunched 900 ]
      ∧ w_end.machine.mem =
          [ .ResetPrior 10,
            .TryInitBlob 201, .TryAllocateBlobBodyMemory 201 900,
            .TryInitBlob 202, .TryAllocateBlobBodyMemory 202 900,
            .UpdateComputeContext (some 100) (some 200) none (some 900),
            .KernelCompute none none,
            .UpdateComputeContext none none none none ]
      ∧ w_end.machine.cuda.event 5 = CudaEventState.pending
      ∧ w_end.status_buffer = { launched := true, cuda_event := 5 } := by
  obtain ⟨w_end, h1, _, h3, h4, h5, h6, _, _, _⟩ :=
    Compute_launches_in_order (LocalCallOpKernelInstructionType.instruction_type (List Call))
      (Recorded.instruction (Recorded.good_operand false false none)) Recorded.world
      (LocalCallOpKernelInstructionType.Compute
        (Recorded.instruction (Recorded.good_operand false false none))
        { machine :=
            { cuda := cudaSetDevice 1 Recorded.world.machine.cuda,
              mem := Recorded.world.machine.mem },
          status_buffer := Recorded.world.status_buffer,
          trace := Recorded.world.trace ++ [.cudaSetDevice 1] }).state
      rfl rfl
  refine ⟨w_end, h1, rfl, ?_, ?_, ?_, ?_, ?_⟩
  · rw [h5]
    rfl
  · rw [h3]
    decide
  · rw [h4]
    decide
  · rw [h5]
    rfl
  · rw [h6]
    rfl

/-- C6: when the instruction type's Compute returns and the launch-error check that follows
it reports an error, CudaCopyD2HStreamType::Compute aborts.  The process ends right after
cudaGetLastError: SetLaunched is not called, the status buffer is as the instruction type
left it, and the instruction type's Compute is not invoked again (memory and events are as it
left them). -/
theorem Compute_launch_error_is_fatal {μ : Type} (instruction_type : InstructionType μ)
    (instruction : Instruction μ) (w : World μ)
    (hret : (instruction_type.Compute instruction
        (deviceSelected instruction.stream w)).isReturned = true)
    (herr : (instruction_type.Compute instruction
        (deviceSelected instruction.stream w)).state.machine.cuda.last_error ≠ cudaSuccess) :
    ∃ w_end : World μ,
      Compute instruction_type instruction w = .aborted w_end
      ∧ w_end.trace
          = (instruction_type.Compute instruction
              (deviceSelected instruction.stream w)).state.trace ++ [.cudaGetLastError]
      ∧ w_end.status_buffer
          = (instruction_type.Compute instruction
              (deviceSelected instruction.stream w)).state.status_buffer
      ∧ w_end.machine.mem
          = (instruction_type.Compute instruction
              (deviceSelected instruction.stream w)).state.machine.mem
      ∧ w_end.machine.cuda.event
          = (instruction_type.Compute instruction
              (deviceSelected instruction.stream w)).state.machine.cuda.event := by
  cases hc : instruction_type.Compute instruction (deviceSelected instruction.stream w) with
  | aborted w1 => simp [hc, Outcome.isReturned] at hret
  | returned u w1 =>
    simp only [hc, Outcome.state] at herr
    refine ⟨w1.cudaExec .cudaGetLastError (fun rt => (cudaGetLastError rt).2),
      ?_, ?_, ?_, ?_, ?_⟩
    · simp only [Compute, hc, cudaGetLastError, OF_CUDA_CHECK, if_neg herr]
    · simp [Outcome.state, World.cudaExec, World.exec]
    · simp [Outcome.state, World.cudaExec, World.exec]
    · simp [Outcome.state, World.cudaExec, World.exec]
    · simp [Outcome.state, World.cudaExec, World.exec, cudaGetLastError]

/-- C6 on the concrete machine: the kernel leaves CUDA error 7; Compute aborts with the
status buffer not launched, the kernel launched once, and no SetLaunched call. -/
theorem Compute_launch_error_is_fatal_witness :
    ∃ w_end : World Nat,
      Compute (LocalCallOpKernelInstructionType.instruction_type Nat)
          (Example.instruction (Example.good_operand false 7)) Example.world
        = .aborted w_end
      ∧ w_end.trace =
          [ .cudaSetDevice 1, .ResetPrior 10,
            .TryInitBlob 201, .TryAllocateBlobBodyMemory 201 900,
            .TryInitBlob 202, .TryAllocateBlobBodyMemory 202 900,
            .UpdateComputeContext (some 100) (some 200) none (some 900),
            .KernelCompute none none,
            .UpdateComputeContext none none none none,
            .cudaGetLastError ]
      ∧ w_end.status_buffer.launched = false
      ∧ w_end.machine.mem = 1 := by
  obtain ⟨w_end, h1, h2, h3, h4, _⟩ :=
    Compute_launch_error_is_fatal (LocalCallOpKernelInstructionType.instruction_type Nat)
      (Example.instruction (Example.good_operand false 7)) Example.world rfl (by decide)
  exact ⟨w_end, h1, h2, by rw [h3]; rfl, by rw [h4]; rfl⟩

/-- C4: for a status buffer initialised by InitInstructionStatus, the completion query is
false as long as Compute has not run, whatever the state of the event; once Compute has
returned, it is true exactly when the cuda event of the buffer has completed.  For every
status buffer the query is true exactly when the buffer is marked launched and its cuda
event has completed, and the stream argument does not influence it. -/
theorem QueryInstructionStatusDone_iff_launched_and_completed {μ : Type}
    (stream : Stream μ) (w w_init : World μ)
    (hinit : InitInstructionStatus stream w = .returned () w_init) :
    (∀ (any_stream : Stream μ) (rt : CudaRuntime),
        QueryInstructionStatusDone any_stream w_init.status_buffer rt = false)
    ∧ (∀ (instruction_type : InstructionType μ) (instruction : Instruction μ)
        (w_end : World μ) (any_stream : Stream μ) (rt : CudaRuntime),
        Compute instruction_type instruction w_init = .returned () w_end →
        (QueryInstructionStatusDone any_stream w_end.status_buffer rt = true
          ↔ cudaEventQuery w_end.status_buffer.cuda_event rt = true))
    ∧ (∀ (any_stream : Stream μ) (status_buffer : InstructionStatusBuffer)
        (rt : CudaRuntime),
        (QueryInstructionStatusDone any_stream status_buffer rt = true
          ↔ status_buffer.launched = true
            ∧ cudaEventQuery status_buffer.cuda_event rt = true)
        ∧ QueryInstructionStatusDone any_stream status_buffer rt
            = QueryInstructionStatusDone stream status_buffer rt) := by
  refine ⟨?_, ?_, ?_⟩
  · intro any_stream rt
    unfold InitInstructionStatus at hinit
    cases hp : stream.device_ctx.event_provider with
    | none => simp [hp] at hinit
    | some GetCudaEvent =>
      simp only [hp, Outcome.returned.injEq, true_and] at hinit
      subst hinit
      simp [QueryInstructionStatusDone, CudaOptionalEventRecordStatusQuerier.done,
        CudaOptionalEventRecordStatusQuerier.PlacementNew]
  · intro instruction_type instruction w_end any_stream rt hcomp
    have hl : w_end.status_buffer.launched = true := by
      unfold Compute at hcomp
      cases hc : instruction_type.Compute instruction
          (deviceSelected instruction.stream w_init) with
      | aborted w1 => simp [hc] at hcomp
      | returned u w1 =>
        simp only [hc, OF_CUDA_CHECK] at hcomp
        split at hcomp
        · cases hcomp
        · rename_i u3 w3 hchk
          split at hchk
          · simp only [Outcome.returned.injEq, true_and] at hchk hcomp
            subst hcomp
            simp [CudaOptionalEventRecordStatusQuerier.SetLaunched]
          · cases hchk
    simp [QueryInstructionStatusDone, CudaOptionalEventRecordStatusQuerier.done, hl]
  · intro any_stream status_buffer rt
    simp [QueryInstructionStatusDone, CudaOptionalEventRecordStatusQuerier.done]

/-- C4 on the concrete machine: the status buffer initialised on the example stream answers
false in the initial runtime. -/
theorem QueryInstructionStatusDone_iff_launched_and_completed_witness :
    ∃ w_init : World Nat,
      InitInstructionStatus Example.stream Example.world = .returned () w_init
      ∧ QueryInstructionStatusDone Example.stream w_init.status_buffer Example.rt = false :=
  ⟨_, rfl,
    (QueryInstructionStatusDone_iff_launched_and_completed Example.stream Example.world _
      rfl).1 Example.stream Example.rt⟩

end CudaCopyD2HStreamType

/-! ## Temp storage and completion -/

/-- C7, as stated, fails: on the concrete machine, under CudaCopyD2HStreamType::Compute, the
instruction type's Compute returns with the temp memory already deallocated (its last call)
while the completion query of the instruction is false; the status buffer is marked
launched only two calls later. -/
theorem temp_storage_released_before_done :
    ∃ w_kernel : World Nat,
      LocalCallOpKernelInstructionType.Compute
          (Example.instruction (Example.good_operand true 0))
          (CudaCopyD2HStreamType.deviceSelected Example.stream Example.world)
        = .returned () w_kernel
      ∧ w_kernel.trace.getLast? = some (.DeallocateBlobDataPtr 300)
      ∧ CudaCopyD2HStreamType.QueryInstructionStatusDone Example.stream
          w_kernel.status_buffer w_kernel.machine.cuda = false
      ∧ (CudaCopyD2HStreamType.Compute (LocalCallOpKernelInstructionType.instruction_type Nat)
          (Example.instruction (Example.good_operand true 0)) Example.world).state.trace
        = w_kernel.trace ++ [.cudaGetLastError, .SetLaunched 900] := by
  refine ⟨_, rfl, ?_, ?_, ?_⟩
  · decide
  · decide
  · decide

/-- C7, amended: a LocalCallOpKernelUtil::Compute that returns Ok for an operand with
need_temp_storage deallocates the temp memory itself, as its last call, right after the
kernel and the reset of its compute context: the world on return is the world after the
calls `before`, the kernel, the reset of the compute context and DeallocateBlobDataPtr of
the temp blob, which together are the calls of Compute, so the machine on return is the one that DeallocateBlobDataPtr left, and
DeallocateBlobDataPtr returned Ok.  Compute does not write the status buffer: when the
buffer is not yet marked launched on entry, as under CudaCopyD2HStreamType::Compute, the
completion query is false when the temp memory has been released. -/
theorem temp_storage_released_at_end_of_Compute {μ : Type} (instr_msg : InstructionMsg μ)
    (operand : LocalCallOpKernelPhyInstrOperand μ) (w w_end : World μ)
    (hop : LocalCallOpKernelUtil.GetLocalCallOpKernelPhyInstrOperand instr_msg = some operand)
    (htemp : operand.need_temp_storage = true)
    (hlaunched : w.status_buffer.launched = false)
    (hok : LocalCallOpKernelUtil.Compute instr_msg w = .returned .Ok w_end) :
    (∃ (temp_size : Nat) (state cache : Option Nat) (before : List (Effect μ)),
      w_end = w.after (before
        ++ [ { call := .KernelCompute state cache,
               action := operand.user_opkernel.Compute state cache },
             { call := .UpdateComputeContext none none none none,
               action := operand.opkernel.UpdateComputeContext none none none none },
             { call := .DeallocateBlobDataPtr operand.opkernel.temp_blob_object.addr,
               action := fun m =>
                 (operand.opkernel.temp_blob_object.DeallocateBlobDataPtr m).2 } ])
      ∧ before
        ++ [ { call := .KernelCompute state cache,
               action := operand.user_opkernel.Compute state cache },
             { call := .UpdateComputeContext none none none none,
               action := operand.opkernel.UpdateComputeContext none none none none },
             { call := .DeallocateBlobDataPtr operand.opkernel.temp_blob_object.addr,
               action := fun m =>
                 (operand.opkernel.temp_blob_object.DeallocateBlobDataPtr m).2 } ]
        = LocalCallOpKernelUtil.ComputeEffects operand
            instr_msg.phy_instr_stream.device_ctx.addr temp_size state cache
      ∧ w_end.trace = w.trace ++ before.map Effect.call
        ++ [ .KernelCompute state cache,
             .UpdateComputeContext none none none none,
             .DeallocateBlobDataPtr operand.opkernel.temp_blob_object.addr ]
      ∧ w_end.machine
        = (operand.opkernel.temp_blob_object.DeallocateBlobDataPtr
            (operand.opkernel.UpdateComputeContext none none none none
              (operand.user_opkernel.Compute state cache (w.after before).machine))).2
      ∧ (operand.opkernel.temp_blob_object.DeallocateBlobDataPtr
            (operand.opkernel.UpdateComputeContext none none none none
              (operand.user_opkernel.Compute state cache (w.after before).machine))).1
        = .Ok)
    ∧ w_end.status_buffer = w.status_buffer
    ∧ ∀ (stream : Stream μ) (rt : CudaRuntime),
        CudaCopyD2HStreamType.QueryInstructionStatusDone stream w_end.status_buffer rt
          = false := by
  obtain ⟨temp_size, state, cache, _, _, _, hw, _, hres⟩ :=
    LocalCallOpKernelUtil.Compute_ok_world instr_msg operand w w_end hop hok
  obtain ⟨_, _, hdealloc⟩ := hres htemp
  obtain ⟨before, hbefore⟩ : ∃ before : List (Effect μ),
      before = LocalCallOpKernelUtil.PrologueEffects operand
            instr_msg.phy_instr_stream.device_ctx.addr temp_size
          ++ LocalCallOpKernelUtil.TryInitOpKernelStateAndCacheEffects operand
              instr_msg.phy_instr_stream.device_ctx.addr
          ++ [ { call := .UpdateComputeContext (some operand.inputs.addr)
                   (some operand.outputs.addr) operand.consistent_tensor_infer_result
                   (some instr_msg.phy_instr_stream.device_ctx.addr),
                 action := operand.opkernel.UpdateComputeContext
                   (some operand.inputs.addr) (some operand.outputs.addr)
                   operand.consistent_tensor_infer_result
                   (some instr_msg.phy_instr_stream.device_ctx.addr) } ] := ⟨_, rfl⟩
  have hsplit : LocalCallOpKernelUtil.ComputeEffects operand
      instr_msg.phy_instr_stream.device_ctx.addr temp_size state cache
      = before
        ++ [ { call := .KernelCompute state cache,
               action := operand.user_opkernel.Compute state cache },
             { call := .UpdateComputeContext none none none none,
               action := operand.opkernel.UpdateComputeContext none none none none },
             { call := .DeallocateBlobDataPtr operand.opkernel.temp_blob_object.addr,
               action := fun m =>
                 (operand.opkernel.temp_blob_object.DeallocateBlobDataPtr m).2 } ] := by
    rw [hbefore]
    simp [LocalCallOpKernelUtil.ComputeEffects, LocalCallOpKernelUtil.KernelEffects,
      LocalCallOpKernelUtil.OpKernelComputeEffects,
      LocalCallOpKernelUtil.DeallocateTempStorageBlobMemoryEffects, htemp]
  have hstatus : w_end.status_buffer = w.status_buffer := by
    rw [hw, LocalCallOpKernelUtil.after_status_buffer]
  have hm : (w.after (LocalCallOpKernelUtil.PrologueEffects operand
        instr_msg.phy_instr_stream.device_ctx.addr temp_size
      ++ LocalCallOpKernelUtil.KernelEffects operand
          instr_msg.phy_instr_stream.device_ctx.addr state cache)).machine
      = operand.opkernel.UpdateComputeContext none none none none
          (operand.user_opkernel.Compute state cache (w.after before).machine) := by
    rw [hbefore]
    simp only [LocalCallOpKernelUtil.KernelEffects,
      LocalCallOpKernelUtil.OpKernelComputeEffects, LocalCallOpKernelUtil.after_append]
    rfl
  refine ⟨⟨temp_size, state, cache, before, ?_, hsplit.symm, ?_, ?_, ?_⟩, hstatus, ?_⟩
  · rw [hw, hsplit]
  · rw [hw, hsplit, LocalCallOpKernelUtil.after_trace]
    simp
  · rw [hw, hsplit, LocalCallOpKernelUtil.after_append]
    rfl
  · rw [← hm]
    exact hdealloc
  · intro stream rt
    simp [CudaCopyD2HStreamType.QueryInstructionStatusDone,
      CudaOptionalEventRecordStatusQuerier.done, hstatus, hlaunched]

/-- C7, amended, on the machine that records what its collaborators receive: the last entry
of the memory is the deallocation of temp blob 300, after the kernel and the reset of its
compute context, and the completion query is false. -/
theorem temp_storage_released_at_end_of_Compute_witness :
    (LocalCallOpKernelUtil.Compute
        (Recorded.instr_msg (Recorded.good_operand true false none))
        Recorded.world).state.machine.mem
      = [ .ResetPrior 10,
          .TryInitBlob 201, .TryAllocateBlobBodyMemory 201 900,
          .TryInitBlob 202, .TryAllocateBlobBodyMemory 202 900,
          .InferContextUpdate (some 100) (some 200) none,
          .InferTmpSizeFn,
          .set_shape 300 64,
          .set_is_dynamic 300 true,
          .InferContextUpdate none none none,
          .InitBlob 300,
          .TryAllocateBlobBodyMemory 300 900,
          .UpdateComputeContext (some 100) (some 200) none (some 900),
          .KernelCompute none none,
          .UpdateComputeContext none none none none,
          .DeallocateBlobDataPtr 300 ]
    ∧ (∃ (state cache : Option Nat) (before : List (Effect (List Call))),
      (LocalCallOpKernelUtil.Compute
          (Recorded.instr_msg (Recorded.good_operand true false none))
          Recorded.world).state.machine
        = ((Recorded.blob 300 .Ok .Ok .Ok).DeallocateBlobDataPtr
            ((Recorded.opkernel (Recorded.blob 300 .Ok .Ok .Ok)).UpdateComputeContext
              none none none none
              ((Recorded.user_opkernel false).Compute state cache
                (Recorded.world.after before).machine))).2)
    ∧ ∀ (stream : Stream (List Call)) (rt : CudaRuntime),
        CudaCopyD2HStreamType.QueryInstructionStatusDone stream
          (LocalCallOpKernelUtil.Compute
            (Recorded.instr_msg (Recorded.good_operand true false none))
            Recorded.world).state.status_buffer rt = false := by
  obtain ⟨⟨_, state, cache, before, _, _, _, h3, _⟩, _, h5⟩ :=
    temp_storage_released_at_end_of_Compute
      (Recorded.instr_msg (Recorded.good_operand true false none))
      (Recorded.good_operand true false none) Recorded.world
      (LocalCallOpKernelUtil.Compute
        (Recorded.instr_msg (Recorded.good_operand true false none)) Recorded.world).state
      rfl rfl rfl rfl
  exact ⟨by decide, ⟨state, cache, before, h3⟩, h5⟩

end vm


namespace SourceTickComputeActor

/-- C10: in every actor state, IsCustomizedReadAlwaysUnReadyFromNow is true exactly when
IsCustomizedReadReady is false, so exactly one of the two predicates holds. -/
theorem always_unready_iff_not_read_ready {σ : Type} (IsCustomizedReadReady : σ → Bool)
    (actor : σ) :
    (IsCustomizedReadAlwaysUnReadyFromNow IsCustomizedReadReady actor = true
        ↔ IsCustomizedReadReady actor = false)
    ∧ (IsCustomizedReadAlwaysUnReadyFromNow IsCustomizedReadReady actor
        ≠ IsCustomizedReadReady actor) := by
  unfold IsCustomizedReadAlwaysUnReadyFromNow
  cases IsCustomizedReadReady actor <;> simp

end SourceTickComputeActor

namespace vm

/-! ## `StreamRtDesc` -/

/-- C20: after StreamRtDesc::__Init__(stream_desc) the runtime descriptor holds the given
descriptor and its stream type is that of the descriptor, so the two fields agree; a runtime
descriptor initialised from a descriptor made by CudaCopyD2HStreamType::MakeStreamDesc
refers to the one static CudaCopyD2HStreamType instance. -/
theorem StreamRtDesc_Init_stream_type (self : StreamRtDesc) (stream_desc : StreamDesc) :
    (self.__Init__ stream_desc).stream_desc = some stream_desc
    ∧ (self.__Init__ stream_desc).stream_type = some stream_desc.stream_type
    ∧ ((self.__Init__ stream_desc).stream_desc.map (fun desc => desc.stream_type)
        = (self.__Init__ stream_desc).stream_type)
    ∧ ∀ (resource : Resource) (this_machine_id : Int),
        CudaCopyD2HStreamType.MakeStreamDesc resource this_machine_id = some stream_desc →
        (self.__Init__ stream_desc).stream_type
          = some StreamType.CudaCopyD2HStreamType := by
  refine ⟨rfl, rfl, rfl, ?_⟩
  intro resource this_machine_id hmake
  unfold CudaCopyD2HStreamType.MakeStreamDesc at hmake
  split at hmake
  · cases hmake
  · simp only [Option.some.injEq] at hmake
    subst hmake
    rfl

/-- C20 on the descriptor made for a resource with 2 devices. -/
theorem StreamRtDesc_Init_stream_type_witness :
    ({ stream_desc := none, stream_type := none } : StreamRtDesc).__Init__
        { stream_type := StreamType.CudaCopyD2HStreamType
          num_streams_per_machine := 2
          num_streams_per_thread := 2 }
      = { stream_desc := some { stream_type := StreamType.CudaCopyD2HStreamType
                                num_streams_per_machine := 2
                                num_streams_per_thread := 2 }
          stream_type := some StreamType.CudaCopyD2HStreamType }
    ∧ (({ stream_desc := none, stream_type := none } : StreamRtDesc).__Init__
        { stream_type := StreamType.CudaCopyD2HStreamType
          num_streams_per_machine := 2
          num_streams_per_thread := 2 }).stream_type
      = some StreamType.CudaCopyD2HStreamType :=
  ⟨rfl,
   (StreamRtDesc_Init_stream_type { stream_desc := none, stream_type := none }
      { stream_type := StreamType.CudaCopyD2HStreamType
        num_streams_per_machine := 2
        num_streams_per_thread := 2 }).2.2.2 { gpu_device_num_ := some 2 } 0 rfl⟩

/-! ## The scheduler: per-stream FIFO -/

namespace Scheduler

theorem promote_handle (eligible : Nat → Bool) (entry : Entry) :
    (promote eligible entry).handle = entry.handle
    ∧ (promote eligible entry).stream = entry.stream
    ∧ (promote eligible entry).reachedDispatched = entry.reachedDispatched := by
  unfold promote
  split
  · rename_i h
    simp [Entry.reachedDispatched, h.1]
  · exact ⟨rfl, rfl, rfl⟩

theorem poll_handle (completed : Nat → Bool) (entry : Entry) :
    (poll completed entry).handle = entry.handle
    ∧ (poll completed entry).stream = entry.stream
    ∧ (poll completed entry).reachedDispatched = entry.reachedDispatched := by
  unfold poll
  split
  · rename_i h
    simp [Entry.reachedDispatched, h.1]
  · exact ⟨rfl, rfl, rfl⟩

theorem retire_handle (released : Nat → Bool) (entry : Entry) :
    (retire released entry).handle = entry.handle
    ∧ (retire released entry).stream = entry.stream
    ∧ (retire released entry).reachedDispatched = entry.reachedDispatched := by
  unfold retire
  split
  · rename_i h
    simp [Entry.reachedDispatched, h.1]
  · exact ⟨rfl, rfl, rfl⟩

/-- A state change that keeps handle, stream and whether `Dispatched` was reached keeps the
instructions in order. -/
theorem InOrder_map (f : Entry → Entry)
    (hf : ∀ entry, (f entry).handle = entry.handle ∧ (f entry).stream = entry.stream
      ∧ (f entry).reachedDispatched = entry.reachedDispatched)
    (instructions : List Entry) (h : instructions.Pairwise InOrder) :
    (instructions.map f).Pairwise InOrder := by
  rw [List.pairwise_map]
  refine h.imp ?_
  intro a b hab
  unfold InOrder at hab ⊢
  rw [(hf a).1, (hf b).1, (hf a).2.1, (hf b).2.1, (hf a).2.2, (hf b).2.2]
  exact hab

/-- Each instruction after `dispatchNext` is one from before, or is the instruction of the
stream that has just been dispatched; its handle and stream are those of an instruction from
before. -/
theorem mem_dispatchNext (stream : Nat) (instructions : List Entry) (b : Entry)
    (hb : b ∈ dispatchNext stream instructions) :
    ∃ b0 ∈ instructions, b.handle = b0.handle ∧ b.stream = b0.stream
      ∧ (b = b0 ∨ (b.stream = stream ∧ b0.reachedDispatched = false)) := by
  induction instructions with
  | nil => simp [dispatchNext] at hb
  | cons entry rest ih =>
    unfold dispatchNext at hb
    split at hb
    · rename_i hfirst
      split at hb
      · rcases List.mem_cons.mp hb with rfl | hmem
        · exact ⟨entry, List.mem_cons_self _ _, rfl, rfl, Or.inr ⟨hfirst.1, hfirst.2⟩⟩
        · exact ⟨b, List.mem_cons_of_mem _ hmem, rfl, rfl, Or.inl rfl⟩
      · exact ⟨b, hb, rfl, rfl, Or.inl rfl⟩
    · rcases List.mem_cons.mp hb with rfl | hmem
      · exact ⟨b, List.mem_cons_self _ _, rfl, rfl, Or.inl rfl⟩
      · obtain ⟨b0, hb0, h1, h2, h3⟩ := ih hmem
        exact ⟨b0, List.mem_cons_of_mem _ hb0, h1, h2, h3⟩

/-- Dispatching the next instruction of a stream keeps the instructions in order. -/
theorem InOrder_dispatchNext (stream : Nat) (instructions : List Entry)
    (h : instructions.Pairwise InOrder) :
    (dispatchNext stream instructions).Pairwise InOrder := by
  induction instructions with
  | nil => simp [dispatchNext]
  | cons entry rest ih =>
    obtain ⟨hhead, htail⟩ := List.pairwise_cons.mp h
    unfold dispatchNext
    split
    · rename_i hfirst
      split
      · refine List.pairwise_cons.mpr ⟨?_, htail⟩
        intro b hb
        exact ⟨(hhead b hb).1, fun _ _ => rfl⟩
      · exact h
    · rename_i hskip
      refine List.pairwise_cons.mpr ⟨?_, ih htail⟩
      intro b hb
      obtain ⟨b0, hb0, h1, h2, h3⟩ := mem_dispatchNext stream rest b hb
      rcases h3 with rfl | ⟨hstream, _⟩
      · exact hhead b hb0
      · refine ⟨by rw [h1]; exact (hhead b0 hb0).1, fun hsame _ => ?_⟩
        by_contra hnot
        exact hskip ⟨hsame.trans hstream, by simpa using hnot⟩

/-- The dispatch pass over all streams keeps the instructions in order. -/
theorem InOrder_dispatch (streams : List Nat) (instructions : List Entry)
    (h : instructions.Pairwise InOrder) :
    (streams.foldl dispatchStream instructions).Pairwise InOrder := by
  induction streams generalizing instructions with
  | nil => exact h
  | cons stream rest ih =>
    rw [List.foldl_cons]
    apply ih
    unfold dispatchStream
    split
    · exact InOrder_dispatchNext stream instructions h
    · exact h

theorem Invariant_init (streams : List Nat) : Invariant (init streams) := by
  simp [Invariant, init]

theorem handles_map (f : Entry → Entry) (hf : ∀ entry, (f entry).handle = entry.handle)
    (instructions : List Entry) (n : Nat) (h : ∀ entry ∈ instructions, entry.handle < n) :
    ∀ entry ∈ instructions.map f, entry.handle < n := by
  intro entry hentry
  obtain ⟨e0, he0, rfl⟩ := List.mem_map.mp hentry
  rw [hf e0]
  exact h e0 he0

theorem handles_dispatch (streams : List Nat) (instructions : List Entry) (n : Nat)
    (h : ∀ entry ∈ instructions, entry.handle < n) :
    ∀ entry ∈ streams.foldl dispatchStream instructions, entry.handle < n := by
  induction streams generalizing instructions with
  | nil => exact h
  | cons stream rest ih =>
    rw [List.foldl_cons]
    apply ih
    intro entry hentry
    unfold dispatchStream at hentry
    split at hentry
    · obtain ⟨b0, hb0, h1, _, _⟩ := mem_dispatchNext stream instructions entry hentry
      rw [h1]
      exact h b0 hb0
    · exact h entry hentry

theorem Invariant_step (s : Scheduler) (event : Event) (h : Invariant s) :
    Invariant (step s event) := by
  obtain ⟨hord, hlt⟩ := h
  cases event with
  | enqueue stream =>
    show Invariant (Enqueue stream s).2
    unfold Enqueue
    by_cases hmem : stream ∈ s.streams
    · rw [if_pos hmem]
      refine ⟨?_, ?_⟩
      · refine List.pairwise_append.mpr ⟨hord, List.pairwise_singleton _ _, ?_⟩
        intro a ha b hb
        rw [List.mem_singleton] at hb
        subst hb
        exact ⟨hlt a ha, fun _ hreached => by simp [Entry.reachedDispatched] at hreached⟩
      · intro entry hentry
        rcases List.mem_append.mp hentry with hold | hnew
        · exact Nat.lt_succ_of_lt (hlt entry hold)
        · rw [List.mem_singleton] at hnew
          subst hnew
          exact Nat.lt_succ_self _
    · rw [if_neg hmem]
      exact ⟨hord, hlt⟩
  | tick eligible completed released =>
    show Invariant (Tick eligible completed released s)
    unfold Tick
    refine ⟨?_, ?_⟩
    · exact InOrder_map _ (retire_handle released) _
        (InOrder_map _ (poll_handle completed) _
          (InOrder_dispatch _ _ (InOrder_map _ (promote_handle eligible) _ hord)))
    · exact handles_map _ (fun e => (retire_handle released e).1) _ _
        (handles_map _ (fun e => (poll_handle completed e).1) _ _
          (handles_dispatch _ _ _
            (handles_map _ (fun e => (promote_handle eligible e).1) _ _ hlt)))

theorem Invariant_run (events : List Event) (s : Scheduler) (h : Invariant s) :
    Invariant (run events s) := by
  induction events generalizing s with
  | nil => exact h
  | cons event rest ih => exact ih (step s event) (Invariant_step s event h)

/-- C19: per-stream FIFO.  After every sequence of submissions and ticks from the initial
scheduler, the instructions are held in submission order (increasing handles), and for all
instructions A and B on the same stream with A submitted before B, B has reached Dispatched
only if A has: at every moment A reaches Dispatched no later than B. -/
theorem per_stream_fifo (streams : List Nat) (events : List Event) :
    (run events (init streams)).instructions.Pairwise
      (fun A B => A.handle < B.handle
        ∧ (A.stream = B.stream → B.reachedDispatched = true → A.reachedDispatched = true)) :=
  (Invariant_run events (init streams) (Invariant_init streams)).1

/-- A run in which the second instruction of stream 0 is ready before the first: it is held
back until the first has been dispatched, while stream 1 proceeds. -/
theorem fifo_example :
    (run [ .enqueue 0, .enqueue 0, .enqueue 1,
           .tick (fun handle => handle != 0) (fun _ => false) (fun _ => false) ]
        (init [0, 1])).instructions
      = [ { handle := 0, stream := 0, state := .Pending },
          { handle := 1, stream := 0, state := .Ready },
          { handle := 2, stream := 1, state := .Dispatched } ]
    ∧ (run [ .enqueue 0, .enqueue 0, .enqueue 1,
             .tick (fun handle => handle != 0) (fun _ => false) (fun _ => false),
             .tick (fun _ => true) (fun _ => false) (fun _ => false) ]
        (init [0, 1])).instructions
      = [ { handle := 0, stream := 0, state := .Dispatched },
          { handle := 1, stream := 0, state := .Ready },
          { handle := 2, stream := 1, state := .Dispatched } ] := by
  constructor <;> decide

end Scheduler

end vm

/-! ## Interpreter selection -/

namespace one

theorem CHECK_OR_RETURN_true (message : String) : CHECK_OR_RETURN true message = .ok () := rfl

theorem CHECK_OR_RETURN_false (message : String) :
    CHECK_OR_RETURN false message = .error (.check_failed message) := rfl

/-- The consistent loop passes when every remaining input is consistent. -/
theorem checkConsistentLoop_ok (op_expr : OpExpr) (id : Nat) (inputs : List Tensor)
    (h : ∀ t ∈ inputs, t.is_consistent = true) :
    checkConsistentLoop op_expr id inputs = .ok () := by
  induction inputs generalizing id with
  | nil => rfl
  | cons t rest ih =>
    have ht : t.is_consistent = true := h t (List.mem_cons_self _ _)
    rw [checkConsistentLoop, ht, CHECK_OR_RETURN_true]
    exact ih (id + 1) (fun u hu => h u (List.mem_cons_of_mem _ hu))

/-- The consistent loop fails, with the message on inconsistent attributes, when some
remaining input is not consistent. -/
theorem checkConsistentLoop_error (op_expr : OpExpr) (id : Nat) (inputs : List Tensor)
    (h : ∃ t ∈ inputs, t.is_consistent = false) :
    ∃ detail : String, checkConsistentLoop op_expr id inputs
      = .error (.check_failed ("Got tensors with inconsistent attributes!\n" ++ detail)) := by
  induction inputs generalizing id with
  | nil => simp at h
  | cons t rest ih =>
    cases ht : t.is_consistent with
    | false =>
      rw [checkConsistentLoop, ht, CHECK_OR_RETURN_false]
      exact ⟨_, by simp only [String.append_assoc]; rfl⟩
    | true =>
      rw [checkConsistentLoop, ht, CHECK_OR_RETURN_true]
      obtain ⟨u, hu, hfalse⟩ := h
      rcases List.mem_cons.mp hu with rfl | hmem
      · rw [ht] at hfalse
        cases hfalse
      · exact ih (id + 1) ⟨u, hmem, hfalse⟩

/-- The local loop passes when every remaining input is local. -/
theorem checkLocalLoop_ok (op_expr : OpExpr) (id : Nat) (inputs : List Tensor)
    (h : ∀ t ∈ inputs, t.is_local = true) :
    checkLocalLoop op_expr id inputs = .ok () := by
  induction inputs generalizing id with
  | nil => rfl
  | cons t rest ih =>
    have ht : t.is_local = true := h t (List.mem_cons_self _ _)
    rw [checkLocalLoop, ht, CHECK_OR_RETURN_true]
    exact ih (id + 1) (fun u hu => h u (List.mem_cons_of_mem _ hu))

/-- The local loop fails, with the message on inconsistent attributes, when some remaining
input is not local. -/
theorem checkLocalLoop_error (op_expr : OpExpr) (id : Nat) (inputs : List Tensor)
    (h : ∃ t ∈ inputs, t.is_local = false) :
    ∃ detail : String, checkLocalLoop op_expr id inputs
      = .error (.check_failed ("Got tensors with inconsistent attributes!\n" ++ detail)) := by
  induction inputs generalizing id with
  | nil => simp at h
  | cons t rest ih =>
    cases ht : t.is_local with
    | false =>
      rw [checkLocalLoop, ht, CHECK_OR_RETURN_false]
      exact ⟨_, by simp only [String.append_assoc]; rfl⟩
    | true =>
      rw [checkLocalLoop, ht, CHECK_OR_RETURN_true]
      obtain ⟨u, hu, hfalse⟩ := h
      rcases List.mem_cons.mp hu with rfl | hmem
      · rw [ht] at hfalse
        cases hfalse
      · exact ih (id + 1) ⟨u, hmem, hfalse⟩

/-- Eager mode, first input consistent, all others consistent: the consistent interpreter. -/
theorem GetInterpreter_all_consistent (input0 : Tensor) (others : List Tensor)
    (ctx : OpExprInterpContext) (op_expr : OpExpr) (h0 : input0.is_consistent = true)
    (h : ∀ t ∈ others, t.is_consistent = true) :
    GetInterpreter false (input0 :: others) ctx op_expr
      = .ok .g_eager_consistent_interpreter := by
  rcases others with _ | ⟨a, _ | ⟨b, _ | ⟨c, rest⟩⟩⟩
  · simp [GetInterpreter, h0]
  · have ha := h a (by simp)
    simp [GetInterpreter, h0, ha, CHECK_OR_RETURN]
  · have ha := h a (by simp)
    have hb := h b (by simp)
    simp [GetInterpreter, h0, ha, hb, CHECK_OR_RETURN]
  · simp [GetInterpreter, h0, checkConsistentLoop_ok op_expr 1 (a :: b :: c :: rest) h]

/-- Eager mode, first input consistent, some other input not: the check fails. -/
theorem GetInterpreter_consistent_then_other (input0 : Tensor) (others : List Tensor)
    (ctx : OpExprInterpContext) (op_expr : OpExpr) (h0 : input0.is_consistent = true)
    (h : ∃ t ∈ others, t.is_consistent = false) :
    ∃ detail : String, GetInterpreter false (input0 :: others) ctx op_expr
      = .error (.check_failed ("Got tensors with inconsistent attributes!\n" ++ detail)) := by
  rcases others with _ | ⟨a, _ | ⟨b, _ | ⟨c, rest⟩⟩⟩
  · simp at h
  · have ha : a.is_consistent = false := by simpa using h
    exact ⟨_, by simp [GetInterpreter, h0, ha, CHECK_OR_RETURN, String.append_assoc]; rfl⟩
  · cases ha : a.is_consistent with
    | false =>
      exact ⟨_, by simp [GetInterpreter, h0, ha, CHECK_OR_RETURN, String.append_assoc]; rfl⟩
    | true =>
      have hb : b.is_consistent = false := by simpa [ha] using h
      exact ⟨_, by simp [GetInterpreter, h0, ha, hb, CHECK_OR_RETURN, String.append_assoc]; rfl⟩
  · obtain ⟨detail, hd⟩ := checkConsistentLoop_error op_expr 1 (a :: b :: c :: rest) h
    exact ⟨detail, by simp [GetInterpreter, h0, hd]⟩


/-- Eager mode, first input not consistent, all others local: the mirrored interpreter. -/
theorem GetInterpreter_all_local (input0 : Tensor) (others : List Tensor)
    (ctx : OpExprInterpContext) (op_expr : OpExpr) (h0 : input0.is_consistent = false)
    (h : ∀ t ∈ others, t.is_local = true) :
    GetInterpreter false (input0 :: others) ctx op_expr
      = .ok .g_eager_mirrored_interpreter := by
  rcases others with _ | ⟨a, _ | ⟨b, _ | ⟨c, rest⟩⟩⟩
  · simp [GetInterpreter, h0]
  · have ha := h a (by simp)
    simp [GetInterpreter, h0, ha, CHECK_OR_RETURN]
  · have ha := h a (by simp)
    have hb := h b (by simp)
    simp [GetInterpreter, h0, ha, hb, CHECK_OR_RETURN]
  · simp [GetInterpreter, h0, checkLocalLoop_ok op_expr 1 (a :: b :: c :: rest) h]

/-- Eager mode, first input not consistent, some other input not local: the check fails. -/
theorem GetInterpreter_local_then_other (input0 : Tensor) (others : List Tensor)
    (ctx : OpExprInterpContext) (op_expr : OpExpr) (h0 : input0.is_consistent = false)
    (h : ∃ t ∈ others, t.is_local = false) :
    ∃ detail : String, GetInterpreter false (input0 :: others) ctx op_expr
      = .error (.check_failed ("Got tensors with inconsistent attributes!\n" ++ detail)) := by
  rcases others with _ | ⟨a, _ | ⟨b, _ | ⟨c, rest⟩⟩⟩
  · simp at h
  · have ha : a.is_local = false := by simpa using h
    exact ⟨_, by simp [GetInterpreter, h0, ha, CHECK_OR_RETURN, String.append_assoc]; rfl⟩
  · cases ha : a.is_local with
    | false =>
      exact ⟨_, by simp [GetInterpreter, h0, ha, CHECK_OR_RETURN, String.append_assoc]; rfl⟩
    | true =>
      have hb : b.is_local = false := by simpa [ha] using h
      exact ⟨_, by simp [GetInterpreter, h0, ha, hb, CHECK_OR_RETURN, String.append_assoc]; rfl⟩
  · obtain ⟨detail, hd⟩ := checkLocalLoop_error op_expr 1 (a :: b :: c :: rest) h
    exact ⟨detail, by simp [GetInterpreter, h0, hd]⟩

/-- C12: in eager mode, for a non-empty input tuple each of whose tensors is either consistent
or local, GetInterpreter succeeds exactly when every input is of the kind of the first one;
it returns the eager consistent interpreter when all inputs are consistent and the eager
mirrored interpreter when all are local; for every tuple that mixes the two kinds, of
whatever length, it fails with a message that starts with
"Got tensors with inconsistent attributes!". -/
theorem GetInterpreter_same_kind_as_first (input0 : Tensor) (others : List Tensor)
    (ctx : OpExprInterpContext) (op_expr : OpExpr)
    (hkind : ∀ t ∈ input0 :: others, t.is_local = !t.is_consistent) :
    ((∃ interpreter, GetInterpreter false (input0 :: others) ctx op_expr = .ok interpreter)
        ↔ ∀ t ∈ input0 :: others, t.is_consistent = input0.is_consistent)
    ∧ ((∀ t ∈ input0 :: others, t.is_consistent = true) →
        GetInterpreter false (input0 :: others) ctx op_expr
          = .ok .g_eager_consistent_interpreter)
    ∧ ((∀ t ∈ input0 :: others, t.is_local = true) →
        GetInterpreter false (input0 :: others) ctx op_expr
          = .ok .g_eager_mirrored_interpreter)
    ∧ ((∃ t ∈ input0 :: others, t.is_consistent = true)
        → (∃ t ∈ input0 :: others, t.is_local = true)
        → ∃ detail : String, GetInterpreter false (input0 :: others) ctx op_expr
            = .error (.check_failed
                ("Got tensors with inconsistent attributes!\n" ++ detail))) := by
  have hlocal : ∀ t ∈ others, (t.is_local = true ↔ t.is_consistent = false) := by
    intro t ht
    rw [hkind t (List.mem_cons_of_mem _ ht)]
    cases t.is_consistent <;> simp
  have hlocal0 : input0.is_local = !input0.is_consistent := hkind input0 (List.mem_cons_self _ _)
  have key : ∀ k : Bool, input0.is_consistent = k →
      ((∀ t ∈ others, t.is_consistent = k) →
        GetInterpreter false (input0 :: others) ctx op_expr
          = .ok (if k then .g_eager_consistent_interpreter
                 else .g_eager_mirrored_interpreter))
      ∧ ((∃ t ∈ others, t.is_consistent = !k) →
        ∃ detail : String, GetInterpreter false (input0 :: others) ctx op_expr
          = .error (.check_failed
              ("Got tensors with inconsistent attributes!\n" ++ detail))) := by
    intro k hk
    cases k with
    | true =>
      exact ⟨fun h => GetInterpreter_all_consistent input0 others ctx op_expr hk h,
        fun h => GetInterpreter_consistent_then_other input0 others ctx op_expr hk
          (by simpa using h)⟩
    | false =>
      refine ⟨fun h => GetInterpreter_all_local input0 others ctx op_expr hk
          (fun t ht => (hlocal t ht).mpr (h t ht)), ?_⟩
      rintro ⟨t, ht, htc⟩
      refine GetInterpreter_local_then_other input0 others ctx op_expr hk ⟨t, ht, ?_⟩
      rw [hkind t (List.mem_cons_of_mem _ ht)]
      simpa using htc
  obtain ⟨hsame, hmixed⟩ := key input0.is_consistent rfl
  have hdec : (∀ t ∈ others, t.is_consistent = input0.is_consistent)
      ∨ (∃ t ∈ others, t.is_consistent = !input0.is_consistent) := by
    by_cases hall : ∀ t ∈ others, t.is_consistent = input0.is_consistent
    · exact Or.inl hall
    · right
      push_neg at hall
      obtain ⟨t, ht, hne⟩ := hall
      exact ⟨t, ht, by cases h1 : t.is_consistent <;> cases h2 : input0.is_consistent <;>
        simp_all⟩
  refine ⟨⟨?_, ?_⟩, ?_, ?_, ?_⟩
  · rintro ⟨interpreter, hok⟩ t ht
    rcases List.mem_cons.mp ht with rfl | hmem
    · rfl
    · rcases hdec with hall | hex
      · exact hall t hmem
      · obtain ⟨detail, herr⟩ := hmixed hex
        rw [herr] at hok
        cases hok
  · intro hall
    exact ⟨_, hsame (fun t ht => hall t (List.mem_cons_of_mem _ ht))⟩
  · intro hall
    have h0 : input0.is_consistent = true := hall input0 (List.mem_cons_self _ _)
    have := hsame (fun t ht => by rw [h0]; exact hall t (List.mem_cons_of_mem _ ht))
    simpa [h0] using this
  · intro hall
    have h0 : input0.is_consistent = false := by
      have := hall input0 (List.mem_cons_self _ _)
      rw [hlocal0] at this
      simpa using this
    have := hsame (fun t ht => by
      rw [h0]
      exact (hlocal t ht).mp (hall t (List.mem_cons_of_mem _ ht)))
    simpa [h0] using this
  · rintro ⟨tc, htc, hc⟩ ⟨tl, htl, hl⟩
    apply hmixed
    have hlc : tl.is_consistent = false := by
      have h1 := hkind tl htl
      rw [hl] at h1
      cases h2 : tl.is_consistent with
      | false => rfl
      | true =>
        rw [h2] at h1
        cases h1
    cases h0 : input0.is_consistent with
    | true =>
      rcases List.mem_cons.mp htl with rfl | hmem
      · rw [h0] at hlc
        cases hlc
      · exact ⟨tl, hmem, by simpa using hlc⟩
    | false =>
      rcases List.mem_cons.mp htc with rfl | hmem
      · rw [h0] at hc
        cases hc
      · exact ⟨tc, hmem, by simpa using hc⟩

/-- C12 on three inputs: consistent, consistent, local. -/
theorem GetInterpreter_same_kind_as_first_witness :
    ∃ detail : String,
      GetInterpreter false
          [ { is_consistent := true, is_local := false },
            { is_consistent := true, is_local := false },
            { is_consistent := false, is_local := true } ]
          { device := none, parallel_desc := none, parallel_distribution := none }
          { op_type_name := "add_n" }
        = .error (.check_failed ("Got tensors with inconsistent attributes!\n" ++ detail)) :=
  (GetInterpreter_same_kind_as_first { is_consistent := true, is_local := false }
    [ { is_consistent := true, is_local := false },
      { is_consistent := false, is_local := true } ]
    { device := none, parallel_desc := none, parallel_distribution := none }
    { op_type_name := "add_n" } (by decide)).2.2.2
    ⟨_, List.mem_cons_self _ _, rfl⟩
    ⟨{ is_consistent := false, is_local := true }, by decide, rfl⟩

/-- C13: in eager mode with an empty input tuple, GetInterpreter returns the eager consistent
interpreter exactly when parallel_desc and parallel_distribution are present and device is
absent, returns the eager mirrored interpreter exactly when parallel_desc and
parallel_distribution are both absent, and fails in every other case; in lazy mode it
returns the lazy interpreter for every input tuple and context. -/
theorem GetInterpreter_empty_inputs_and_lazy (inputs : List Tensor)
    (ctx : OpExprInterpContext) (op_expr : OpExpr) :
    (GetInterpreter false [] ctx op_expr = .ok .g_eager_consistent_interpreter
        ↔ ctx.parallel_desc.isSome = true ∧ ctx.parallel_distribution.isSome = true
          ∧ ctx.device.isSome = false)
    ∧ (GetInterpreter false [] ctx op_expr = .ok .g_eager_mirrored_interpreter
        ↔ ctx.parallel_desc.isSome = false ∧ ctx.parallel_distribution.isSome = false)
    ∧ ((∃ e, GetInterpreter false [] ctx op_expr = .error e)
        ↔ (ctx.parallel_desc.isSome = true
            ∧ ¬ (ctx.parallel_distribution.isSome = true ∧ ctx.device.isSome = false))
          ∨ (ctx.parallel_desc.isSome = false ∧ ctx.parallel_distribution.isSome = true))
    ∧ GetInterpreter true inputs ctx op_expr = .ok .g_lazy_interpreter := by
  obtain ⟨device, parallel_desc, parallel_distribution⟩ := ctx
  refine ⟨?_, ?_, ?_, by simp [GetInterpreter]⟩ <;>
    cases device <;> cases parallel_desc <;> cases parallel_distribution <;>
    simp [GetInterpreter, Optional.value, CHECK_OR_RETURN]

end one

/-! ## Model IO jobs -/

end oneflow

/-! ## Operation traits of the OneFlow dialect -/

namespace mlir
namespace OpTrait
namespace impl

/-- The test shared by the two folders: same operation name and identical placement. -/
theorem same_name_and_placement_iff (op argument_op : Operation) :
    (op.getName == argument_op.getName && HaveIdenticalPlacement op argument_op) = true
      ↔ op.getName = argument_op.getName
        ∧ oneflow.UserOpAdaptor.device_tag op.getAttrDictionary
            = oneflow.UserOpAdaptor.device_tag argument_op.getAttrDictionary
        ∧ oneflow.UserOpAdaptor.device_name op.getAttrDictionary
            = oneflow.UserOpAdaptor.device_name argument_op.getAttrDictionary := by
  simp [HaveIdenticalPlacement]

/-- C14: for an operation with operand 0, foldIdempotentOfIdenticalPlacement returns that
operand exactly when the operand has a defining operation with the name of `op` and the
same device_tag and device_name attributes as `op`; in every other case (no defining
operation, another name, another device_tag or device_name) it returns the empty result. -/
theorem foldIdempotentOfIdenticalPlacement_iff (op : Operation) (operand0 : Value)
    (h0 : op.getOperand 0 = some operand0) :
    (foldIdempotentOfIdenticalPlacement op = some (.value operand0)
        ↔ ∃ argument_op : Operation, operand0.getDefiningOp = some argument_op
            ∧ op.getName = argument_op.getName
            ∧ oneflow.UserOpAdaptor.device_tag op.getAttrDictionary
                = oneflow.UserOpAdaptor.device_tag argument_op.getAttrDictionary
            ∧ oneflow.UserOpAdaptor.device_name op.getAttrDictionary
                = oneflow.UserOpAdaptor.device_name argument_op.getAttrDictionary)
    ∧ (foldIdempotentOfIdenticalPlacement op = some .empty
        ↔ ¬ ∃ argument_op : Operation, operand0.getDefiningOp = some argument_op
            ∧ op.getName = argument_op.getName
            ∧ oneflow.UserOpAdaptor.device_tag op.getAttrDictionary
                = oneflow.UserOpAdaptor.device_tag argument_op.getAttrDictionary
            ∧ oneflow.UserOpAdaptor.device_name op.getAttrDictionary
                = oneflow.UserOpAdaptor.device_name argument_op.getAttrDictionary) := by
  unfold foldIdempotentOfIdenticalPlacement
  simp only [h0]
  cases hd : operand0.getDefiningOp with
  | none => simp
  | some argument_op =>
    dsimp only
    by_cases hb : (op.getName == argument_op.getName
        && HaveIdenticalPlacement op argument_op) = true
    · have hc := (same_name_and_placement_iff op argument_op).mp hb
      rw [if_pos hb]
      exact ⟨⟨fun _ => ⟨argument_op, rfl, hc⟩, fun _ => rfl⟩,
        ⟨fun h => (by cases h), fun h => (h ⟨argument_op, rfl, hc⟩).elim⟩⟩
    · have hc : ¬ ∃ a : Operation, some argument_op = some a
          ∧ op.getName = a.getName
          ∧ oneflow.UserOpAdaptor.device_tag op.getAttrDictionary
              = oneflow.UserOpAdaptor.device_tag a.getAttrDictionary
          ∧ oneflow.UserOpAdaptor.device_name op.getAttrDictionary
              = oneflow.UserOpAdaptor.device_name a.getAttrDictionary := by
        rintro ⟨a, ha, hrest⟩
        cases ha
        exact hb ((same_name_and_placement_iff op argument_op).mpr hrest)
      rw [if_neg hb]
      exact ⟨⟨fun h => (by cases h), fun h => (hc h).elim⟩, ⟨fun _ => hc, fun _ => rfl⟩⟩

/-- C14 on relu(relu(x)) with both operations on the same placement. -/
theorem foldIdempotentOfIdenticalPlacement_iff_witness :
    foldIdempotentOfIdenticalPlacement
        (Example.relu (.OpResult (Example.relu (.BlockArgument 0)) 0))
      = some (.value (.OpResult (Example.relu (.BlockArgument 0)) 0)) :=
  (foldIdempotentOfIdenticalPlacement_iff
    (Example.relu (.OpResult (Example.relu (.BlockArgument 0)) 0))
    (.OpResult (Example.relu (.BlockArgument 0)) 0) rfl).1.mpr
    ⟨Example.relu (.BlockArgument 0), rfl, rfl, rfl, rfl⟩

/-- C15: for an operation with operand 0, foldInvolutionOfIdenticalPlacement returns a value
`inner` exactly when operand 0 has a defining operation with the name of `op` and the same
device_tag and device_name attributes as `op`, and `inner` is operand 0 of that defining
operation.  It returns the empty result exactly when there is no such defining operation:
operand 0 has no defining operation, or the defining operation has another name, another
device_tag or another device_name, whether or not it has operands.  The only remaining case
is a defining operation that passes the test and has no operand 0, where getOperand(0) has
no defined result; the folder never returns an attribute. -/
theorem foldInvolutionOfIdenticalPlacement_iff (op : Operation) (operand0 : Value)
    (h0 : op.getOperand 0 = some operand0) :
    (∀ inner : Value,
        foldInvolutionOfIdenticalPlacement op = some (.value inner)
          ↔ ∃ argument_op : Operation, operand0.getDefiningOp = some argument_op
              ∧ op.getName = argument_op.getName
              ∧ oneflow.UserOpAdaptor.device_tag op.getAttrDictionary
                  = oneflow.UserOpAdaptor.device_tag argument_op.getAttrDictionary
              ∧ oneflow.UserOpAdaptor.device_name op.getAttrDictionary
                  = oneflow.UserOpAdaptor.device_name argument_op.getAttrDictionary
              ∧ argument_op.getOperand 0 = some inner)
    ∧ (foldInvolutionOfIdenticalPlacement op = some .empty
        ↔ ¬ ∃ argument_op : Operation, operand0.getDefiningOp = some argument_op
            ∧ op.getName = argument_op.getName
            ∧ oneflow.UserOpAdaptor.device_tag op.getAttrDictionary
                = oneflow.UserOpAdaptor.device_tag argument_op.getAttrDictionary
            ∧ oneflow.UserOpAdaptor.device_name op.getAttrDictionary
                = oneflow.UserOpAdaptor.device_name argument_op.getAttrDictionary)
    ∧ (foldInvolutionOfIdenticalPlacement op = none
        ↔ ∃ argument_op : Operation, operand0.getDefiningOp = some argument_op
            ∧ op.getName = argument_op.getName
            ∧ oneflow.UserOpAdaptor.device_tag op.getAttrDictionary
                = oneflow.UserOpAdaptor.device_tag argument_op.getAttrDictionary
            ∧ oneflow.UserOpAdaptor.device_name op.getAttrDictionary
                = oneflow.UserOpAdaptor.device_name argument_op.getAttrDictionary
            ∧ argument_op.getOperand 0 = none)
    ∧ (∀ a : Attribute, foldInvolutionOfIdenticalPlacement op ≠ some (.attribute a)) := by
  unfold foldInvolutionOfIdenticalPlacement
  simp only [h0]
  cases hd : operand0.getDefiningOp with
  | none => simp
  | some argument_op =>
    dsimp only
    by_cases hb : (op.getName == argument_op.getName
        && HaveIdenticalPlacement op argument_op) = true
    · have hc := (same_name_and_placement_iff op argument_op).mp hb
      rw [if_pos hb]
      cases hinner : argument_op.getOperand 0 with
      | none =>
        refine ⟨fun inner => ⟨fun h => (by cases h), ?_⟩,
          ⟨fun h => (by cases h), fun h => (h ⟨argument_op, rfl, hc⟩).elim⟩,
          ⟨fun _ => ⟨argument_op, rfl, hc.1, hc.2.1, hc.2.2, hinner⟩, fun _ => rfl⟩,
          fun a h => (by cases h)⟩
        rintro ⟨a, ha, _, _, _, hin⟩
        cases ha
        rw [hinner] at hin
        cases hin
      | some inner0 =>
        refine ⟨fun inner => ⟨fun h => ?_, ?_⟩,
          ⟨fun h => (by cases h), fun h => (h ⟨argument_op, rfl, hc⟩).elim⟩,
          ⟨fun h => (by cases h), ?_⟩, fun a h => (by cases h)⟩
        · simp only [Option.map_some', Option.some.injEq, OpFoldResult.value.injEq] at h
          exact ⟨argument_op, rfl, hc.1, hc.2.1, hc.2.2, by rw [hinner, h]⟩
        · rintro ⟨a, ha, _, _, _, hin⟩
          cases ha
          rw [hinner] at hin
          cases hin
          rfl
        · rintro ⟨a, ha, _, _, _, hin⟩
          cases ha
          rw [hinner] at hin
          cases hin
    · have hc : ¬ ∃ a : Operation, some argument_op = some a
          ∧ op.getName = a.getName
          ∧ oneflow.UserOpAdaptor.device_tag op.getAttrDictionary
              = oneflow.UserOpAdaptor.device_tag a.getAttrDictionary
          ∧ oneflow.UserOpAdaptor.device_name op.getAttrDictionary
              = oneflow.UserOpAdaptor.device_name a.getAttrDictionary := by
        rintro ⟨a, ha, hrest⟩
        cases ha
        exact hb ((same_name_and_placement_iff op argument_op).mpr hrest)
      rw [if_neg hb]
      refine ⟨fun inner => ⟨fun h => (by cases h), ?_⟩, ⟨fun _ => hc, fun _ => rfl⟩,
        ⟨fun h => (by cases h), ?_⟩, fun a h => (by cases h)⟩
      · rintro ⟨a, ha, h1, h2, h3, _⟩
        exact (hc ⟨a, ha, h1, h2, h3⟩).elim
      · rintro ⟨a, ha, h1, h2, h3, _⟩
        exact (hc ⟨a, ha, h1, h2, h3⟩).elim

/-- C15 on concrete operations: relu(relu(x)) with identical placement folds to x, a cpu
inner operation does not, and an inner operation of another name that has no operands at
all (a constant) does not either. -/
theorem foldInvolutionOfIdenticalPlacement_iff_witness :
    foldInvolutionOfIdenticalPlacement
        (Example.relu (.OpResult (Example.relu (.BlockArgument 0)) 0))
      = some (.value (.BlockArgument 0))
    ∧ foldInvolutionOfIdenticalPlacement
        (Example.relu (.OpResult (Example.relu_on_cpu (.BlockArgument 0)) 0))
      = some .empty
    ∧ foldInvolutionOfIdenticalPlacement (Example.relu (.OpResult Example.constant 0))
      = some .empty :=
  ⟨((foldInvolutionOfIdenticalPlacement_iff
      (Example.relu (.OpResult (Example.relu (.BlockArgument 0)) 0))
      (.OpResult (Example.relu (.BlockArgument 0)) 0) rfl).1 (.BlockArgument 0)).mpr
      ⟨Example.relu (.BlockArgument 0), rfl, rfl, rfl, rfl, rfl⟩,
   (foldInvolutionOfIdenticalPlacement_iff
      (Example.relu (.OpResult (Example.relu_on_cpu (.BlockArgument 0)) 0))
      (.OpResult (Example.relu_on_cpu (.BlockArgument 0)) 0) rfl).2.1.mpr
      (by
        rintro ⟨a, ha, _, htag, _⟩
        cases ha
        exact absurd htag (by decide)),
   (foldInvolutionOfIdenticalPlacement_iff
      (Example.relu (.OpResult Example.constant 0))
      (.OpResult Example.constant 0) rfl).2.1.mpr
      (by
        rintro ⟨a, ha, hname, _⟩
        cases ha
        exact absurd hname (by decide))⟩

/-- C16: VerifyIsOpConfCompatible succeeds exactly when the operation has the op name and
device tag attributes as string attributes and the device name attribute as an array
attribute; otherwise the error "expected operation to have attribute: " names the first
attribute, in the order op name, device tag, device name, that is missing or of another
kind. -/
theorem VerifyIsOpConfCompatible_iff (getOpNameAttr getDeviceTagAttr getDeviceNameAttr : String)
    (op : Operation) :
    (VerifyIsOpConfCompatible getOpNameAttr getDeviceTagAttr getDeviceNameAttr op = .success
        ↔ op.hasAttrOfType_StringAttr getOpNameAttr = true
          ∧ op.hasAttrOfType_StringAttr getDeviceTagAttr = true
          ∧ op.hasAttrOfType_ArrayAttr getDeviceNameAttr = true)
    ∧ (op.hasAttrOfType_StringAttr getOpNameAttr = false →
        VerifyIsOpConfCompatible getOpNameAttr getDeviceTagAttr getDeviceNameAttr op
          = .failure ("expected operation to have attribute: " ++ getOpNameAttr))
    ∧ (op.hasAttrOfType_StringAttr getOpNameAttr = true →
        op.hasAttrOfType_StringAttr getDeviceTagAttr = false →
        VerifyIsOpConfCompatible getOpNameAttr getDeviceTagAttr getDeviceNameAttr op
          = .failure ("expected operation to have attribute: " ++ getDeviceTagAttr))
    ∧ (op.hasAttrOfType_StringAttr getOpNameAttr = true →
        op.hasAttrOfType_StringAttr getDeviceTagAttr = true →
        op.hasAttrOfType_ArrayAttr getDeviceNameAttr = false →
        VerifyIsOpConfCompatible getOpNameAttr getDeviceTagAttr getDeviceNameAttr op
          = .failure ("expected operation to have attribute: " ++ getDeviceNameAttr)) := by
  unfold VerifyIsOpConfCompatible
  cases h1 : op.hasAttrOfType_StringAttr getOpNameAttr <;>
    cases h2 : op.hasAttrOfType_StringAttr getDeviceTagAttr <;>
    cases h3 : op.hasAttrOfType_ArrayAttr getDeviceNameAttr <;>
    simp [VerifyIsOpConfCompatible.loop, h1, h2, h3]

/-- C16 on an operation without attributes, and on a fully attributed one. -/
theorem VerifyIsOpConfCompatible_iff_witness :
    VerifyIsOpConfCompatible "op_name" "device_tag" "device_name"
        (.mk "oneflow.relu" [] [("op_name", .ArrayAttr [])] none)
      = .failure ("expected operation to have attribute: " ++ "op_name")
    ∧ VerifyIsOpConfCompatible "op_name" "device_tag" "device_name"
        (Example.relu (.BlockArgument 0)) = .success :=
  ⟨(VerifyIsOpConfCompatible_iff "op_name" "device_tag" "device_name"
      (.mk "oneflow.relu" [] [("op_name", .ArrayAttr [])] none)).2.1 (by decide),
   (VerifyIsOpConfCompatible_iff "op_name" "device_tag" "device_name"
      (Example.relu (.BlockArgument 0))).1.mpr (by decide)⟩

/-- C17: VerifyIsImportCompatible succeeds exactly when the operation has the output LBNs
attribute as an array attribute, supports ControlEdgeCompatible, and has as many data
output results as output LBNs.  Otherwise it fails, in this priority: with the missing
attribute error, with "expected to support ControlEdgeCompatible", with the count mismatch
that gives the number of LBNs as expected and the number of data output results as got. -/
theorem VerifyIsImportCompatible_iff (getOutputLBNsAttr : String) (op : Operation) :
    (VerifyIsImportCompatible getOutputLBNsAttr op = .success
        ↔ ∃ output_lbns : List Nat,
            op.getAttrOfType_ArrayAttr getOutputLBNsAttr = some output_lbns
            ∧ op.controlEdgeCompatible = some output_lbns.length)
    ∧ (op.getAttrOfType_ArrayAttr getOutputLBNsAttr = none →
        VerifyIsImportCompatible getOutputLBNsAttr op
          = .failure ("expected operation to have attribute: " ++ getOutputLBNsAttr))
    ∧ (∀ output_lbns : List Nat,
        op.getAttrOfType_ArrayAttr getOutputLBNsAttr = some output_lbns →
        op.controlEdgeCompatible = none →
        VerifyIsImportCompatible getOutputLBNsAttr op
          = .failure "expected to support ControlEdgeCompatible")
    ∧ (∀ (output_lbns : List Nat) (dataOutputResults_size : Nat),
        op.getAttrOfType_ArrayAttr getOutputLBNsAttr = some output_lbns →
        op.controlEdgeCompatible = some dataOutputResults_size →
        dataOutputResults_size ≠ output_lbns.length →
        VerifyIsImportCompatible getOutputLBNsAttr op
          = .failure ("expected number of data output results to be "
              ++ toString output_lbns.length ++ " but got "
              ++ toString dataOutputResults_size)) := by
  unfold VerifyIsImportCompatible
  cases h1 : op.getAttrOfType_ArrayAttr getOutputLBNsAttr with
  | none => simp
  | some output_lbns =>
    cases h2 : op.controlEdgeCompatible with
    | none => simp
    | some n =>
      by_cases h3 : n = output_lbns.length
      · simp [h3]
      · simp [h3]

/-- C17 on an operation with one output LBN and three data output results. -/
theorem VerifyIsImportCompatible_iff_witness :
    VerifyIsImportCompatible "output_lbns"
        (.mk "oneflow.relu" [] [("output_lbns", .ArrayAttr [11])] (some 3))
      = .failure ("expected number of data output results to be "
          ++ toString 1 ++ " but got " ++ toString 3) :=
  (VerifyIsImportCompatible_iff "output_lbns"
    (.mk "oneflow.relu" [] [("output_lbns", .ArrayAttr [11])] (some 3))).2.2.2
    [11] 3 rfl rfl (by decide)

end impl
end OpTrait
end mlir
